import Mathlib

/-!
# AudioMoth-Live: a shallow embedding of `src/main.c`

The C program is translated function by function.  Globals and `static`
locals become fields of explicit state records, calls into external
modules (directory test, WAV encoder, clock) become parameters or logged
actions, `int32_t` results are wrapped to 32 bits where the C type is
`int32_t`, and a division by zero or a loop that runs out of fuel is the
result `none`.
-/

namespace AudioMothLive

/-! ## Constants of `main.c` -/

def CALLBACKS_PER_SECOND : Int := 10
def OKAY_RESPONSE : Int := 0
def ERROR_RESPONSE : Int := 1
def MAXIMUM_RECORD_DURATION : Int := 60
def DEFAULT_SAMPLE_RATE : Int := 48000
def MAXIMUM_SAMPLE_RATE : Int := 384000
def AUDIO_BUFFER_SIZE : Int := 2 ^ 25
def ARGUMENT_BUFFER_SIZE : Nat := 1024
def FILE_DESTINATION_SIZE : Nat := 8192
def SECONDS_IN_MINUTE : Int := 60
def MINUTES_IN_HOUR : Int := 60
def MILLISECONDS_IN_SECOND : Int := 1000
def TIME_MISMATCH_LIMIT : Int := 2000
def PLAYBACK_SAMPLE_RATE : Int := 48000
def MINIMUM_HETERODYNE_FREQUENCY : Int := 12000
def INT64_MAX : Int := 2 ^ 63 - 1
def INT16_MIN : Int := -32768
def INT16_MAX : Int := 32767

def validAutosaveDurations : List Int := [0, 1, 5, 10, 60]

def validSampleRates : List Int :=
  [8000, 16000, 32000, 48000, 96000, 192000, 250000, 384000]

/-! ## C integer arithmetic -/

/-- Conversion of an integer to `int32_t` (two's complement wrap). -/
def wrap32 (x : Int) : Int := (x + 2 ^ 31) % 2 ^ 32 - 2 ^ 31

/-- C integer division `a / b`: truncation toward zero, `none` when `b` is zero. -/
def cDiv (a b : Int) : Option Int := if b = 0 then none else some (Int.tdiv a b)

/-- C remainder `a % b`: sign of the dividend, `none` when `b` is zero. -/
def cMod (a b : Int) : Option Int := if b = 0 then none else some (Int.tmod a b)

/-- The macro `ROUNDED_DIV(a, b)` of `macros.h`: `((a) + ((b)/2)) / (b)`. -/
def ROUNDED_DIV (a b : Int) : Option Int := cDiv (a + Int.tdiv b 2) b

/-! ## Argument parsing (`parseArgument`, `parseNumber`, `parseNumberAgainstList`, `main`) -/

/-- `parseArgument(pattern, text)`: the first `ARGUMENT_BUFFER_SIZE` characters of
`text` are upper-cased into a buffer which is compared with `pattern`
(every pattern used is shorter than the buffer).  Strings are sequences of one-byte
characters. -/
def parseArgument (pattern text : String) : Bool :=
  (text.toList.take ARGUMENT_BUFFER_SIZE).map Char.toUpper == pattern.toList

/-- Decimal value of the leading run of digits of a character list, given the
value accumulated so far. -/
def digitsValue : Nat → List Char → Nat
  | acc, [] => acc
  | acc, c :: cs =>
    if c.isDigit then digitsValue (10 * acc + (c.toNat - '0'.toNat)) cs else acc

/-- The C library `atoi` on a string that starts with digits: the decimal value of
the leading digits, as `(int) strtol(text, NULL, 10)` delivers it (the `long`
saturates at `2^63 - 1` and is then truncated to 32 bits). -/
def atoi (text : String) : Int :=
  wrap32 (min (digitsValue 0 text.toList : Int) (2 ^ 63 - 1))

/-- `parseNumber(text, &number)`: `none` is the result `false`; `some v` is the
result `true` with `v` stored through the pointer when it is not `NULL`.
Only the first `ARGUMENT_BUFFER_SIZE` characters are inspected. -/
def parseNumber (text : String) : Option Int :=
  if (text.toList.take ARGUMENT_BUFFER_SIZE).all Char.isDigit then some (atoi text) else none

/-- `parseNumberAgainstList(text, validNumbers, length, &number)`: the returned pair
is the boolean result and the content of `*number` afterwards. -/
def parseNumberAgainstList (text : String) (validNumbers : List Int) (number : Int) :
    Bool × Int :=
  match parseNumber text with
  | none => (false, number)
  | some value => if validNumbers.contains value then (true, value) else (false, number)

/-- The variables read and written by the argument loop of `main`. -/
structure Arguments where
  fileDestination : String
  parseError : Bool
  argumentCounter : Nat
  heterodyneFrequency : Int
  possibleFileDestinationCount : Nat
  monitorEnabled : Bool
  heterodyneEnabled : Bool
  useLocalTime : Bool
  autosaveDuration : Int
  requestedSampleRate : Int
  maximumDefaultSampleRate : Int
  deriving DecidableEq

/-- Values of the variables when `main` enters the argument loop. -/
def initialArguments : Arguments where
  fileDestination := "."
  parseError := false
  argumentCounter := 1
  heterodyneFrequency := 0
  possibleFileDestinationCount := 0
  monitorEnabled := false
  heterodyneEnabled := false
  useLocalTime := true
  autosaveDuration := 0
  requestedSampleRate := DEFAULT_SAMPLE_RATE
  maximumDefaultSampleRate := DEFAULT_SAMPLE_RATE

/-- `strncpy(fileDestination, argument, FILE_DESTINATION_SIZE)`. -/
def copyFileDestination (argument : String) : String :=
  String.mk (argument.toList.take FILE_DESTINATION_SIZE)

/-- How one pass through the body of the argument loop ends. -/
inductive LoopStep where
  | next (a : Arguments)
  | stop (a : Arguments)
  | exit (code : Int) (a : Arguments)
  deriving DecidableEq

/-- One pass through the body of `while (argumentCounter < argc)` in `main`, entered
with `argument = argv[argumentCounter]`.  `next` is the end of the body or the
`continue`, `stop` is `if (parseError) break`, `exit` is a `return`. -/
def argumentStep (Directory_exists : String → Bool) (argv : List String)
    (argument : String) (a : Arguments) : LoopStep :=
  if a.argumentCounter = a.possibleFileDestinationCount ∧ Directory_exists argument then
    .next { a with fileDestination := copyFileDestination argument,
                   argumentCounter := a.argumentCounter + 1 }
  else
    let finish (b : Arguments) : LoopStep :=
      if b.parseError then .stop b else .next { b with argumentCounter := b.argumentCounter + 1 }
    if parseArgument "HIGHSAMPLERATE" argument || parseArgument "HSR" argument then
      finish { a with maximumDefaultSampleRate := MAXIMUM_SAMPLE_RATE }
    else if parseArgument "UTC" argument then
      finish { a with useLocalTime := false }
    else if parseArgument "AUTOSAVE" argument then
      let counter := a.argumentCounter + 1
      let b := { a with argumentCounter := counter, possibleFileDestinationCount := counter + 1 }
      match argv[counter]? with
      | none => finish { b with parseError := true }
      | some value =>
        let r := parseNumberAgainstList value validAutosaveDurations b.autosaveDuration
        finish { b with autosaveDuration := r.2, parseError := r.1 == false }
    else if parseArgument "MONITOR" argument then
      finish { a with monitorEnabled := true }
    else if parseArgument "HETERODYNE" argument then
      let counter := a.argumentCounter + 1
      let b := { a with argumentCounter := counter, heterodyneEnabled := true }
      match argv[counter]? with
      | none => finish { b with parseError := true }
      | some value =>
        match parseNumber value with
        | none => finish { b with parseError := true }
        | some frequency => finish { b with heterodyneFrequency := frequency, parseError := false }
    else
      match parseNumber argument with
      | some _ =>
        let r := parseNumberAgainstList argument validSampleRates a.requestedSampleRate
        finish { a with requestedSampleRate := r.2, parseError := r.1 == false }
      | none =>
        if a.argumentCounter = a.possibleFileDestinationCount then .exit ERROR_RESPONSE a
        else finish { a with parseError := true }

/-- Result of the argument-parsing part of `main`: either `main` has returned with
an exit code, or it goes on with the parsed settings. -/
inductive ParseResult where
  | returned (code : Int) (a : Arguments)
  | parsed (a : Arguments)
  deriving DecidableEq

/-- The loop `while (argumentCounter < argc)` followed by `if (parseError) return
ERROR_RESPONSE`.  Every pass advances `argumentCounter`, so `argc` passes are
always enough; `none` means the fuel ran out first. -/
def argumentLoop (Directory_exists : String → Bool) (argv : List String) :
    Nat → Arguments → Option ParseResult
  | fuel, a =>
    match argv[a.argumentCounter]? with
    | none => some (if a.parseError then .returned ERROR_RESPONSE a else .parsed a)
    | some argument =>
      match fuel with
      | 0 => none
      | fuel + 1 =>
        match argumentStep Directory_exists argv argument a with
        | .next b => argumentLoop Directory_exists argv fuel b
        | .stop b => some (.returned ERROR_RESPONSE b)
        | .exit code b => some (.returned code b)

/-- The variables of the argument loop after `AUTOSAVE <value> <directory>` has been
read as the first three arguments. -/
def directoryAccepted (directory : String) (value : Int) : Arguments :=
  { initialArguments with
    fileDestination := directory
    autosaveDuration := value
    possibleFileDestinationCount := 3
    argumentCounter := 4 }

/-- Argument parsing of `main(argc, argv)` with `argc = argv.length`. -/
def parseArguments (Directory_exists : String → Bool) (argv : List String) :
    Option ParseResult :=
  argumentLoop Directory_exists argv argv.length initialArguments

/-! ## Autosave: events, file cursor and the WAV encoder calls -/

/-- Modelled from the spec: the event types of `autosave.h` (absent from the sources),
`type ∈ {START, RESTART, STOP, SHUTDOWN}`. -/
inductive AS_event_type where
  | AS_START
  | AS_RESTART
  | AS_STOP
  | AS_SHUTDOWN
  deriving DecidableEq

/-- Modelled from the spec: the event record `AS_event_t` of `autosave.h` (absent from
the sources), with the fields that `addAutosaveEvent` fills in. -/
structure AS_event where
  type : AS_event_type
  sampleRate : Int
  currentCount : Int
  currentIndex : Int
  startTime : Int
  startCount : Int
  inputDeviceCommentName : String
  deriving DecidableEq

/-- The fields of `struct tm` that `main.c` reads. -/
structure Tm where
  tm_hour : Int
  tm_min : Int
  tm_sec : Int
  deriving DecidableEq

/-- Modelled from the spec: `Time_gmTime` of `xtime.c` (absent from the sources), the
UTC broken-down time of a count of seconds since the epoch. -/
def Time_gmTime (rawTime : Int) : Tm where
  tm_hour := rawTime / 3600 % 24
  tm_min := rawTime / 60 % 60
  tm_sec := rawTime % 60

/-- A range of samples of `audioBuffer` handed to the encoder: pointer
`audioBuffer + start` and a number of samples. -/
structure SampleRange where
  start : Int
  length : Int
  deriving DecidableEq

/-- Arguments of `WavFile_setFilename`, which determine the file name it writes into
`autosaveFilename`. -/
structure Filename where
  time : Int
  fileDestination : String
  deriving DecidableEq

/-- What `WavFile_setHeaderDetails` and `WavFile_setHeaderComment` put in the header. -/
structure WAV_header where
  sampleRate : Int
  numberOfSamples : Int
  commentTime : Int
  localTimeOffset : Int
  inputDeviceCommentName : String
  deriving DecidableEq

/-- A call into the WAV encoder.  The second range is `none` for the arguments
`NULL, 0`.  The file name is `none` while `autosaveFilename` has never been set. -/
inductive WavCall where
  | appendFile (filename : Option Filename) (first : SampleRange) (second : Option SampleRange)
  | writeFile (header : WAV_header) (filename : Filename) (first : SampleRange)
      (second : Option SampleRange)
  deriving DecidableEq

/-- Number of samples in an optional second range. -/
def secondLength : Option SampleRange → Int
  | none => 0
  | some r => r.length

/-- Total number of samples a call hands to the encoder. -/
def WavCall.samples : WavCall → Int
  | .appendFile _ first second => first.length + secondLength second
  | .writeFile _ _ first second => first.length + secondLength second

/-- The two ranges of a call. -/
def WavCall.ranges : WavCall → SampleRange × Option SampleRange
  | .appendFile _ first second => (first, second)
  | .writeFile _ _ first second => (first, second)

/-- A line written with `puts` by the autosave code. -/
inductive LogLine where
  | fileTime (start stop timeOffset : Int)
  | couldNotWrite
  deriving DecidableEq

/-- What the outside world answers during one call of `writeAutosaveFile`: the value of
`Time_getLocalTimeOffset()` and the results of `WavFile_appendFile` and
`WavFile_writeFile`. -/
structure WriteEnv where
  localTimeOffset : Int
  appendResult : Bool
  writeResult : Bool
  deriving DecidableEq

/-- The autosave variables of `main.c`: the globals, the `static` locals of
`writeAutosaveFile`, and the trace of encoder calls and log lines made so far.
`writeCount` counts the calls of `writeAutosaveFile` that reached the encoder and
selects the answers of the outside world. -/
structure Autosave where
  autosaveDuration : Int
  useLocalTime : Bool
  fileDestination : String
  autosaveFileStartTime : Int
  autosaveFileStartIndex : Int
  autosaveFileStartCount : Int
  autosaveFileSampleRate : Int
  autosaveShutdownCompleted : Bool
  autosaveTargetCount : Int
  autosaveWaitingForStartEvent : Bool
  autosaveInputDeviceCommentName : String
  previousLocalTimeOffset : Int
  autosaveFilename : Option Filename
  autosaveFilePreviousStopTime : Int
  writeCount : Nat
  calls : List WavCall
  output : List LogLine
  deriving DecidableEq

/-- The autosave variables at program start, with the settings parsed from the
command line. -/
def initialAutosave (autosaveDuration : Int) (useLocalTime : Bool) (fileDestination : String) :
    Autosave where
  autosaveDuration := autosaveDuration
  useLocalTime := useLocalTime
  fileDestination := fileDestination
  autosaveFileStartTime := 0
  autosaveFileStartIndex := 0
  autosaveFileStartCount := 0
  autosaveFileSampleRate := 0
  autosaveShutdownCompleted := false
  autosaveTargetCount := INT64_MAX
  autosaveWaitingForStartEvent := true
  autosaveInputDeviceCommentName := ""
  previousLocalTimeOffset := 0
  autosaveFilename := none
  autosaveFilePreviousStopTime := 0
  writeCount := 0
  calls := []
  output := []

/-- The `printf` conversion `%02d`. -/
def format02d (n : Int) : String :=
  if 0 ≤ n ∧ n < 10 then "0" ++ toString n else toString n

/-- `formatFileTime(buffer, start, stop, timeOffset)`: the text left in `buffer`. -/
def formatFileTime (start stop timeOffset : Int) : String :=
  let time := Time_gmTime (start + timeOffset)
  let part1 := format02d time.tm_hour ++ ":" ++ format02d time.tm_min ++ ":"
    ++ format02d time.tm_sec ++ " to "
  let time := Time_gmTime (stop + timeOffset)
  let part2 := format02d time.tm_hour ++ ":" ++ format02d time.tm_min ++ ":"
    ++ format02d time.tm_sec ++ " (UTC"
  let timeOffsetMinutes := Int.tdiv timeOffset SECONDS_IN_MINUTE
  let timezoneHours := Int.tdiv timeOffsetMinutes MINUTES_IN_HOUR
  let timezoneMinutes := Int.tmod timeOffsetMinutes MINUTES_IN_HOUR
  let part3 :=
    if timezoneHours < 0 then toString timezoneHours
    else if timezoneHours > 0 then "+" ++ toString timezoneHours
    else (if timezoneMinutes < 0 then "-0" else "") ++ (if timezoneMinutes > 0 then "+0" else "")
  let part4 := if timezoneMinutes < 0 then ":" ++ format02d (-timezoneMinutes) else ""
  let part5 := if timezoneMinutes > 0 then ":" ++ format02d timezoneMinutes else ""
  part1 ++ part2 ++ part3 ++ part4 ++ part5 ++ ")"

/-- The text of a log line. -/
def LogLine.text : LogLine → String
  | .fileTime start stop timeOffset => formatFileTime start stop timeOffset
  | .couldNotWrite => "[AUTOSAVE] Could not write WAV file"

/-- The condition `timeStart.tm_sec == 0 && timeStart.tm_min % autosaveDuration > 0` of
`writeAutosaveFile`; the remainder is only computed when `tm_sec` is zero. -/
def minuteInsidePeriod (timeStart : Tm) (autosaveDuration : Int) : Option Bool :=
  if timeStart.tm_sec = 0 then (cMod timeStart.tm_min autosaveDuration).map (fun r => decide (r > 0))
  else some false

/-- The two ranges handed to the encoder by `writeAutosaveFile` for a file of
`numberOfSamples` samples starting at `autosaveFileStartIndex`. -/
def encoderRanges (autosaveFileStartIndex numberOfSamples : Int) :
    SampleRange × Option SampleRange :=
  let overlap := wrap32 (autosaveFileStartIndex + numberOfSamples - AUDIO_BUFFER_SIZE)
  if overlap < 0 then (⟨autosaveFileStartIndex, numberOfSamples⟩, none)
  else (⟨autosaveFileStartIndex, wrap32 (numberOfSamples - overlap)⟩, some ⟨0, overlap⟩)

/-- `writeAutosaveFile(duration)`.  The result is the returned `success` and the new
state; `none` is a division by zero. -/
def writeAutosaveFile (env : Nat → WriteEnv) (duration : Int) (s : Autosave) :
    Option (Bool × Autosave) :=
  if duration = 0 then some (true, s) else
  let world := env s.writeCount
  let localTimeOffset := if s.useLocalTime then world.localTimeOffset else 0
  let timeStart := Time_gmTime s.autosaveFileStartTime
  match minuteInsidePeriod timeStart s.autosaveDuration with
  | none => none
  | some inside =>
    let append := decide (localTimeOffset = s.previousLocalTimeOffset)
      && decide (s.autosaveFileStartTime = s.autosaveFilePreviousStopTime) && inside
    let autosaveFilePreviousStopTime := s.autosaveFileStartTime + duration
    let numberOfSamples := wrap32 (duration * s.autosaveFileSampleRate)
    let ranges := encoderRanges s.autosaveFileStartIndex numberOfSamples
    let appended : Bool × List WavCall :=
      if append then
        (world.appendResult, [WavCall.appendFile s.autosaveFilename ranges.1 ranges.2])
      else (false, [])
    let fresh : Bool × Option Filename × List WavCall :=
      if append = false ∨ appended.1 = false then
        let header : WAV_header :=
          { sampleRate := s.autosaveFileSampleRate
            numberOfSamples := numberOfSamples
            commentTime := wrap32 (wrap32 s.autosaveFileStartTime + localTimeOffset)
            localTimeOffset := localTimeOffset
            inputDeviceCommentName := s.autosaveInputDeviceCommentName }
        let filename : Filename :=
          { time := wrap32 (wrap32 s.autosaveFileStartTime + localTimeOffset)
            fileDestination := s.fileDestination }
        (world.writeResult, some filename, [WavCall.writeFile header filename ranges.1 ranges.2])
      else (appended.1, s.autosaveFilename, [])
    some (fresh.1,
      { s with
        previousLocalTimeOffset := localTimeOffset
        autosaveFilePreviousStopTime := autosaveFilePreviousStopTime
        autosaveFilename := fresh.2.1
        writeCount := s.writeCount + 1
        calls := s.calls ++ appended.2 ++ fresh.2.2
        output := s.output ++
          [LogLine.fileTime s.autosaveFileStartTime autosaveFilePreviousStopTime localTimeOffset] })

/-- `makeMinuteTransitionRecording()`. -/
def makeMinuteTransitionRecording (env : Nat → WriteEnv) (s : Autosave) :
    Option (Bool × Autosave) := do
  let sampleCountDifference := s.autosaveTargetCount - s.autosaveFileStartCount
  let duration := wrap32 (← cDiv sampleCountDifference s.autosaveFileSampleRate)
  let (success, s) ← writeAutosaveFile env duration s
  let autosaveFileStartIndex ←
    cMod (s.autosaveFileStartIndex + sampleCountDifference) AUDIO_BUFFER_SIZE
  let autosaveFileStartCount := s.autosaveTargetCount
  some (success,
    { s with
      autosaveFileStartTime := s.autosaveFileStartTime + duration
      autosaveFileStartIndex := wrap32 autosaveFileStartIndex
      autosaveFileStartCount := autosaveFileStartCount
      autosaveTargetCount :=
        autosaveFileStartCount + wrap32 (SECONDS_IN_MINUTE * s.autosaveFileSampleRate) })

/-- `updateForMillisecondOffset(milliseconds)`. -/
def updateForMillisecondOffset (milliseconds : Int) (s : Autosave) : Option Autosave := do
  let s ←
    if milliseconds > 0 then do
      let millisecondOffset := wrap32 (MILLISECONDS_IN_SECOND - milliseconds)
      let sampleOffset := wrap32 (← ROUNDED_DIV
        (wrap32 (s.autosaveFileSampleRate * millisecondOffset)) MILLISECONDS_IN_SECOND)
      let autosaveFileStartIndex ←
        cMod (wrap32 (s.autosaveFileStartIndex + sampleOffset)) AUDIO_BUFFER_SIZE
      some { s with
        autosaveFileStartCount := s.autosaveFileStartCount + sampleOffset
        autosaveFileStartIndex := autosaveFileStartIndex
        autosaveFileStartTime := s.autosaveFileStartTime + 1 }
    else some s
  let time := Time_gmTime s.autosaveFileStartTime
  some { s with
    autosaveTargetCount := s.autosaveFileStartCount
      + wrap32 (wrap32 (SECONDS_IN_MINUTE - time.tm_sec) * s.autosaveFileSampleRate) }

/-! ## The background worker (`backgroundThreadBody`) -/

/-- The block `if (autosaveWaitingForStartEvent && event.type == AS_START)` of
`backgroundThreadBody`. -/
def startEvent (event : AS_event) (s : Autosave) : Option Autosave := do
  let autosaveFileSampleRate := event.sampleRate
  let countDifference := event.currentCount - event.startCount
  let updatedStartTime := event.startTime
    + (← ROUNDED_DIV (countDifference * MILLISECONDS_IN_SECOND) autosaveFileSampleRate)
  let milliseconds := wrap32 (Int.tmod updatedStartTime MILLISECONDS_IN_SECOND)
  let s ← updateForMillisecondOffset milliseconds
    { s with
      autosaveFileSampleRate := autosaveFileSampleRate
      autosaveInputDeviceCommentName := event.inputDeviceCommentName
      autosaveFileStartTime := Int.tdiv updatedStartTime MILLISECONDS_IN_SECOND
      autosaveFileStartCount := event.currentCount
      autosaveFileStartIndex := event.currentIndex }
  some { s with autosaveWaitingForStartEvent := false }

/-- The block `if (event.type == AS_RESTART)` of `backgroundThreadBody`. -/
def restartEvent (env : Nat → WriteEnv) (event : AS_event) (success : Bool) (s : Autosave) :
    Option (Bool × Autosave) := do
  let duration ← cDiv (wrap32 (event.startCount - s.autosaveFileStartCount))
    s.autosaveFileSampleRate
  let (written, s) ← writeAutosaveFile env duration s
  let milliseconds := wrap32 (Int.tmod event.startTime MILLISECONDS_IN_SECOND)
  let countDifference := event.currentCount - event.startCount
  let s ← updateForMillisecondOffset milliseconds
    { s with
      autosaveFileSampleRate := event.sampleRate
      autosaveInputDeviceCommentName := event.inputDeviceCommentName
      autosaveFileStartTime := Int.tdiv event.startTime MILLISECONDS_IN_SECOND
      autosaveFileStartCount := event.startCount
      autosaveFileStartIndex := wrap32
        (Int.tmod (AUDIO_BUFFER_SIZE + event.currentIndex - countDifference) AUDIO_BUFFER_SIZE) }
  some (success && written, s)

/-- The block `if (event.type == AS_STOP)` of `backgroundThreadBody`. -/
def stopEvent (env : Nat → WriteEnv) (event : AS_event) (success : Bool) (s : Autosave) :
    Option (Bool × Autosave) := do
  let duration ← cDiv (wrap32 (event.currentCount - s.autosaveFileStartCount))
    s.autosaveFileSampleRate
  let (written, s) ← writeAutosaveFile env duration s
  some (success && written,
    { s with autosaveWaitingForStartEvent := true, autosaveTargetCount := INT64_MAX })

/-- The block `if (event.type == AS_SHUTDOWN)` of `backgroundThreadBody`; the result of
its `writeAutosaveFile` is not used. -/
def shutdownEvent (env : Nat → WriteEnv) (event : AS_event) (s : Autosave) :
    Option Autosave := do
  let s ←
    if s.autosaveWaitingForStartEvent = false then do
      let duration ← cDiv (wrap32 (event.currentCount - s.autosaveFileStartCount))
        s.autosaveFileSampleRate
      let (_, s) ← writeAutosaveFile env duration s
      some s
    else some s
  some { s with
    autosaveShutdownCompleted := true
    autosaveWaitingForStartEvent := true
    autosaveTargetCount := INT64_MAX }

/-- One pass through the body of `while (Autosave_hasEvents())` in
`backgroundThreadBody`, for the event just taken from the queue. -/
def processEvent (env : Nat → WriteEnv) (currentSampleCount : Int) (event : AS_event)
    (success : Bool) (s : Autosave) : Option (Bool × Autosave) := do
  let s ←
    if s.autosaveWaitingForStartEvent = true ∧ event.type = .AS_START then startEvent event s
    else some s
  let (success, s) ←
    if currentSampleCount ≥ s.autosaveTargetCount ∧ s.autosaveTargetCount < event.currentCount
    then do
      let (written, s) ← makeMinuteTransitionRecording env s
      some (success && written, s)
    else some (success, s)
  let (success, s) ←
    if event.type = .AS_RESTART then restartEvent env event success s else some (success, s)
  let (success, s) ←
    if event.type = .AS_STOP then stopEvent env event success s else some (success, s)
  let s ← if event.type = .AS_SHUTDOWN then shutdownEvent env event s else some s
  some (success, s)

/-- The loop `while (Autosave_hasEvents())` over the events found in the queue. -/
def drainEvents (env : Nat → WriteEnv) (currentSampleCount : Int) :
    List AS_event → Bool → Autosave → Option (Bool × Autosave)
  | [], success, s => some (success, s)
  | event :: events, success, s => do
    let (success, s) ← processEvent env currentSampleCount event success s
    drainEvents env currentSampleCount events success s

/-- The autosave part of one pass through `while (true)` in `backgroundThreadBody`:
`currentSampleCount` is the snapshot of `autosaveSampleCount` and `events` are the
events taken from the queue during this pass. -/
def backgroundPass (env : Nat → WriteEnv) (currentSampleCount : Int) (events : List AS_event)
    (s : Autosave) : Option Autosave := do
  let (success, s) ← drainEvents env currentSampleCount events true s
  let (success, s) ←
    if currentSampleCount ≥ s.autosaveTargetCount then do
      let (written, s) ← makeMinuteTransitionRecording env s
      some (success && written, s)
    else some (success, s)
  some (if success = false then { s with output := s.output ++ [LogLine.couldNotWrite] } else s)

/-- Successive passes of the background worker, each with its snapshot of the sample
count and the events it finds in the queue. -/
def backgroundThreadBody (env : Nat → WriteEnv) :
    List (Int × List AS_event) → Autosave → Option Autosave
  | [], s => some s
  | (currentSampleCount, events) :: passes, s => do
    let s ← backgroundPass env currentSampleCount events s
    backgroundThreadBody env passes s

/-! ## The lifecycle in `main` after argument parsing -/

/-- `inputDeviceSampleRate` as `startMicrophone` sets it. -/
def inputDeviceSampleRateOf (usingAudioMoth : Bool)
    (audioMothSampleRate maximumDefaultSampleRate : Int) : Int :=
  if usingAudioMoth then audioMothSampleRate else maximumDefaultSampleRate

/-- `currentSampleRate = MIN(requestedSampleRate, inputDeviceSampleRate)` in
`startMicrophone`. -/
def currentSampleRateOf (requestedSampleRate inputDeviceSampleRate : Int) : Int :=
  if requestedSampleRate < inputDeviceSampleRate then requestedSampleRate
  else inputDeviceSampleRate

/-- What happens in one pass through `while (success)` in `main`: the two restart
conditions and, when the device is restarted, whether the capture thread reported
`started` before the timeout. -/
structure MainIteration where
  deviceChanged : Bool
  timeMismatch : Bool
  threadStarted : Bool
  deriving DecidableEq

/-- What the outside world does during a run of `main`: whether the contexts, the queue
and the buffer could be set up, the device found at startup, whether the microphone and
the capture thread started, and the passes of the main loop made before the signal
handler cleared `success`. -/
structure MainEnvironment where
  initialised : Bool
  usingAudioMoth : Bool
  audioMothSampleRate : Int
  startedMicrophone : Bool
  threadStarted : Bool
  iterations : List MainIteration
  deriving DecidableEq

/-- What a run of `main` did: the exit code, the types of the autosave events it
enqueued with `addAutosaveEvent` (in order), the arguments of `Heterodyne_initialise` if
it was called, and whether the playback thread was created. -/
structure MainResult where
  code : Int
  events : List AS_event_type
  heterodyne : Option (Int × Int)
  playback : Bool
  deriving DecidableEq

/-- The autosave events enqueued by the passes of `while (success)`: a pass that restarts
the device ends with `if (threadStarted && autosaveDuration > 0)
addAutosaveEvent(AS_RESTART)`. -/
def mainLoopEvents (autosaveDuration : Int) : List MainIteration → List AS_event_type
  | [] => []
  | pass :: passes =>
    if pass.deviceChanged = false ∧ pass.timeMismatch = false then
      mainLoopEvents autosaveDuration passes
    else
      (if pass.threadStarted = true ∧ autosaveDuration > 0 then [AS_event_type.AS_RESTART] else [])
        ++ mainLoopEvents autosaveDuration passes

/-- The part of `main` after the arguments have been parsed. -/
def mainAfterParse (a : Arguments) (env : MainEnvironment) : MainResult :=
  if a.monitorEnabled = false ∧ a.heterodyneEnabled = false ∧ a.autosaveDuration = 0 then
    ⟨OKAY_RESPONSE, [], none, false⟩
  else if env.initialised = false ∨ env.startedMicrophone = false then
    ⟨ERROR_RESPONSE, [], none, false⟩
  else if env.threadStarted = false then ⟨ERROR_RESPONSE, [], none, false⟩
  else
    let inputDeviceSampleRate := inputDeviceSampleRateOf env.usingAudioMoth
      env.audioMothSampleRate a.maximumDefaultSampleRate
    let currentSampleRate := currentSampleRateOf a.requestedSampleRate inputDeviceSampleRate
    if a.heterodyneEnabled = true ∧ (a.heterodyneFrequency < MINIMUM_HETERODYNE_FREQUENCY
        ∨ a.heterodyneFrequency > Int.tdiv currentSampleRate 2) then
      ⟨ERROR_RESPONSE, [], none, false⟩
    else
      let heterodyne :=
        if a.heterodyneEnabled then some (currentSampleRate, a.heterodyneFrequency) else none
      let started := if a.autosaveDuration > 0 then [AS_event_type.AS_START] else []
      let playback := a.monitorEnabled || a.heterodyneEnabled
      let running := mainLoopEvents a.autosaveDuration env.iterations
      if a.autosaveDuration = 0 then ⟨OKAY_RESPONSE, started ++ running, heterodyne, playback⟩
      else ⟨OKAY_RESPONSE, started ++ running ++ [AS_event_type.AS_SHUTDOWN], heterodyne, playback⟩

/-- The program `main(argc, argv)`; `none` only if the argument loop ran out of fuel. -/
def main (Directory_exists : String → Bool) (argv : List String) (env : MainEnvironment) :
    Option MainResult :=
  match parseArguments Directory_exists argv with
  | none => none
  | some (.returned code _) => some ⟨code, [], none, false⟩
  | some (.parsed a) => some (mainAfterParse a env)

/-! ## The capture callback (`capture_data_callback`)

The `double` variables of the resamplers are rationals: the arithmetic is exact. -/

/-- The C library `round`: nearest integer, halfway cases away from zero. -/
def roundHalfAway (x : ℚ) : Int := if 0 ≤ x then ⌊x + 1 / 2⌋ else ⌈x - 1 / 2⌉

/-- `(int16_t) MAX(INT16_MIN, MIN(INT16_MAX, round(x)))`. -/
def clipSample (x : ℚ) : Int := max INT16_MIN (min INT16_MAX (roundHalfAway x))

/-- `sampleRateDivider = (int32_t)ceil(inputDeviceSampleRate / currentSampleRate)` in
`capture_data_callback`: the quotient is the division of two `int32_t`, `ceil` is applied
to its conversion to `double`. -/
def capture_data_callback.sampleRateDivider (inputDeviceSampleRate currentSampleRate : Int) :
    Option Int :=
  match cDiv inputDeviceSampleRate currentSampleRate with
  | none => none
  | some quotient => some (wrap32 ⌈(quotient : ℚ)⌉)

/-- The variables of the capture side: the `static` resampler variables of
`capture_data_callback`, the buffer indices, the stream timestamp, the `started` flag,
and the trace of the stores `audioBuffer[index] = sample` made so far. -/
structure Capture where
  resampleCounter : Int
  resamplePosition : ℚ
  resampleNextSample : ℚ
  resampleAccumulator : ℚ
  resampleCurrentSample : ℚ
  audioBufferIndex : Int
  audioBufferWriteIndex : Int
  autosaveStartTime : Int
  autosaveSampleCount : Int
  autosaveStartSampleCount : Int
  started : Bool
  stored : List (Int × Int)
  deriving DecidableEq

/-- The samples stored in the ring buffer so far, in order. -/
def Capture.emitted (c : Capture) : List Int := c.stored.map Prod.snd

/-- The loop `while (resamplePosition < 1.0)` of `capture_data_callback`, with the local
`increment`; `none` when `fuel` passes are not enough. -/
def capture_data_callback.whileLoop (sampleRateDivider : Int) (step : ℚ) :
    Nat → Capture × Int → Option (Capture × Int)
  | 0, (c, increment) => if c.resamplePosition < 1 then none else some (c, increment)
  | fuel + 1, (c, increment) =>
    if c.resamplePosition < 1 then
      let resampleAccumulator := c.resampleAccumulator + (c.resampleCurrentSample
        + c.resamplePosition * (c.resampleNextSample - c.resampleCurrentSample))
      let resampleCounter := wrap32 (c.resampleCounter + 1)
      let emitted : Capture × Int :=
        if resampleCounter = sampleRateDivider then
          let sample := clipSample (resampleAccumulator / (sampleRateDivider : ℚ))
          ({ c with
             stored := c.stored ++ [(c.audioBufferIndex, sample)]
             audioBufferIndex := Int.tmod (wrap32 (c.audioBufferIndex + 1)) AUDIO_BUFFER_SIZE
             resampleAccumulator := 0
             resampleCounter := 0 }, wrap32 (increment + 1))
        else
          ({ c with resampleAccumulator := resampleAccumulator
                    resampleCounter := resampleCounter }, increment)
      capture_data_callback.whileLoop sampleRateDivider step fuel
        ({ emitted.1 with resamplePosition := emitted.1.resamplePosition + step }, emitted.2)
    else some (c, increment)

/-- The loop `for (i = 0; i < frameCount; i += 1)` of `capture_data_callback` over the
input samples. -/
def capture_data_callback.frames (sampleRateDivider : Int) (step : ℚ) (fuel : Nat) :
    List Int → Capture × Int → Option (Capture × Int)
  | [], x => some x
  | sample :: inputBuffer, (c, increment) =>
    match capture_data_callback.whileLoop sampleRateDivider step fuel
        ({ c with resampleCurrentSample := c.resampleNextSample
                  resampleNextSample := (sample : ℚ) }, increment) with
    | none => none
    | some (c, increment) =>
      capture_data_callback.frames sampleRateDivider step fuel inputBuffer
        ({ c with resamplePosition := c.resamplePosition - 1 }, increment)

/-- `capture_data_callback` on the input block `inputBuffer` (`frameCount` is its
length).  `now` is the value of `Time_getMillisecondUTC()`, `fuel` bounds the passes of
each `while` loop.  `none` is a division by zero (also the floating-point one, when the
interpolation rate is zero) or too little fuel. -/
def capture_data_callback (fuel : Nat) (now : Int) (inputDeviceSampleRate currentSampleRate : Int)
    (inputBuffer : List Int) (c : Capture) : Option Capture :=
  match capture_data_callback.sampleRateDivider inputDeviceSampleRate currentSampleRate with
  | none => none
  | some sampleRateDivider =>
    let interpolationSampleRate := wrap32 (sampleRateDivider * currentSampleRate)
    if interpolationSampleRate = 0 then none else
    let step : ℚ := (inputDeviceSampleRate : ℚ) / (interpolationSampleRate : ℚ)
    let restart := c.started == false
    let c :=
      if restart then
        { c with resampleCounter := 0, resamplePosition := 0, resampleNextSample := 0
                 resampleAccumulator := 0, resampleCurrentSample := 0 }
      else c
    match capture_data_callback.frames sampleRateDivider step fuel inputBuffer (c, 0) with
    | none => none
    | some (c, increment) =>
      some { c with
        audioBufferWriteIndex :=
          Int.tmod (wrap32 (c.audioBufferWriteIndex + increment)) AUDIO_BUFFER_SIZE
        autosaveStartTime := if restart then now else c.autosaveStartTime
        autosaveStartSampleCount :=
          if restart then c.autosaveSampleCount else c.autosaveStartSampleCount
        autosaveSampleCount := c.autosaveSampleCount + increment
        started := if restart then true else c.started }

/-! ## The playback callback (`playback_data_callback`) -/

/-- The macro `MAXIMUM_PLAYBACK_LAG`, by `IS_WINDOWS`; the divisions are integer
divisions. -/
def MAXIMUM_PLAYBACK_LAG (isWindows : Bool) : Int :=
  if isWindows then Int.tdiv CALLBACKS_PER_SECOND 2 else Int.tdiv CALLBACKS_PER_SECOND 4

/-- The macro `TARGET_PLAYBACK_LAG`, by `IS_WINDOWS`. -/
def TARGET_PLAYBACK_LAG (isWindows : Bool) : Int :=
  if isWindows then Int.tdiv CALLBACKS_PER_SECOND 10 else Int.tdiv CALLBACKS_PER_SECOND 20

/-- The `static` playback variables of `playback_data_callback`. -/
structure Playback where
  playbackPosition : ℚ
  playbackReadIndex : Int
  playbackNextSample : ℚ
  playbackCurrentSample : ℚ
  playbackBufferWaiting : Bool
  deriving DecidableEq

/-- The playback variables at program start. -/
def initialPlayback : Playback where
  playbackPosition := 0
  playbackReadIndex := 0
  playbackNextSample := 0
  playbackCurrentSample := 0
  playbackBufferWaiting := false

/-- Modelled from the spec: the heterodyne module of `heterodyne.h` (absent from the
sources), a stateful operator over sample streams with a `normalise` hook and a
per-sample `nextOutput`. -/
structure Heterodyne (H : Type) where
  normalise : H → H
  nextOutput : H → ℚ → ℚ × H

/-- `sampleLag = (AUDIO_BUFFER_SIZE + audioBufferWriteIndex - playbackReadIndex) %
AUDIO_BUFFER_SIZE`. -/
def playback_data_callback.sampleLag (audioBufferWriteIndex playbackReadIndex : Int) : Int :=
  Int.tmod (wrap32 (wrap32 (AUDIO_BUFFER_SIZE + audioBufferWriteIndex) - playbackReadIndex))
    AUDIO_BUFFER_SIZE

/-- `bufferLag = sampleLag * CALLBACKS_PER_SECOND / currentSampleRate`, an `int32_t`. -/
def playback_data_callback.bufferLag (sampleLag currentSampleRate : Int) : Option Int :=
  cDiv (wrap32 (sampleLag * CALLBACKS_PER_SECOND)) currentSampleRate

/-- Whether `playback_data_callback` takes the branch `if (bufferLag >
MAXIMUM_PLAYBACK_LAG)`, which sets the read index to the write index and the waiting
flag. -/
def playback_data_callback.resynchronises (isWindows : Bool)
    (audioBufferWriteIndex playbackReadIndex currentSampleRate : Int) : Option Bool :=
  (playback_data_callback.bufferLag
    (playback_data_callback.sampleLag audioBufferWriteIndex playbackReadIndex)
    currentSampleRate).map (fun bufferLag => decide (bufferLag > MAXIMUM_PLAYBACK_LAG isWindows))

/-- The loop `for (j = 0; j < sampleRateDivider; j += 1)` of `playback_data_callback`,
carrying the playback variables, the heterodyne state and `playbackAccumulator`. -/
def playback_data_callback.inner {H : Type} (heterodyne : Heterodyne H)
    (heterodyneEnabled : Bool) (audioBuffer : Int → Int) (step : ℚ) :
    Nat → Playback × H × ℚ → Playback × H × ℚ
  | 0, x => x
  | j + 1, (p, h, playbackAccumulator) =>
    let sample := p.playbackCurrentSample
      + p.playbackPosition * (p.playbackNextSample - p.playbackCurrentSample)
    let output := if heterodyneEnabled then heterodyne.nextOutput h sample else (sample, h)
    let playbackPosition := p.playbackPosition + step
    let p :=
      if playbackPosition ≥ 1 then
        { p with
          playbackCurrentSample := p.playbackNextSample
          playbackNextSample := (audioBuffer p.playbackReadIndex : ℚ)
          playbackReadIndex := Int.tmod (wrap32 (p.playbackReadIndex + 1)) AUDIO_BUFFER_SIZE
          playbackPosition := playbackPosition - 1 }
      else { p with playbackPosition := playbackPosition }
    playback_data_callback.inner heterodyne heterodyneEnabled audioBuffer step j
      (p, output.2, playbackAccumulator + output.1)

/-- The loop `for (i = 0; i < frameCount; i += 1)` of the resampling branch of
`playback_data_callback`; the samples written to `outputBuffer` are collected in order. -/
def playback_data_callback.outer {H : Type} (heterodyne : Heterodyne H)
    (heterodyneEnabled : Bool) (audioBuffer : Int → Int) (sampleRateDivider : Int) (step : ℚ) :
    Nat → Playback × H × List Int → Playback × H × List Int
  | 0, x => x
  | i + 1, (p, h, outputBuffer) =>
    let r := playback_data_callback.inner heterodyne heterodyneEnabled audioBuffer step
      sampleRateDivider.toNat (p, h, 0)
    playback_data_callback.outer heterodyne heterodyneEnabled audioBuffer sampleRateDivider step i
      (r.1, r.2.1, outputBuffer ++ [clipSample (r.2.2 / (sampleRateDivider : ℚ))])

/-- `playback_data_callback` for `frameCount` output samples.  The result is the content
of `outputBuffer` and the new playback and heterodyne state; `none` is a division by
zero. -/
def playback_data_callback {H : Type} (isWindows : Bool) (heterodyne : Heterodyne H)
    (heterodyneEnabled : Bool) (audioBuffer : Int → Int)
    (audioBufferWriteIndex currentSampleRate : Int) (frameCount : Nat) (p : Playback) (h : H) :
    Option (List Int × Playback × H) :=
  let sampleLag := playback_data_callback.sampleLag audioBufferWriteIndex p.playbackReadIndex
  match playback_data_callback.bufferLag sampleLag currentSampleRate,
      playback_data_callback.resynchronises isWindows audioBufferWriteIndex p.playbackReadIndex
        currentSampleRate with
  | some bufferLag, some resynchronise =>
    let p :=
      if resynchronise then
        { p with playbackReadIndex := audioBufferWriteIndex, playbackBufferWaiting := true }
      else p
    let sampleLag := if resynchronise then 0 else sampleLag
    let bufferLag := if resynchronise then 0 else bufferLag
    let starvation := decide (sampleLag < wrap32 (frameCount : Int))
    let played : List Int × Playback × H :=
      if p.playbackBufferWaiting || starvation then (List.replicate frameCount 0, p, h)
      else
        let h := if heterodyneEnabled then heterodyne.normalise h else h
        let sampleRateDivider := Int.tdiv MAXIMUM_SAMPLE_RATE PLAYBACK_SAMPLE_RATE
        let step : ℚ := (currentSampleRate : ℚ) / (MAXIMUM_SAMPLE_RATE : ℚ)
        let r := playback_data_callback.outer heterodyne heterodyneEnabled audioBuffer
          sampleRateDivider step frameCount (p, h, [])
        (r.2.2, r.1, r.2.1)
    let p := played.2.1
    some (played.1,
      if bufferLag > TARGET_PLAYBACK_LAG isWindows then { p with playbackBufferWaiting := false }
      else p,
      played.2.2)
  | _, _ => none

/-- A heterodyne module that is switched off: it passes every sample through. -/
def noHeterodyne : Heterodyne Unit where
  normalise := fun h => h
  nextOutput := fun h sample => (sample, h)

/-- A ring buffer holding the ramp `audioBuffer[i] = i mod 1000`. -/
def rampBuffer : Int → Int := fun i => i % 1000

/-- The playback variables after a resynchronisation at write index 0: read index 0 and
the waiting flag set. -/
def waitingAtZero : Playback :=
  { initialPlayback with playbackBufferWaiting := true }

/-! ## Concrete events used in the examples -/

/-- An outside world with no local time offset in which every encoder call succeeds. -/
def quietWorld : Nat → WriteEnv := fun _ => ⟨0, true, true⟩

/-- A START event at 48 kHz taken at sample 0, at 22:13:20 UTC exactly. -/
def startAt221320 : AS_event :=
  ⟨.AS_START, 48000, 0, 0, 1700000000000, 0, "the 48kHz default input"⟩

/-- A STOP event taken 100000 samples (2 s and 4000 samples) after `startAt221320`. -/
def stopAfter100000 : AS_event :=
  ⟨.AS_STOP, 48000, 100000, 100000, 1700000000000, 0, "the 48kHz default input"⟩

/-- A SHUTDOWN event taken 100000 samples after `startAt221320`. -/
def shutdownAfter100000 : AS_event :=
  ⟨.AS_SHUTDOWN, 48000, 100000, 100000, 1700000000000, 0, "the 48kHz default input"⟩

/-- The numbers of samples of the encoder calls made so far. -/
def samplesHanded (r : Option (Bool × Autosave)) : Option (List Int) :=
  r.map (fun x => x.2.calls.map WavCall.samples)

/-! ## Notions used to state the properties of `writeAutosaveFile` -/

/-- The local time offset `writeAutosaveFile` works with in state `s`. -/
def localTimeOffsetAt (env : Nat → WriteEnv) (s : Autosave) : Int :=
  if s.useLocalTime then (env s.writeCount).localTimeOffset else 0

/-- The appending rule in the words of the specification: the local offset is the one
of the previous write, the file starts when the previous file stopped, and the UTC start
time has second zero and a minute that is not a multiple of the autosave duration. -/
def appendEligible (env : Nat → WriteEnv) (s : Autosave) : Prop :=
  localTimeOffsetAt env s = s.previousLocalTimeOffset
  ∧ s.autosaveFileStartTime = s.autosaveFilePreviousStopTime
  ∧ (Time_gmTime s.autosaveFileStartTime).tm_sec = 0
  ∧ (Time_gmTime s.autosaveFileStartTime).tm_min % s.autosaveDuration > 0

instance (env : Nat → WriteEnv) (s : Autosave) : Decidable (appendEligible env s) := by
  unfold appendEligible
  exact inferInstance

/-- The file name of a fresh file: `WavFile_setFilename` applied to the file start time
plus the local offset and to the file destination. -/
def freshFilename (env : Nat → WriteEnv) (s : Autosave) : Filename where
  time := wrap32 (wrap32 s.autosaveFileStartTime + localTimeOffsetAt env s)
  fileDestination := s.fileDestination

/-- The header of a fresh file of `duration` seconds. -/
def freshHeader (env : Nat → WriteEnv) (duration : Int) (s : Autosave) : WAV_header where
  sampleRate := s.autosaveFileSampleRate
  numberOfSamples := wrap32 (duration * s.autosaveFileSampleRate)
  commentTime := wrap32 (wrap32 s.autosaveFileStartTime + localTimeOffsetAt env s)
  localTimeOffset := localTimeOffsetAt env s
  inputDeviceCommentName := s.autosaveInputDeviceCommentName

/-- The encoder calls one call of `writeAutosaveFile` makes, by the appending rule. -/
def expectedCalls (env : Nat → WriteEnv) (duration : Int) (s : Autosave) : List WavCall :=
  let ranges := encoderRanges s.autosaveFileStartIndex (wrap32 (duration * s.autosaveFileSampleRate))
  (if appendEligible env s then [WavCall.appendFile s.autosaveFilename ranges.1 ranges.2] else [])
  ++ (if ¬ appendEligible env s ∨ (env s.writeCount).appendResult = false then
        [WavCall.writeFile (freshHeader env duration s) (freshFilename env s) ranges.1 ranges.2]
      else [])

/-- A recording open since 22:13:20 UTC at 48 kHz, as `startAt221320` leaves it, for an
autosave duration in minutes. -/
def recordingAt221320 (autosaveDuration : Int) : Autosave :=
  { initialAutosave autosaveDuration true "." with
    autosaveFileStartTime := 1700000000
    autosaveFileSampleRate := 48000
    autosaveTargetCount := 1920000
    autosaveWaitingForStartEvent := false
    autosaveInputDeviceCommentName := "the 48kHz default input" }

/-- The types of the events a sequence of worker passes takes from the queue. -/
def drainedTypes : List (Int × List AS_event) → List AS_event_type
  | [] => []
  | pass :: passes => pass.2.map AS_event.type ++ drainedTypes passes

/-- The recording of `recordingAt221320` with its file start index 48000 samples before
the end of the ring buffer. -/
def recordingNearWrap : Autosave :=
  { recordingAt221320 1 with autosaveFileStartIndex := 2 ^ 25 - 48000 }

/-- The start and stop times of the files logged so far. -/
def fileTimes (r : Option Autosave) : Option (List LogLine) :=
  r.map (fun s => s.output)

/-! ## The time check and the heterodyne check of `main` -/

/-- The macro `ABS(x)` of `macros.h`. -/
def ABS (x : Int) : Int := if x < 0 then -x else x

/-- The time check at the top of a pass through `while (success)` in `main`: `audioTime`
is `autosaveStartTime + ROUNDED_DIV(audioCount * MILLISECONDS_IN_SECOND,
currentSampleRate)` and the result is `timeMismatch`; `none` is a division by zero. -/
def timeMismatch (autosaveSampleCount autosaveStartSampleCount autosaveStartTime
    currentSampleRate currentTime : Int) : Option Bool :=
  let audioCount := autosaveSampleCount - autosaveStartSampleCount
  match ROUNDED_DIV (audioCount * MILLISECONDS_IN_SECOND) currentSampleRate with
  | none => none
  | some elapsed =>
    let audioTime := autosaveStartTime + elapsed
    some (decide (ABS (currentTime - audioTime) > TIME_MISMATCH_LIMIT))

/-- The output rate `currentSampleRate` that `startMicrophone` sets at startup. -/
def startupSampleRate (a : Arguments) (env : MainEnvironment) : Int :=
  currentSampleRateOf a.requestedSampleRate
    (inputDeviceSampleRateOf env.usingAudioMoth env.audioMothSampleRate a.maximumDefaultSampleRate)

/-- The arguments of `AudioMoth-Live HETERODYNE 3000`. -/
def heterodyne3000 : Arguments :=
  { initialArguments with heterodyneEnabled := true, heterodyneFrequency := 3000 }

/-- An outside world in which everything starts, no AudioMoth is attached and the signal
arrives before the first pass of the main loop. -/
def defaultInputWorld : MainEnvironment := ⟨true, false, 0, true, true, []⟩

/-! ## The device inspection of the main loop -/

/-- The constant `DEVICE_CHANGE_INTERVAL`, in seconds. -/
def DEVICE_CHANGE_INTERVAL : ℚ := 1

/-- What a pass of the main loop reads under `backgroundMutex`: the findings published by
the background worker with their time, next to `timeDeviceStarted` and `usingAudioMoth`.
The times are seconds of the `ma_timer`. -/
structure DeviceCheck where
  backgroundDeviceCheckTime : ℚ
  timeDeviceStarted : ℚ
  backgroundDeviceCheckFoundAudioMoth : Bool
  backgroundDeviceCheckFoundOldAudioMoth : Bool
  usingAudioMoth : Bool

/-- Whether the pass inspects the findings: `backgroundDeviceCheckTime - timeDeviceStarted
> DEVICE_CHANGE_INTERVAL`. -/
def DeviceCheck.inspected (d : DeviceCheck) : Bool :=
  decide (d.backgroundDeviceCheckTime - d.timeDeviceStarted > DEVICE_CHANGE_INTERVAL)

/-- The block "Check for device change or old AudioMoth found" of the main loop, entered
with the `static` variable `oldAudioMothFound`: the result is `deviceChanged`,
`showOldAudioMothFoundWarning` and the new `oldAudioMothFound`. -/
def checkDeviceChange (d : DeviceCheck) (oldAudioMothFound : Bool) : Bool × Bool × Bool :=
  if d.backgroundDeviceCheckTime - d.timeDeviceStarted > DEVICE_CHANGE_INTERVAL then
    let deviceChanged :=
      (d.backgroundDeviceCheckFoundAudioMoth == true && d.usingAudioMoth == false)
      || (d.backgroundDeviceCheckFoundAudioMoth == false && d.usingAudioMoth == true)
    let showOldAudioMothFoundWarning :=
      d.backgroundDeviceCheckFoundOldAudioMoth && oldAudioMothFound == false
    (deviceChanged, showOldAudioMothFoundWarning, d.backgroundDeviceCheckFoundOldAudioMoth)
  else (false, false, oldAudioMothFound)

/-- For successive passes of the main loop, whether each prints the firmware warning. -/
def firmwareWarnings : List DeviceCheck → Bool → List Bool
  | [], _ => []
  | d :: passes, oldAudioMothFound =>
    (checkDeviceChange d oldAudioMothFound).2.1
      :: firmwareWarnings passes (checkDeviceChange d oldAudioMothFound).2.2

/-- The false-to-true transitions of a sequence of flags, given the flag before it. -/
def risingEdges : Bool → List Bool → List Bool
  | _, [] => []
  | previous, flag :: flags => (flag && !previous) :: risingEdges flag flags

/-- The `old_found` flags of the passes that inspect the findings. -/
def inspectedOldFound (passes : List DeviceCheck) : List Bool :=
  (passes.filter DeviceCheck.inspected).map DeviceCheck.backgroundDeviceCheckFoundOldAudioMoth

/-! ## Notions used to state the properties of the file cursor -/

/-- The length in seconds of the pending file, `duration_s = (target_count -
file_start_count) / file_sample_rate`. -/
def pendingSeconds (s : Autosave) : Int :=
  Int.tdiv (s.autosaveTargetCount - s.autosaveFileStartCount) s.autosaveFileSampleRate

/-- The cursor property in the words of the specification: `target_count -
file_start_count` is a positive multiple of `file_sample_rate` and at most
`60 * file_sample_rate`. -/
def targetAligned (s : Autosave) : Prop :=
  0 < s.autosaveTargetCount - s.autosaveFileStartCount
  ∧ s.autosaveFileSampleRate ∣ s.autosaveTargetCount - s.autosaveFileStartCount
  ∧ s.autosaveTargetCount - s.autosaveFileStartCount ≤ 60 * s.autosaveFileSampleRate

/-- The pending file ends on a whole UTC minute. -/
def endsOnMinute (s : Autosave) : Prop :=
  (s.autosaveFileStartTime + pendingSeconds s) % 60 = 0

/-- Three passes of the main loop that inspect the findings, the last two with `old_found`
set. -/
def threeInspections : List DeviceCheck :=
  [⟨2, 0, true, false, true⟩, ⟨3, 0, true, true, true⟩, ⟨4, 0, true, true, true⟩]

/-! ## Notions used to state the properties of the number parser -/

/-- The decimal value of a string of digits, in the words of the specification: the
digits read from the left, each step multiplying by ten (the empty string has value 0). -/
def decimalValue (text : String) : Nat :=
  text.toList.foldl (fun value c => value * 10 + (c.toNat - '0'.toNat)) 0

/-- The variables of the argument loop after a bare sample rate has been read as the
only argument. -/
def sampleRateAccepted (value : Int) : Arguments :=
  { initialArguments with requestedSampleRate := value, argumentCounter := 2 }

/-- The variables of the argument loop after `AUTOSAVE <value>` has been read as the only
arguments. -/
def autosaveAccepted (value : Int) : Arguments :=
  { initialArguments with
    autosaveDuration := value
    possibleFileDestinationCount := 3
    argumentCounter := 3 }

/-- The variables of the argument loop when a bare number that is not a valid sample rate
has stopped it. -/
def sampleRateRejected : Arguments :=
  { initialArguments with parseError := true }

/-- The variables of the argument loop when an `AUTOSAVE` value that is not a valid
duration has stopped it. -/
def autosaveRejected : Arguments :=
  { initialArguments with
    parseError := true
    possibleFileDestinationCount := 3
    argumentCounter := 2 }

/-! ## Notions used to state the format of the time range line -/

/-- The decimal digit character of a number from 0 to 9. -/
def digitChar (n : Int) : Char := Char.ofNat (n.toNat + 48)

/-- A number from 0 to 99 written with exactly two decimal digits. -/
def twoDigits (n : Int) : String := String.mk [digitChar (n / 10), digitChar (n % 10)]

/-- The clock time `HH:MM:SS` of a count of seconds since the epoch. -/
def clockText (rawTime : Int) : String :=
  twoDigits (Time_gmTime rawTime).tm_hour ++ ":" ++ twoDigits (Time_gmTime rawTime).tm_min
    ++ ":" ++ twoDigits (Time_gmTime rawTime).tm_sec

/-- The text between `(UTC` and `)`: nothing when the offset has no whole minute;
otherwise the sign of the offset, the absolute hours, and `:MM` when the minute part is
not zero. -/
def zoneText (timeOffset : Int) : String :=
  let timeOffsetMinutes := Int.tdiv timeOffset 60
  let hours := Int.natAbs (Int.tdiv timeOffsetMinutes 60)
  let minutes := Int.natAbs (Int.tmod timeOffsetMinutes 60)
  if timeOffsetMinutes = 0 then ""
  else (if timeOffsetMinutes < 0 then "-" else "+") ++ toString hours
    ++ (if minutes ≠ 0 then ":" ++ twoDigits minutes else "")

/-! ## Device enumeration (`enumerate_devices_callback`, `checkForAudioMoth`) -/

def MA_TRUE : Bool := true

def MA_FALSE : Bool := false

def MA_SUCCESS : Int := 0

/-- The C library `strstr`: the offset of the first occurrence of `needle` in
`haystack`, `none` for the NULL result. -/
def strstr : List Char → List Char → Option Nat
  | [], needle => if needle = [] then some 0 else none
  | c :: haystack, needle =>
    if needle.isPrefixOf (c :: haystack) then some 0
    else (strstr haystack needle).map (· + 1)

/-- Modelled from the spec: a device is an opaque handle plus a human name. The handle is
kept as its bytes `id`, which the structure stores immediately before the characters of
`name`: the rate parser reads them when the digits reach the start of the name. -/
structure ma_device_info where
  id : List Char
  name : String
  deriving DecidableEq

structure device_check_t where
  audioMothFound : Bool
  oldAudioMothFound : Bool
  deriving DecidableEq

structure enumerate_devices_t where
  updateAudioMothSettings : Bool
  device_check : device_check_t
  deriving DecidableEq

/-- The globals `audioMothDeviceID` and `audioMothSampleRate`. -/
structure AudioMothSettings where
  audioMothDeviceID : List Char
  audioMothSampleRate : Int
  deriving DecidableEq

/-- The `do … while` loop of `enumerate_devices_callback`. The list holds the bytes at
`digit`, `digit - 1`, … down to the first byte of the device information; a read below
that is undefined (`none`). The body runs before the first test, and the test reads the
byte below the one just used. -/
def enumerate_devices_callback.digits : List Char → Int → Int → Option Int
  | [], _, _ => none
  | c :: memory, multiplier, audioMothSampleRate =>
    let audioMothSampleRate :=
      wrap32 (audioMothSampleRate + wrap32 (multiplier * ((c.toNat : Int) - ('0'.toNat : Int))))
    let multiplier := wrap32 (multiplier * 10)
    match memory with
    | [] => none
    | d :: _ =>
      if '0' ≤ d ∧ d ≤ '9' then enumerate_devices_callback.digits memory multiplier audioMothSampleRate
      else some audioMothSampleRate

/-- The callback given to the enumeration, on one device: the returned flag is `MA_TRUE`
to go on and `MA_FALSE` to halt. With `updateAudioMothSettings` the pointer `digit` is
`strstr(name, "kHz") - 1`; it is never NULL (not even when `strstr` is NULL), so the
branch that stores `MAXIMUM_SAMPLE_RATE` is never taken, and when the name has no `kHz`
the loop dereferences NULL - 1, which is undefined (`none`). -/
def enumerate_devices_callback (deviceInfo : ma_device_info) (enumerateDevices : enumerate_devices_t)
    (globals : AudioMothSettings) : Option (Bool × enumerate_devices_t × AudioMothSettings) :=
  let name := deviceInfo.name.toList
  let enumerateDevices : enumerate_devices_t :=
    if (strstr name "F32x USBXpress Device".toList).isSome then
      ⟨enumerateDevices.updateAudioMothSettings, enumerateDevices.device_check.audioMothFound, true⟩
    else enumerateDevices
  if (strstr name "AudioMoth".toList).isSome then
    let enumerateDevices : enumerate_devices_t :=
      if strstr name "kHz AudioMoth".toList = none then
        ⟨enumerateDevices.updateAudioMothSettings, enumerateDevices.device_check.audioMothFound, true⟩
      else enumerateDevices
    let enumerateDevices : enumerate_devices_t :=
      ⟨enumerateDevices.updateAudioMothSettings, true, enumerateDevices.device_check.oldAudioMothFound⟩
    if enumerateDevices.updateAudioMothSettings then
      let globals : AudioMothSettings := ⟨deviceInfo.id, globals.audioMothSampleRate⟩
      match strstr name "kHz".toList with
      | none => none
      | some offset =>
        match enumerate_devices_callback.digits (deviceInfo.id ++ name.take offset).reverse 1000 0 with
        | none => none
        | some audioMothSampleRate =>
          some (MA_FALSE, enumerateDevices, ⟨globals.audioMothDeviceID, audioMothSampleRate⟩)
    else some (MA_FALSE, enumerateDevices, globals)
  else some (MA_TRUE, enumerateDevices, globals)

/-- Modelled from the spec: the backend presents the enumerated devices to the callback
one by one, in order, and halts as soon as the callback returns `MA_FALSE`; `result` is
the status the backend then reports (`MA_SUCCESS` or an error code). -/
def ma_context_enumerate_devices (result : Int)
    (callback : ma_device_info → enumerate_devices_t → AudioMothSettings
      → Option (Bool × enumerate_devices_t × AudioMothSettings)) :
    List ma_device_info → enumerate_devices_t → AudioMothSettings
      → Option (Int × enumerate_devices_t × AudioMothSettings)
  | [], info, globals => some (result, info, globals)
  | deviceInfo :: devices, info, globals =>
    match callback deviceInfo info globals with
    | none => none
    | some (goOn, info, globals) =>
      if goOn = MA_FALSE then some (result, info, globals)
      else ma_context_enumerate_devices result callback devices info globals

def checkForAudioMoth (devices : List ma_device_info) (enumerationResult : Int)
    (updateAudioMothSettings : Bool) (globals : AudioMothSettings) :
    Option (device_check_t × AudioMothSettings) :=
  let info : enumerate_devices_t := ⟨updateAudioMothSettings, false, false⟩
  match ma_context_enumerate_devices enumerationResult enumerate_devices_callback devices info globals with
  | none => none
  | some (result, info, globals) =>
    if result ≠ MA_SUCCESS then some (⟨false, false⟩, globals)
    else some (info.device_check, globals)

/-! ## Notions used to state the properties of the device check -/

/-- Whether a device name contains a text. -/
def nameContains (text name : String) : Bool := decide (text.toList <:+: name.toList)

/-- The names up to and including the first one that contains `AudioMoth` (all the names
when none does). -/
def namesUpToFirstAudioMoth : List String → List String
  | [] => []
  | name :: names =>
    if nameContains "AudioMoth" name then [name] else name :: namesUpToFirstAudioMoth names

/-- The devices up to and including the first one whose name contains `AudioMoth`. -/
def devicesUpToFirstAudioMoth : List ma_device_info → List ma_device_info
  | [] => []
  | deviceInfo :: devices =>
    if nameContains "AudioMoth" deviceInfo.name then [deviceInfo]
    else deviceInfo :: devicesUpToFirstAudioMoth devices

/-- The two flags in the words of the specification. -/
def expectedDeviceCheck (names : List String) : device_check_t :=
  { audioMothFound := names.any (nameContains "AudioMoth")
    oldAudioMothFound :=
      (namesUpToFirstAudioMoth names).any (nameContains "F32x USBXpress Device")
        || (match names.find? (nameContains "AudioMoth") with
            | some name => !nameContains "kHz AudioMoth" name
            | none => false) }

/-- The check result the specification describes: the expected flags when the
enumeration succeeds, both flags false when it fails. -/
def expectedCheckResult (names : List String) (enumerationResult : Int) : device_check_t :=
  if enumerationResult = MA_SUCCESS then expectedDeviceCheck names else ⟨false, false⟩

/-- A device whose handle ends in a zero byte. -/
def deviceNamed (name : String) : ma_device_info := ⟨[Char.ofNat 0], name⟩

/-- A ring buffer holding the constant sample 1000. -/
def constantBuffer : Int → Int := fun _ => 1000

/-- The playback variables after a resynchronisation at write index `w` from the initial
values: the read index is `w` and the waiting flag is set. -/
def resynchronisedAt (w : Int) : Playback :=
  { initialPlayback with playbackReadIndex := w, playbackBufferWaiting := true }

/-! ## Notions used to state the properties of the resampler state -/

/-- The number of ring samples the playback resampler consumes in a number of passes of
its inner loop from a position: the number of passes that take the branch
`playbackPosition >= 1.0`, each of which advances the read index once. -/
def playbackConsumed (step : ℚ) : Nat → ℚ → Nat
  | 0, _ => 0
  | passes + 1, position =>
    if position + step ≥ 1 then playbackConsumed step passes (position + step - 1) + 1
    else playbackConsumed step passes (position + step)

/-- The position of the playback resampler after a number of passes of its inner loop. -/
def playbackPositionAfter (step : ℚ) : Nat → ℚ → ℚ
  | 0, position => position
  | passes + 1, position =>
    playbackPositionAfter step passes
      (if position + step ≥ 1 then position + step - 1 else position + step)

/-- The read index after it has been advanced a number of times by
`playbackReadIndex = (playbackReadIndex + 1) % AUDIO_BUFFER_SIZE`. -/
def advanceReadIndex : Nat → Int → Int
  | 0, playbackReadIndex => playbackReadIndex
  | times + 1, playbackReadIndex =>
    advanceReadIndex times (Int.tmod (wrap32 (playbackReadIndex + 1)) AUDIO_BUFFER_SIZE)

/-- The recording of `recordingAt221320` with an autosave duration of 5 minutes after its
first minute transition: the first file, 22:13:20 to 22:14:00, has been written and the
next file starts at 22:14:00 UTC. -/
def recordingAt221400 : Autosave :=
  { recordingAt221320 5 with
    autosaveFileStartTime := 1700000040
    autosaveFileStartIndex := 1920000
    autosaveFileStartCount := 1920000
    autosaveTargetCount := 4800000
    previousLocalTimeOffset := 0
    autosaveFilename := some ⟨1700000000, "."⟩
    autosaveFilePreviousStopTime := 1700000040
    writeCount := 1
    calls := [WavCall.writeFile ⟨48000, 1920000, 1700000000, 0, "the 48kHz default input"⟩
      ⟨1700000000, "."⟩ ⟨0, 1920000⟩ none]
    output := [LogLine.fileTime 1700000000 1700000040 0] }

/-! ## Notions used to state when the worker writes a file -/

/-- The steps of the worker, in the order of the source: `bool success = true` at the
start of a pass, the five blocks of the event loop for one event, the minute check after
the loop, and the report of a failed write at the end of a pass. -/
inductive WorkerStep where
  | beginPass
  | startBlock (event : AS_event)
  | minuteBlock (currentSampleCount : Int) (event : AS_event)
  | restartBlock (event : AS_event)
  | stopBlock (event : AS_event)
  | shutdownBlock (event : AS_event)
  | minuteAfterLoop (currentSampleCount : Int)
  | report

/-- One step of the worker on the local `success` and the autosave variables. -/
def WorkerStep.run (env : Nat → WriteEnv) : WorkerStep → Bool × Autosave → Option (Bool × Autosave)
  | .beginPass, x => some (true, x.2)
  | .startBlock event, x =>
    if x.2.autosaveWaitingForStartEvent = true ∧ event.type = .AS_START then
      (startEvent event x.2).map (fun s => (x.1, s))
    else some x
  | .minuteBlock currentSampleCount event, x =>
    if currentSampleCount ≥ x.2.autosaveTargetCount
        ∧ x.2.autosaveTargetCount < event.currentCount then
      (makeMinuteTransitionRecording env x.2).map (fun r => (x.1 && r.1, r.2))
    else some x
  | .restartBlock event, x =>
    if event.type = .AS_RESTART then restartEvent env event x.1 x.2 else some x
  | .stopBlock event, x =>
    if event.type = .AS_STOP then stopEvent env event x.1 x.2 else some x
  | .shutdownBlock event, x =>
    if event.type = .AS_SHUTDOWN then (shutdownEvent env event x.2).map (fun s => (x.1, s))
    else some x
  | .minuteAfterLoop currentSampleCount, x =>
    if currentSampleCount ≥ x.2.autosaveTargetCount then
      (makeMinuteTransitionRecording env x.2).map (fun r => (x.1 && r.1, r.2))
    else some x
  | .report, x =>
    some (x.1, if x.1 = false then { x.2 with output := x.2.output ++ [LogLine.couldNotWrite] }
      else x.2)

theorem parseArgument_unique {p q text : String} (h : parseArgument p text = true)
    (hne : (p.toList == q.toList) = false) : parseArgument q text = false := by
  unfold parseArgument at *
  have h1 := eq_of_beq h
  rw [h1]
  exact hne

theorem copyFileDestination_short (s : String) (h : s.length < FILE_DESTINATION_SIZE) :
    copyFileDestination s = s := by
  unfold copyFileDestination
  have hlen : s.toList.length ≤ FILE_DESTINATION_SIZE := Nat.le_of_lt h
  rw [List.take_of_length_le hlen]
  rfl

/-- C1 (as stated, refuted): with `argv = ["AudioMoth-Live", "/tmp"]` and `/tmp` an
existing directory, `main` reports a parse error and returns `ERROR_RESPONSE`; the file
destination is still the default `"."`. -/
theorem C1_first_argument_directory_rejected :
    (fun path => path == "/tmp") "/tmp" = true ∧
    parseArguments (fun path => path == "/tmp") ["AudioMoth-Live", "/tmp"]
      = some (.returned ERROR_RESPONSE { initialArguments with parseError := true }) ∧
    ({ initialArguments with parseError := true } : Arguments).fileDestination = "." := by
  decide

/-- C1 (amended): when the arguments start with the keyword `AUTOSAVE` (in any
letter case), a valid autosave duration and the name of an existing directory (shorter
than the destination buffer), parsing accepts the directory: it goes on with the
remaining arguments from `argumentCounter = 4` with `fileDestination` set to that name,
the duration stored and no parse error, and with no remaining arguments the parse
succeeds.  The pass over `argv[1]` itself does not consult `Directory_exists`. -/
theorem C1_directory_after_autosave (Directory_exists : String → Bool)
    (prog keyword minutes directory : String) (rest : List String) (value : Int)
    (hk : parseArgument "AUTOSAVE" keyword = true)
    (hm : parseNumber minutes = some value) (hv : value ∈ validAutosaveDurations)
    (hd : Directory_exists directory = true)
    (hl : directory.length < FILE_DESTINATION_SIZE) :
    parseArguments Directory_exists (prog :: keyword :: minutes :: directory :: rest)
      = argumentLoop Directory_exists (prog :: keyword :: minutes :: directory :: rest)
          (rest.length + 2) (directoryAccepted directory value)
    ∧ parseArguments Directory_exists [prog, keyword, minutes, directory]
      = some (.parsed (directoryAccepted directory value))
    ∧ ∀ (other : String → Bool) (argv : List String) (argument : String),
        argumentStep Directory_exists argv argument initialArguments
          = argumentStep other argv argument initialArguments := by
  have h1 : parseArgument "HIGHSAMPLERATE" keyword = false := parseArgument_unique hk (by decide)
  have h2 : parseArgument "HSR" keyword = false := parseArgument_unique hk (by decide)
  have h3 : parseArgument "UTC" keyword = false := parseArgument_unique hk (by decide)
  have h4 : (parseNumberAgainstList minutes validAutosaveDurations 0) = (true, value) := by
    unfold parseNumberAgainstList
    rw [hm]
    simp [hv]
  have key : ∀ r : List String,
      argumentLoop Directory_exists (prog :: keyword :: minutes :: directory :: r)
        (r.length + 4) initialArguments
      = argumentLoop Directory_exists (prog :: keyword :: minutes :: directory :: r)
          (r.length + 2) (directoryAccepted directory value) := by
    intro r
    rw [argumentLoop]
    simp [initialArguments, argumentStep, h1, h2, h3, hk, h4]
    rw [argumentLoop]
    simp [argumentStep, hd, copyFileDestination_short directory hl, directoryAccepted,
      initialArguments]
  refine ⟨key rest, ?_, ?_⟩
  · have := key []
    simp only [parseArguments, List.length_cons, List.length_nil] at this ⊢
    rw [this]
    simp [argumentLoop, directoryAccepted, initialArguments]
  · intro other argv argument
    simp [argumentStep, initialArguments]

/-- Witness for C1: `AudioMoth-Live autosave 5 /tmp` with `/tmp` an existing directory. -/
theorem C1_directory_after_autosave_witness :
    parseArguments (fun path => path == "/tmp") ["AudioMoth-Live", "autosave", "5", "/tmp"]
      = some (.parsed (directoryAccepted "/tmp" 5)) :=
  (C1_directory_after_autosave (fun path => path == "/tmp") "AudioMoth-Live" "autosave" "5"
    "/tmp" [] 5 (by decide) (by decide) (by decide) (by decide) (by decide)).2.1

/-! ### Autosave -/

theorem wrap32_of_range {x : Int} (h1 : -2 ^ 31 ≤ x) (h2 : x < 2 ^ 31) : wrap32 x = x := by
  unfold wrap32
  omega

theorem tmod_eq_emod_of_nonneg {a b : Int} (ha : 0 ≤ a) (hb : 0 < b) : Int.tmod a b = a % b := by
  rw [Int.tmod_eq_emod ha (le_of_lt hb)]

theorem tm_min_nonneg (t : Int) : 0 ≤ (Time_gmTime t).tm_min := by
  unfold Time_gmTime
  simp only
  omega

/-- What a call of `writeAutosaveFile` with a non-zero duration does: it returns, leaves
the file cursor alone and makes exactly the calls of `expectedCalls`. -/
theorem writeAutosaveFile_calls (env : Nat → WriteEnv) (duration : Int) (s : Autosave)
    (hd : duration ≠ 0) (ha : 0 < s.autosaveDuration) :
    ∃ ok s', writeAutosaveFile env duration s = some (ok, s')
      ∧ s'.calls = s.calls ++ expectedCalls env duration s
      ∧ s'.autosaveFileStartTime = s.autosaveFileStartTime
      ∧ s'.autosaveFileStartIndex = s.autosaveFileStartIndex
      ∧ s'.autosaveFileStartCount = s.autosaveFileStartCount
      ∧ s'.autosaveFileSampleRate = s.autosaveFileSampleRate
      ∧ s'.autosaveTargetCount = s.autosaveTargetCount
      ∧ s'.autosaveDuration = s.autosaveDuration
      ∧ s'.autosaveWaitingForStartEvent = s.autosaveWaitingForStartEvent := by
  have hne : s.autosaveDuration ≠ 0 := ne_of_gt ha
  have hmod : Int.tmod (Time_gmTime s.autosaveFileStartTime).tm_min s.autosaveDuration
      = (Time_gmTime s.autosaveFileStartTime).tm_min % s.autosaveDuration :=
    tmod_eq_emod_of_nonneg (tm_min_nonneg _) ha
  have hinside : minuteInsidePeriod (Time_gmTime s.autosaveFileStartTime) s.autosaveDuration
      = some (decide ((Time_gmTime s.autosaveFileStartTime).tm_sec = 0
          ∧ (Time_gmTime s.autosaveFileStartTime).tm_min % s.autosaveDuration > 0)) := by
    unfold minuteInsidePeriod
    by_cases hsec : (Time_gmTime s.autosaveFileStartTime).tm_sec = 0
    · simp only [hsec, if_true, cMod, hne, if_false, Option.map_some', hmod, true_and]
    · simp only [hsec, if_false, false_and, decide_False]
  have hb : (decide ((if s.useLocalTime = true then (env s.writeCount).localTimeOffset else 0)
        = s.previousLocalTimeOffset)
      && decide (s.autosaveFileStartTime = s.autosaveFilePreviousStopTime)
      && decide ((Time_gmTime s.autosaveFileStartTime).tm_sec = 0
          ∧ (Time_gmTime s.autosaveFileStartTime).tm_min % s.autosaveDuration > 0))
      = decide (appendEligible env s) := by
    simp only [appendEligible, localTimeOffsetAt, Bool.decide_and, Bool.and_assoc]
  simp only [writeAutosaveFile, hd, if_false, hinside, hb]
  refine ⟨_, _, rfl, ?_, rfl, rfl, rfl, rfl, rfl, rfl, rfl⟩
  by_cases he : appendEligible env s
  · cases h4 : (env s.writeCount).appendResult <;>
      simp [expectedCalls, he, h4, freshHeader, freshFilename, localTimeOffsetAt]
  · simp [expectedCalls, he, freshHeader, freshFilename, localTimeOffsetAt]

theorem WavCall.samples_eq_ranges (c : WavCall) :
    c.samples = c.ranges.1.length + secondLength c.ranges.2 := by
  cases c <;> rfl

theorem mem_expectedCalls {env : Nat → WriteEnv} {duration : Int} {s : Autosave} {c : WavCall}
    (h : c ∈ expectedCalls env duration s) :
    c.ranges = encoderRanges s.autosaveFileStartIndex
      (wrap32 (duration * s.autosaveFileSampleRate)) := by
  unfold expectedCalls at h
  simp only [List.mem_append] at h
  rcases h with h | h
  · split_ifs at h
    · simp only [List.mem_singleton] at h
      rw [h]
      rfl
    · simp at h
  · split_ifs at h
    · simp only [List.mem_singleton] at h
      rw [h]
      rfl
    · simp at h

theorem expectedCalls_ne_nil (env : Nat → WriteEnv) (duration : Int) (s : Autosave) :
    expectedCalls env duration s ≠ [] := by
  unfold expectedCalls
  by_cases he : appendEligible env s <;> simp [he]

theorem encoderRanges_samples {index n : Int} (h0 : 0 ≤ index) (h1 : index < AUDIO_BUFFER_SIZE)
    (hn0 : 0 ≤ n) (hn : n < 2 ^ 31) :
    (encoderRanges index n).1.length + secondLength (encoderRanges index n).2 = n
      ∧ (encoderRanges index n).1.start = index := by
  unfold AUDIO_BUFFER_SIZE at h1
  unfold encoderRanges AUDIO_BUFFER_SIZE
  have hw : wrap32 (index + n - 2 ^ 25) = index + n - 2 ^ 25 :=
    wrap32_of_range (by omega) (by omega)
  simp only [hw]
  by_cases hneg : index + n - 2 ^ 25 < 0
  · rw [if_pos hneg]
    simp only [secondLength]
    constructor
    · omega
    · trivial
  · have hw2 : wrap32 (n - (index + n - 2 ^ 25)) = n - (index + n - 2 ^ 25) :=
      wrap32_of_range (by omega) (by omega)
    rw [if_neg hneg]
    simp only [hw2, secondLength]
    constructor
    · omega
    · trivial

theorem writeAutosaveFile_zero (env : Nat → WriteEnv) (s : Autosave) :
    writeAutosaveFile env 0 s = some (true, s) := by
  simp [writeAutosaveFile]

theorem stopEvent_eq {env : Nat → WriteEnv} {event : AS_event} {success : Bool} {s s' : Autosave}
    {duration : Int} {ok : Bool}
    (h1 : cDiv (wrap32 (event.currentCount - s.autosaveFileStartCount)) s.autosaveFileSampleRate
      = some duration)
    (h2 : writeAutosaveFile env duration s = some (ok, s')) :
    stopEvent env event success s = some (success && ok,
      { s' with autosaveWaitingForStartEvent := true, autosaveTargetCount := INT64_MAX }) := by
  simp [stopEvent, h1, h2]

theorem shutdownEvent_eq {env : Nat → WriteEnv} {event : AS_event} {s s' : Autosave}
    {duration : Int} {ok : Bool} (hopen : s.autosaveWaitingForStartEvent = false)
    (h1 : cDiv (wrap32 (event.currentCount - s.autosaveFileStartCount)) s.autosaveFileSampleRate
      = some duration)
    (h2 : writeAutosaveFile env duration s = some (ok, s')) :
    shutdownEvent env event s = some
      { s' with autosaveShutdownCompleted := true, autosaveWaitingForStartEvent := true,
                autosaveTargetCount := INT64_MAX } := by
  simp [shutdownEvent, hopen, h1, h2]

/-- C2 (as stated, refuted): a recording starts at sample 0 at 48 kHz; a STOP (or a
SHUTDOWN) event arrives at sample 100000.  The range `[0, 100000)` has 100000 samples but
the encoder is handed 96000, two whole seconds. -/
theorem C2_flush_drops_trailing_samples :
    samplesHanded (drainEvents quietWorld 100000 [startAt221320, stopAfter100000] true
      (initialAutosave 1 true ".")) = some [96000]
    ∧ samplesHanded (drainEvents quietWorld 100000 [startAt221320, shutdownAfter100000] true
      (initialAutosave 1 true ".")) = some [96000]
    ∧ (drainEvents quietWorld 100000 [startAt221320] true (initialAutosave 1 true ".")).map
        (fun r => (r.2.autosaveWaitingForStartEvent, r.2.autosaveFileSampleRate,
          stopAfter100000.currentCount - r.2.autosaveFileStartCount,
          shutdownAfter100000.currentCount - r.2.autosaveFileStartCount))
      = some (false, 48000, 100000, 100000) := by
  decide

/-- C2 (amended): on a STOP event, and on a SHUTDOWN event received while a recording is
open, with `0 ≤ event.currentCount - autosaveFileStartCount < 2^31`, a positive file
sample rate and the file start index inside the buffer, the flush hands the encoder the
whole seconds of the range only: every encoder call starts at the file start index and
carries `⌊(currentCount - fileStartCount) / rate⌋ * rate` samples, and no call is made
when the range is shorter than one second. -/
theorem C2_flush_whole_seconds (env : Nat → WriteEnv) (event : AS_event) (success : Bool)
    (s : Autosave) (hrate : 0 < s.autosaveFileSampleRate)
    (hle : s.autosaveFileStartCount ≤ event.currentCount)
    (hrange : event.currentCount - s.autosaveFileStartCount < 2 ^ 31)
    (hidx : 0 ≤ s.autosaveFileStartIndex ∧ s.autosaveFileStartIndex < AUDIO_BUFFER_SIZE)
    (ha : 0 < s.autosaveDuration) :
    ∃ new : List WavCall,
      (∀ c ∈ new, c.samples = (event.currentCount - s.autosaveFileStartCount)
          / s.autosaveFileSampleRate * s.autosaveFileSampleRate
        ∧ c.ranges.1.start = s.autosaveFileStartIndex)
      ∧ (new = [] ↔ event.currentCount - s.autosaveFileStartCount < s.autosaveFileSampleRate)
      ∧ (∃ ok s', stopEvent env event success s = some (ok, s') ∧ s'.calls = s.calls ++ new)
      ∧ (s.autosaveWaitingForStartEvent = false →
          ∃ s', shutdownEvent env event s = some s' ∧ s'.calls = s.calls ++ new) := by
  have hne : s.autosaveFileSampleRate ≠ 0 := ne_of_gt hrate
  have hdiff0 : 0 ≤ event.currentCount - s.autosaveFileStartCount := by omega
  have hw : wrap32 (event.currentCount - s.autosaveFileStartCount)
      = event.currentCount - s.autosaveFileStartCount := wrap32_of_range (by omega) hrange
  have hdiv : cDiv (wrap32 (event.currentCount - s.autosaveFileStartCount))
      s.autosaveFileSampleRate
      = some ((event.currentCount - s.autosaveFileStartCount) / s.autosaveFileSampleRate) := by
    rw [hw, cDiv, if_neg hne, Int.tdiv_eq_ediv hdiff0 (le_of_lt hrate)]
  have hd0 : 0 ≤ (event.currentCount - s.autosaveFileStartCount) / s.autosaveFileSampleRate :=
    Int.ediv_nonneg hdiff0 (le_of_lt hrate)
  have hmul : (event.currentCount - s.autosaveFileStartCount) / s.autosaveFileSampleRate
      * s.autosaveFileSampleRate ≤ event.currentCount - s.autosaveFileStartCount :=
    Int.ediv_mul_le _ hne
  by_cases hzero : (event.currentCount - s.autosaveFileStartCount) / s.autosaveFileSampleRate = 0
  · refine ⟨[], ?_, ?_, ?_, ?_⟩
    · intro c hc
      cases hc
    · have hlt := Int.lt_ediv_add_one_mul_self
        (event.currentCount - s.autosaveFileStartCount) hrate
      rw [hzero] at hlt
      simp only [true_iff]
      omega
    · rw [hzero] at hdiv
      exact ⟨_, _, stopEvent_eq hdiv (writeAutosaveFile_zero env s), by simp⟩
    · intro hopen
      rw [hzero] at hdiv
      exact ⟨_, shutdownEvent_eq hopen hdiv (writeAutosaveFile_zero env s), by simp⟩
  · obtain ⟨ok, s', hwrite, hcalls, -⟩ := writeAutosaveFile_calls env _ s hzero ha
    refine ⟨expectedCalls env ((event.currentCount - s.autosaveFileStartCount)
      / s.autosaveFileSampleRate) s, ?_, ?_, ?_, ?_⟩
    · intro c hc
      have hr := mem_expectedCalls hc
      have hn0 : 0 ≤ (event.currentCount - s.autosaveFileStartCount)
          / s.autosaveFileSampleRate * s.autosaveFileSampleRate :=
        Int.mul_nonneg hd0 (le_of_lt hrate)
      have hw2 := wrap32_of_range (x := (event.currentCount - s.autosaveFileStartCount)
          / s.autosaveFileSampleRate * s.autosaveFileSampleRate) (by omega) (by omega)
      rw [hw2] at hr
      have hsum := encoderRanges_samples hidx.1 hidx.2 hn0 (by omega)
      rw [WavCall.samples_eq_ranges, hr]
      exact hsum
    · constructor
      · intro hnil
        exact absurd hnil (expectedCalls_ne_nil env _ s)
      · intro hlt
        exact absurd (Int.ediv_eq_zero_of_lt hdiff0 hlt) hzero
    · exact ⟨_, _, stopEvent_eq hdiv hwrite, hcalls⟩
    · intro hopen
      exact ⟨_, shutdownEvent_eq hopen hdiv hwrite, hcalls⟩

/-- Witness for C2: the STOP event at sample 100000 of a recording open since sample 0. -/
theorem C2_flush_whole_seconds_witness :
    ∃ new : List WavCall,
      (∀ c ∈ new, c.samples = (stopAfter100000.currentCount
            - (recordingAt221320 1).autosaveFileStartCount)
          / (recordingAt221320 1).autosaveFileSampleRate
          * (recordingAt221320 1).autosaveFileSampleRate
        ∧ c.ranges.1.start = (recordingAt221320 1).autosaveFileStartIndex)
      ∧ (new = [] ↔ stopAfter100000.currentCount - (recordingAt221320 1).autosaveFileStartCount
          < (recordingAt221320 1).autosaveFileSampleRate)
      ∧ (∃ ok s', stopEvent quietWorld stopAfter100000 true (recordingAt221320 1) = some (ok, s')
          ∧ s'.calls = (recordingAt221320 1).calls ++ new)
      ∧ ((recordingAt221320 1).autosaveWaitingForStartEvent = false →
          ∃ s', shutdownEvent quietWorld stopAfter100000 (recordingAt221320 1) = some s'
            ∧ s'.calls = (recordingAt221320 1).calls ++ new) :=
  C2_flush_whole_seconds quietWorld stopAfter100000 true (recordingAt221320 1)
    (by decide) (by decide) (by decide) (by decide) (by decide)

theorem backgroundPass_idle (world : Nat → WriteEnv) (count : Int) (s : Autosave)
    (hcount : count < s.autosaveTargetCount) : backgroundPass world count [] s = some s := by
  have h : ¬ count ≥ s.autosaveTargetCount := by omega
  simp [backgroundPass, drainEvents, h]

theorem backgroundThreadBody_idle (world : Nat → WriteEnv) (s : Autosave) :
    ∀ passes : List (Int × List AS_event),
      (∀ p ∈ passes, p.1 < s.autosaveTargetCount) → drainedTypes passes = [] →
      backgroundThreadBody world passes s = some s := by
  intro passes
  induction passes with
  | nil => intro _ _; rfl
  | cons p ps ih =>
    intro hcount hdrained
    obtain ⟨count, events⟩ := p
    simp only [drainedTypes, List.append_eq_nil, List.map_eq_nil_iff] at hdrained
    obtain ⟨hev, hrest⟩ := hdrained
    subst hev
    have h1 : count < s.autosaveTargetCount := hcount (count, []) (List.mem_cons_self _ _)
    have h2 : ∀ q ∈ ps, q.1 < s.autosaveTargetCount :=
      fun q hq => hcount q (List.mem_cons_of_mem _ hq)
    simp [backgroundThreadBody, backgroundPass_idle world count s h1, ih h2 hrest]

/-- C4: with an autosave duration of 0, `main` enqueues no autosave event, whatever the
outside world does; and a background worker that takes from the queue only what `main`
put there, with every snapshot of the sample count below `INT64_MAX`, ends every pass in
the state it started in: target count `INT64_MAX`, no encoder call. -/
theorem C4_no_autosave_when_duration_zero (a : Arguments) (env : MainEnvironment)
    (world : Nat → WriteEnv) (passes : List (Int × List AS_event))
    (hzero : a.autosaveDuration = 0)
    (hcount : ∀ p ∈ passes, p.1 < INT64_MAX)
    (hqueue : drainedTypes passes <+: (mainAfterParse a env).events) :
    (mainAfterParse a env).events = []
    ∧ backgroundThreadBody world passes
        (initialAutosave a.autosaveDuration a.useLocalTime a.fileDestination)
      = some (initialAutosave a.autosaveDuration a.useLocalTime a.fileDestination)
    ∧ (initialAutosave a.autosaveDuration a.useLocalTime a.fileDestination).calls = []
    ∧ (initialAutosave a.autosaveDuration a.useLocalTime a.fileDestination).autosaveTargetCount
      = INT64_MAX := by
  have hloop : ∀ its : List MainIteration, mainLoopEvents 0 its = [] := by
    intro its
    induction its with
    | nil => rfl
    | cons it rest ih =>
      unfold mainLoopEvents
      split_ifs <;> simp_all
  have hevents : (mainAfterParse a env).events = [] := by
    unfold mainAfterParse
    simp only [hzero, hloop]
    split_ifs <;> first | rfl | omega
  refine ⟨hevents, ?_, rfl, rfl⟩
  rw [hevents] at hqueue
  have hnil : drainedTypes passes = [] := List.prefix_nil.mp hqueue
  exact backgroundThreadBody_idle world _ passes hcount hnil

/-- Witness for C4: `AudioMoth-Live MONITOR` (autosave duration 0) with one device
restart, and two worker passes on an empty queue. -/
theorem C4_no_autosave_when_duration_zero_witness :
    (mainAfterParse { initialArguments with monitorEnabled := true }
      ⟨true, false, 0, true, true, [⟨true, false, true⟩]⟩).events = []
    ∧ backgroundThreadBody quietWorld [(0, []), (4800, [])] (initialAutosave 0 true ".")
      = some (initialAutosave 0 true ".")
    ∧ (initialAutosave 0 true ".").calls = []
    ∧ (initialAutosave 0 true ".").autosaveTargetCount = INT64_MAX :=
  C4_no_autosave_when_duration_zero { initialArguments with monitorEnabled := true }
    ⟨true, false, 0, true, true, [⟨true, false, true⟩]⟩ quietWorld [(0, []), (4800, [])]
    rfl (by decide) (by decide)

theorem mem_expectedCalls_append {env : Nat → WriteEnv} {duration : Int} {s : Autosave}
    {f : Option Filename} {r1 : SampleRange} {r2 : Option SampleRange}
    (h : WavCall.appendFile f r1 r2 ∈ expectedCalls env duration s) :
    appendEligible env s ∧ f = s.autosaveFilename := by
  unfold expectedCalls at h
  by_cases he : appendEligible env s
  · refine ⟨he, ?_⟩
    simp only [he, if_true, List.mem_append, List.mem_singleton] at h
    rcases h with h | h
    · injection h with h1 _ _
    · split_ifs at h
      · simp at h
      · simp at h
  · simp [he] at h

theorem mem_expectedCalls_write {env : Nat → WriteEnv} {duration : Int} {s : Autosave}
    {hd : WAV_header} {f : Filename} {r1 : SampleRange} {r2 : Option SampleRange}
    (h : WavCall.writeFile hd f r1 r2 ∈ expectedCalls env duration s) :
    (¬ appendEligible env s ∨ (env s.writeCount).appendResult = false)
      ∧ f = freshFilename env s ∧ hd = freshHeader env duration s := by
  unfold expectedCalls at h
  simp only [List.mem_append] at h
  rcases h with h | h
  · split_ifs at h <;> simp at h
  · split_ifs at h with hc
    · simp only [List.mem_singleton] at h
      injection h with h1 h2 _ _
      exact ⟨hc, h2, h1⟩
    · simp at h

/-- C6: for a file start index `i` in `[0, N)` and a sample count
`n = duration * autosaveFileSampleRate` with `0 < n ≤ N`, every encoder call made by
`writeAutosaveFile` (append or create, and there is at least one) gets the range
`(i, n)` alone when `i + n < N`, and otherwise the two ranges `(i, N - i)` and
`(0, i + n - N)`; the lengths are non-negative, add up to `n`, and both ranges lie
inside `[0, N)`. -/
theorem C6_ring_wrap_ranges (env : Nat → WriteEnv) (duration : Int) (s : Autosave)
    (hi0 : 0 ≤ s.autosaveFileStartIndex) (hi1 : s.autosaveFileStartIndex < AUDIO_BUFFER_SIZE)
    (hn0 : 0 < duration * s.autosaveFileSampleRate)
    (hn1 : duration * s.autosaveFileSampleRate ≤ AUDIO_BUFFER_SIZE)
    (ha : 0 < s.autosaveDuration) :
    ∃ ok s' new, writeAutosaveFile env duration s = some (ok, s')
      ∧ s'.calls = s.calls ++ new ∧ new ≠ []
      ∧ ∀ c ∈ new,
        (s.autosaveFileStartIndex + duration * s.autosaveFileSampleRate < AUDIO_BUFFER_SIZE →
          c.ranges = (⟨s.autosaveFileStartIndex, duration * s.autosaveFileSampleRate⟩, none))
        ∧ (AUDIO_BUFFER_SIZE ≤ s.autosaveFileStartIndex + duration * s.autosaveFileSampleRate →
          c.ranges = (⟨s.autosaveFileStartIndex, AUDIO_BUFFER_SIZE - s.autosaveFileStartIndex⟩,
            some ⟨0, s.autosaveFileStartIndex + duration * s.autosaveFileSampleRate
              - AUDIO_BUFFER_SIZE⟩))
        ∧ 0 ≤ c.ranges.1.length ∧ 0 ≤ secondLength c.ranges.2
        ∧ c.samples = duration * s.autosaveFileSampleRate
        ∧ 0 ≤ c.ranges.1.start ∧ c.ranges.1.start + c.ranges.1.length ≤ AUDIO_BUFFER_SIZE
        ∧ ∀ r, c.ranges.2 = some r → 0 ≤ r.start ∧ r.start + r.length ≤ AUDIO_BUFFER_SIZE := by
  have hdne : duration ≠ 0 := by
    rintro rfl
    simp at hn0
  obtain ⟨ok, s', hwrite, hcalls, -⟩ := writeAutosaveFile_calls env duration s hdne ha
  refine ⟨ok, s', expectedCalls env duration s, hwrite, hcalls,
    expectedCalls_ne_nil env duration s, ?_⟩
  intro c hc
  have hr := mem_expectedCalls hc
  unfold AUDIO_BUFFER_SIZE at hi1 hn1
  have hw := wrap32_of_range (x := duration * s.autosaveFileSampleRate) (by omega) (by omega)
  rw [hw] at hr
  rw [WavCall.samples_eq_ranges, hr]
  generalize duration * s.autosaveFileSampleRate = n at *
  generalize s.autosaveFileStartIndex = i at *
  unfold encoderRanges AUDIO_BUFFER_SIZE
  have hw1 : wrap32 (i + n - 2 ^ 25) = i + n - 2 ^ 25 := wrap32_of_range (by omega) (by omega)
  simp only [hw1]
  by_cases hneg : i + n - 2 ^ 25 < 0
  · rw [if_pos hneg]
    simp only [secondLength]
    refine ⟨fun _ => trivial, fun h => by omega, by omega, by omega, by omega, hi0, by omega, ?_⟩
    intro r hr2
    cases hr2
  · have hw2 : wrap32 (n - (i + n - 2 ^ 25)) = 2 ^ 25 - i := by
      rw [wrap32_of_range (by omega) (by omega)]
      omega
    rw [if_neg hneg]
    simp only [hw2, secondLength]
    refine ⟨fun h => by omega, fun _ => trivial, by omega, by omega, by omega, hi0, by omega, ?_⟩
    intro r hr2
    injection hr2 with hr2
    subst hr2
    constructor
    · exact le_refl _
    · show (0 : Int) + (i + n - 2 ^ 25) ≤ 2 ^ 25
      omega

/-- Witness for C6: a two-second file that starts 48000 samples before the end of the
ring buffer. -/
theorem C6_ring_wrap_ranges_witness :
    ∃ ok s' new, writeAutosaveFile quietWorld 2 recordingNearWrap = some (ok, s')
      ∧ s'.calls = recordingNearWrap.calls ++ new ∧ new ≠ []
      ∧ ∀ c ∈ new,
        (recordingNearWrap.autosaveFileStartIndex + 2 * recordingNearWrap.autosaveFileSampleRate
            < AUDIO_BUFFER_SIZE →
          c.ranges = (⟨recordingNearWrap.autosaveFileStartIndex,
            2 * recordingNearWrap.autosaveFileSampleRate⟩, none))
        ∧ (AUDIO_BUFFER_SIZE ≤ recordingNearWrap.autosaveFileStartIndex
            + 2 * recordingNearWrap.autosaveFileSampleRate →
          c.ranges = (⟨recordingNearWrap.autosaveFileStartIndex,
              AUDIO_BUFFER_SIZE - recordingNearWrap.autosaveFileStartIndex⟩,
            some ⟨0, recordingNearWrap.autosaveFileStartIndex
              + 2 * recordingNearWrap.autosaveFileSampleRate - AUDIO_BUFFER_SIZE⟩))
        ∧ 0 ≤ c.ranges.1.length ∧ 0 ≤ secondLength c.ranges.2
        ∧ c.samples = 2 * recordingNearWrap.autosaveFileSampleRate
        ∧ 0 ≤ c.ranges.1.start ∧ c.ranges.1.start + c.ranges.1.length ≤ AUDIO_BUFFER_SIZE
        ∧ ∀ r, c.ranges.2 = some r → 0 ≤ r.start ∧ r.start + r.length ≤ AUDIO_BUFFER_SIZE :=
  C6_ring_wrap_ranges quietWorld 2 recordingNearWrap (by decide) (by decide) (by decide)
    (by decide) (by decide)

/-- Every call of `writeAutosaveFile` returns when the autosave duration is positive, and
it leaves the file cursor alone. -/
theorem writeAutosaveFile_cursor (env : Nat → WriteEnv) (duration : Int) (s : Autosave)
    (ha : 0 < s.autosaveDuration) :
    ∃ ok s', writeAutosaveFile env duration s = some (ok, s')
      ∧ s'.autosaveFileStartTime = s.autosaveFileStartTime
      ∧ s'.autosaveFileStartIndex = s.autosaveFileStartIndex
      ∧ s'.autosaveFileStartCount = s.autosaveFileStartCount
      ∧ s'.autosaveFileSampleRate = s.autosaveFileSampleRate
      ∧ s'.autosaveTargetCount = s.autosaveTargetCount := by
  by_cases hd : duration = 0
  · subst hd
    exact ⟨true, s, writeAutosaveFile_zero env s, rfl, rfl, rfl, rfl, rfl⟩
  · obtain ⟨ok, s', h, -, h1, h2, h3, h4, h5, -⟩ := writeAutosaveFile_calls env duration s hd ha
    exact ⟨ok, s', h, h1, h2, h3, h4, h5⟩

theorem makeMinuteTransitionRecording_eq {env : Nat → WriteEnv} {s s' : Autosave} {ok : Bool}
    (hrate : s.autosaveFileSampleRate ≠ 0)
    (h : writeAutosaveFile env (wrap32 (Int.tdiv (s.autosaveTargetCount - s.autosaveFileStartCount)
      s.autosaveFileSampleRate)) s = some (ok, s')) :
    makeMinuteTransitionRecording env s = some (ok,
      { s' with
        autosaveFileStartTime := s'.autosaveFileStartTime
          + wrap32 (Int.tdiv (s.autosaveTargetCount - s.autosaveFileStartCount)
              s.autosaveFileSampleRate)
        autosaveFileStartIndex := wrap32 (Int.tmod (s'.autosaveFileStartIndex
          + (s.autosaveTargetCount - s.autosaveFileStartCount)) AUDIO_BUFFER_SIZE)
        autosaveFileStartCount := s'.autosaveTargetCount
        autosaveTargetCount := s'.autosaveTargetCount
          + wrap32 (SECONDS_IN_MINUTE * s'.autosaveFileSampleRate) }) := by
  have hN : AUDIO_BUFFER_SIZE ≠ 0 := by decide
  simp [makeMinuteTransitionRecording, cDiv, cMod, hrate, hN, h]

theorem updateForMillisecondOffset_eq (milliseconds : Int) (s : Autosave) :
    ∃ s', updateForMillisecondOffset milliseconds s = some s'
      ∧ s'.autosaveFileSampleRate = s.autosaveFileSampleRate
      ∧ s'.autosaveTargetCount = s'.autosaveFileStartCount
        + wrap32 (wrap32 (SECONDS_IN_MINUTE - (Time_gmTime s'.autosaveFileStartTime).tm_sec)
            * s'.autosaveFileSampleRate) := by
  have hN : AUDIO_BUFFER_SIZE ≠ 0 := by decide
  have hM : MILLISECONDS_IN_SECOND ≠ 0 := by decide
  by_cases hms : milliseconds > 0
  · simp [updateForMillisecondOffset, hms, ROUNDED_DIV, cDiv, cMod, hN, hM]
  · simp [updateForMillisecondOffset, hms]

theorem tm_sec_range (t : Int) : 0 ≤ (Time_gmTime t).tm_sec ∧ (Time_gmTime t).tm_sec < 60 := by
  unfold Time_gmTime
  simp only
  omega

/-- C7 (as stated, refuted): with `AUTOSAVE 5` the recording that starts at 22:13:20 UTC
produces minute files `[22:13:20, 22:14:00)`, `[22:14:00, 22:15:00)`,
`[22:15:00, 22:16:00)`: after the first file the pending file has
`duration_s = (target_count - file_start_count) / file_sample_rate = 60`, not
`60 * autosaveDuration = 300`. -/
theorem C7_minute_files_not_autosave_period :
    (backgroundThreadBody quietWorld [(0, [startAt221320]), (1920000, [])]
      (initialAutosave 5 true ".")).map
        (fun s => (60 * s.autosaveDuration,
          Int.tdiv (s.autosaveTargetCount - s.autosaveFileStartCount) s.autosaveFileSampleRate))
      = some (300, 60)
    ∧ fileTimes (backgroundThreadBody quietWorld
        [(0, [startAt221320]), (1920000, []), (4800000, []), (7680000, [])]
        (initialAutosave 5 true "."))
      = some [LogLine.fileTime 1700000000 1700000040 0, LogLine.fileTime 1700000040 1700000100 0,
          LogLine.fileTime 1700000100 1700000160 0] := by
  decide

/-- C7 (amended): `makeMinuteTransitionRecording` returns and advances
`autosaveFileStartTime` by exactly `duration_s = (target_count - file_start_count) /
file_sample_rate`; the file that is then pending has `duration_s = 60`
(`SECONDS_IN_MINUTE`, whatever the autosave duration); and for the first file of a
recording, set up by `updateForMillisecondOffset`, `duration_s` is `60 - tm_sec`, the
number of seconds up to the next minute boundary. -/
theorem C7_minute_file_durations (env : Nat → WriteEnv) (s : Autosave)
    (hrate : 0 < s.autosaveFileSampleRate) (hrate60 : s.autosaveFileSampleRate * 60 < 2 ^ 31)
    (ha : 0 < s.autosaveDuration)
    (hk0 : -2 ^ 31 ≤ Int.tdiv (s.autosaveTargetCount - s.autosaveFileStartCount)
      s.autosaveFileSampleRate)
    (hk1 : Int.tdiv (s.autosaveTargetCount - s.autosaveFileStartCount)
      s.autosaveFileSampleRate < 2 ^ 31) :
    (∃ ok s', makeMinuteTransitionRecording env s = some (ok, s')
      ∧ s'.autosaveFileStartTime = s.autosaveFileStartTime
          + Int.tdiv (s.autosaveTargetCount - s.autosaveFileStartCount) s.autosaveFileSampleRate
      ∧ s'.autosaveFileSampleRate = s.autosaveFileSampleRate
      ∧ Int.tdiv (s'.autosaveTargetCount - s'.autosaveFileStartCount) s'.autosaveFileSampleRate
          = SECONDS_IN_MINUTE)
    ∧ ∀ milliseconds : Int, ∃ s1, updateForMillisecondOffset milliseconds s = some s1
      ∧ s1.autosaveFileSampleRate = s.autosaveFileSampleRate
      ∧ Int.tdiv (s1.autosaveTargetCount - s1.autosaveFileStartCount) s1.autosaveFileSampleRate
          = SECONDS_IN_MINUTE - (Time_gmTime s1.autosaveFileStartTime).tm_sec := by
  have hne : s.autosaveFileSampleRate ≠ 0 := ne_of_gt hrate
  constructor
  · obtain ⟨ok, s', hwrite, h1, h2, h3, h4, h5⟩ := writeAutosaveFile_cursor env
      (wrap32 (Int.tdiv (s.autosaveTargetCount - s.autosaveFileStartCount)
        s.autosaveFileSampleRate)) s ha
    refine ⟨ok, _, makeMinuteTransitionRecording_eq hne hwrite, ?_, h4, ?_⟩
    · show s'.autosaveFileStartTime + wrap32 _ = _
      rw [wrap32_of_range hk0 hk1, h1]
    · show Int.tdiv (s'.autosaveTargetCount + wrap32 (SECONDS_IN_MINUTE * s'.autosaveFileSampleRate)
        - s'.autosaveTargetCount) s'.autosaveFileSampleRate = SECONDS_IN_MINUTE
      rw [h4]
      unfold SECONDS_IN_MINUTE
      rw [wrap32_of_range (by omega) (by omega)]
      have : s'.autosaveTargetCount + 60 * s.autosaveFileSampleRate - s'.autosaveTargetCount
          = 60 * s.autosaveFileSampleRate := by omega
      rw [this, Int.mul_tdiv_cancel _ hne]
  · intro milliseconds
    obtain ⟨s1, h1, h2, h3⟩ := updateForMillisecondOffset_eq milliseconds s
    refine ⟨s1, h1, h2, ?_⟩
    obtain ⟨hs0, hs1⟩ := tm_sec_range s1.autosaveFileStartTime
    rw [h3, h2]
    unfold SECONDS_IN_MINUTE
    generalize (Time_gmTime s1.autosaveFileStartTime).tm_sec = sec at *
    rw [wrap32_of_range (x := 60 - sec) (by omega) (by omega)]
    have hpos : 0 < (60 - sec) * s.autosaveFileSampleRate := Int.mul_pos (by omega) hrate
    have hle : (60 - sec) * s.autosaveFileSampleRate ≤ 60 * s.autosaveFileSampleRate :=
      Int.mul_le_mul_of_nonneg_right (by omega) (le_of_lt hrate)
    rw [wrap32_of_range (by omega) (by omega)]
    have : s1.autosaveFileStartCount + (60 - sec) * s.autosaveFileSampleRate
        - s1.autosaveFileStartCount = (60 - sec) * s.autosaveFileSampleRate := by omega
    rw [this, Int.mul_tdiv_cancel _ hne]

/-- Witness for C7: the recording open since 22:13:20 UTC under `AUTOSAVE 5`. -/
theorem C7_minute_file_durations_witness :
    (∃ ok s', makeMinuteTransitionRecording quietWorld (recordingAt221320 5) = some (ok, s')
      ∧ s'.autosaveFileStartTime = (recordingAt221320 5).autosaveFileStartTime
          + Int.tdiv ((recordingAt221320 5).autosaveTargetCount
              - (recordingAt221320 5).autosaveFileStartCount)
            (recordingAt221320 5).autosaveFileSampleRate
      ∧ s'.autosaveFileSampleRate = (recordingAt221320 5).autosaveFileSampleRate
      ∧ Int.tdiv (s'.autosaveTargetCount - s'.autosaveFileStartCount) s'.autosaveFileSampleRate
          = SECONDS_IN_MINUTE)
    ∧ ∀ milliseconds : Int,
      ∃ s1, updateForMillisecondOffset milliseconds (recordingAt221320 5) = some s1
      ∧ s1.autosaveFileSampleRate = (recordingAt221320 5).autosaveFileSampleRate
      ∧ Int.tdiv (s1.autosaveTargetCount - s1.autosaveFileStartCount) s1.autosaveFileSampleRate
          = SECONDS_IN_MINUTE - (Time_gmTime s1.autosaveFileStartTime).tm_sec :=
  C7_minute_file_durations quietWorld (recordingAt221320 5) (by decide) (by decide) (by decide)
    (by decide) (by decide)

/-! ### Capture resampler -/

/-- C8 (failing input): with the default input at 48000 Hz and a requested rate of
32000 Hz the output rate is 32000 and the divider computed by `capture_data_callback` is
1, while `ceil(48000 / 32000)` over the rationals is 2; with an AudioMoth at 250000 Hz
and the default request of 48000 Hz the divider is 5, while `ceil(250000 / 48000)` is 6. -/
theorem C8_divider_is_floor_of_quotient :
    currentSampleRateOf 32000 48000 = 32000
    ∧ capture_data_callback.sampleRateDivider 48000 (currentSampleRateOf 32000 48000) = some 1
    ∧ ⌈(48000 : ℚ) / 32000⌉ = 2
    ∧ currentSampleRateOf 48000 250000 = 48000
    ∧ capture_data_callback.sampleRateDivider 250000 (currentSampleRateOf 48000 250000) = some 5
    ∧ ⌈(250000 : ℚ) / 48000⌉ = 6 := by
  have h1 : currentSampleRateOf 32000 48000 = 32000 := by decide
  have h2 : currentSampleRateOf 48000 250000 = 48000 := by decide
  have e1 : cDiv 48000 32000 = some 1 := by decide
  have e2 : cDiv 250000 48000 = some 5 := by decide
  have w1 : wrap32 1 = 1 := by decide
  have w5 : wrap32 5 = 5 := by decide
  refine ⟨h1, ?_, ?_, h2, ?_, ?_⟩
  · rw [h1]
    simp only [capture_data_callback.sampleRateDivider, e1, Int.ceil_intCast, w1]
  · rw [Int.ceil_eq_iff]
    norm_num
  · rw [h2]
    simp only [capture_data_callback.sampleRateDivider, e2, Int.ceil_intCast, w5]
  · rw [Int.ceil_eq_iff]
    norm_num

theorem roundHalfAway_intCast (z : Int) : roundHalfAway (z : ℚ) = z := by
  unfold roundHalfAway
  split_ifs with h
  · rw [Int.floor_eq_iff]
    constructor <;> linarith
  · rw [Int.ceil_eq_iff]
    constructor <;> linarith

theorem clipSample_intCast {z : Int} (h0 : INT16_MIN ≤ z) (h1 : z ≤ INT16_MAX) :
    clipSample (z : ℚ) = z := by
  unfold clipSample
  rw [roundHalfAway_intCast]
  unfold INT16_MIN at *
  unfold INT16_MAX at *
  omega

theorem MAXIMUM_PLAYBACK_LAG_values :
    MAXIMUM_PLAYBACK_LAG true = 5 ∧ MAXIMUM_PLAYBACK_LAG false = 2 := by
  decide

theorem sampleLag_eq {w r : Int} (hw0 : 0 ≤ w) (hw1 : w < AUDIO_BUFFER_SIZE) (hr0 : 0 ≤ r)
    (hr1 : r < AUDIO_BUFFER_SIZE) :
    playback_data_callback.sampleLag w r = (AUDIO_BUFFER_SIZE + w - r) % AUDIO_BUFFER_SIZE := by
  unfold playback_data_callback.sampleLag
  unfold AUDIO_BUFFER_SIZE at *
  rw [wrap32_of_range (x := 2 ^ 25 + w) (by omega) (by omega),
    wrap32_of_range (x := 2 ^ 25 + w - r) (by omega) (by omega),
    Int.tmod_eq_emod (by omega) (by norm_num)]

theorem bufferLag_eq {w r rate : Int} (hw0 : 0 ≤ w) (hw1 : w < AUDIO_BUFFER_SIZE) (hr0 : 0 ≤ r)
    (hr1 : r < AUDIO_BUFFER_SIZE) (hrate : 0 < rate) :
    playback_data_callback.bufferLag (playback_data_callback.sampleLag w r) rate
      = some ((AUDIO_BUFFER_SIZE + w - r) % AUDIO_BUFFER_SIZE * CALLBACKS_PER_SECOND / rate) := by
  rw [sampleLag_eq hw0 hw1 hr0 hr1]
  unfold playback_data_callback.bufferLag CALLBACKS_PER_SECOND
  generalize hlag : (AUDIO_BUFFER_SIZE + w - r) % AUDIO_BUFFER_SIZE = lag
  have h0 : 0 ≤ lag := by
    rw [← hlag]
    exact Int.emod_nonneg _ (by decide)
  have h1 : lag < 2 ^ 25 := by
    rw [← hlag]
    exact Int.emod_lt_of_pos _ (by decide)
  rw [wrap32_of_range (by omega) (by omega), cDiv, if_neg (ne_of_gt hrate),
    Int.tdiv_eq_ediv (by omega) (le_of_lt hrate)]

theorem resynchronises_eq (isWindows : Bool) {w r rate : Int} (hw0 : 0 ≤ w)
    (hw1 : w < AUDIO_BUFFER_SIZE) (hr0 : 0 ≤ r) (hr1 : r < AUDIO_BUFFER_SIZE) (hrate : 0 < rate) :
    playback_data_callback.resynchronises isWindows w r rate
      = some (decide ((AUDIO_BUFFER_SIZE + w - r) % AUDIO_BUFFER_SIZE * CALLBACKS_PER_SECOND / rate
          > (if isWindows then 5 else 2))) := by
  unfold playback_data_callback.resynchronises
  rw [bufferLag_eq hw0 hw1 hr0 hr1 hrate]
  cases isWindows
  · simp [MAXIMUM_PLAYBACK_LAG_values.2]
  · simp [MAXIMUM_PLAYBACK_LAG_values.1]

/-- C10 (as stated, refuted): on a non-Windows build with write index 13000, read index 0
and 48 kHz the lag is `13000 * 10 / 48000 ≈ 2.7` callback periods, more than 2.5, but the
callback does not resynchronise: the read index stays 0 and the waiting flag ends cleared.
On Windows the same happens with write index 26000, a lag of about 5.4 periods. -/
theorem C10_lag_above_threshold_without_resync :
    playback_data_callback.sampleLag 13000 0 = 13000
    ∧ (13000 : ℚ) * 10 / 48000 > 5 / 2
    ∧ playback_data_callback.resynchronises false 13000 0 48000 = some false
    ∧ (playback_data_callback false noHeterodyne false rampBuffer 13000 48000 4800
        waitingAtZero ()).map (fun r => (r.2.1.playbackReadIndex, r.2.1.playbackBufferWaiting))
      = some (0, false)
    ∧ playback_data_callback.sampleLag 26000 0 = 26000
    ∧ (26000 : ℚ) * 10 / 48000 > 5
    ∧ playback_data_callback.resynchronises true 26000 0 48000 = some false
    ∧ (playback_data_callback true noHeterodyne false rampBuffer 26000 48000 4800
        waitingAtZero ()).map (fun r => (r.2.1.playbackReadIndex, r.2.1.playbackBufferWaiting))
      = some (0, false) := by
  refine ⟨by decide, by norm_num, by decide, by decide, by decide, by norm_num, by decide,
    by decide⟩

/-! ### Time check and heterodyne check -/

theorem ABS_eq_abs (x : Int) : ABS x = |x| := by
  unfold ABS
  split_ifs with h
  · rw [abs_of_neg h]
  · rw [abs_of_nonneg (by omega)]

/-- `ROUNDED_DIV` of a non-negative numerator by a positive denominator is the exact
quotient rounded to the nearest integer (halves upwards). -/
theorem ROUNDED_DIV_eq_round {a b : Int} (ha : 0 ≤ a) (hb : 0 < b) :
    ROUNDED_DIV a b = some (round ((a : ℚ) / (b : ℚ))) := by
  have hne : b ≠ 0 := ne_of_gt hb
  have hh0 : 0 ≤ Int.tdiv b 2 := Int.tdiv_nonneg (le_of_lt hb) (by norm_num)
  have hhalf : Int.tdiv b 2 = b / 2 := Int.tdiv_eq_ediv (le_of_lt hb) (by norm_num)
  unfold ROUNDED_DIV cDiv
  rw [if_neg hne, Int.tdiv_eq_ediv (by omega) (le_of_lt hb), hhalf]
  congr 1
  rw [round_eq]
  symm
  rw [Int.floor_eq_iff]
  have hbq : (0 : ℚ) < (b : ℚ) := by exact_mod_cast hb
  have h1 : (a + b / 2) / b * b ≤ a + b / 2 := Int.ediv_mul_le _ hne
  have h2 : a + b / 2 < ((a + b / 2) / b + 1) * b := Int.lt_ediv_add_one_mul_self _ hb
  have h3 : 2 * (b / 2) ≤ b := by omega
  have h4 : b ≤ 2 * (b / 2) + 1 := by omega
  generalize (a + b / 2) / b = m at *
  generalize b / 2 = h at *
  have h1q : (m : ℚ) * b ≤ a + h := by exact_mod_cast h1
  have h2q : ((a : ℚ) + h) + 1 ≤ (m + 1) * b := by exact_mod_cast (Int.add_one_le_iff.mpr h2)
  have h3q : 2 * (h : ℚ) ≤ b := by exact_mod_cast h3
  have h4q : (b : ℚ) ≤ 2 * h + 1 := by exact_mod_cast h4
  constructor
  · rw [div_add' _ _ _ (ne_of_gt hbq), le_div_iff₀ hbq]
    nlinarith
  · rw [div_add' _ _ _ (ne_of_gt hbq), div_lt_iff₀ hbq]
    nlinarith

/-- C12: with `current_sample_count ≥ start_sample_count` and a positive rate the time
check of the main loop returns, and it declares a mismatch if and only if
`|now - audio_time| > 2000`, where `audio_time = start_time + round(1000 * (count -
start_count) / rate)` and `round` is the nearest integer to the exact quotient; a
difference of exactly 2000 ms declares no mismatch. -/
theorem C12_time_mismatch (count startCount startTime rate now : Int)
    (hc : startCount ≤ count) (hr : 0 < rate) :
    timeMismatch count startCount startTime rate now
      = some (decide (|now - (startTime
          + round ((1000 : ℚ) * ((count - startCount : Int) : ℚ) / (rate : ℚ)))| > 2000))
    ∧ (|now - (startTime
          + round ((1000 : ℚ) * ((count - startCount : Int) : ℚ) / (rate : ℚ)))| = 2000
        → timeMismatch count startCount startTime rate now = some false) := by
  have hround := ROUNDED_DIV_eq_round (a := (count - startCount) * MILLISECONDS_IN_SECOND)
    (b := rate) (by unfold MILLISECONDS_IN_SECOND; omega) hr
  have hcast : (((count - startCount) * MILLISECONDS_IN_SECOND : Int) : ℚ)
      = (1000 : ℚ) * ((count - startCount : Int) : ℚ) := by
    unfold MILLISECONDS_IN_SECOND
    push_cast
    ring
  rw [hcast] at hround
  have key : timeMismatch count startCount startTime rate now
      = some (decide (|now - (startTime
          + round ((1000 : ℚ) * ((count - startCount : Int) : ℚ) / (rate : ℚ)))| > 2000)) := by
    simp only [timeMismatch, hround, ABS_eq_abs, TIME_MISMATCH_LIMIT]
  refine ⟨key, ?_⟩
  intro h
  rw [key, h]
  rfl

/-- Witness for C12: 96000 samples at 48 kHz, two seconds after the start. -/
theorem C12_time_mismatch_witness :
    timeMismatch 96000 0 1700000000000 48000 1700000004000
      = some (decide (|(1700000004000 : Int) - (1700000000000
          + round ((1000 : ℚ) * ((96000 - 0 : Int) : ℚ) / ((48000 : Int) : ℚ)))| > 2000))
    ∧ (|(1700000004000 : Int) - (1700000000000
          + round ((1000 : ℚ) * ((96000 - 0 : Int) : ℚ) / ((48000 : Int) : ℚ)))| = 2000
        → timeMismatch 96000 0 1700000000000 48000 1700000004000 = some false) :=
  C12_time_mismatch 96000 0 1700000000000 48000 1700000004000 (by decide) (by decide)

/-- C13: when heterodyne is enabled with carrier frequency `f` and the capture device has
started at output rate `R_out`, `main` returns `ERROR_RESPONSE` if and only if
`f < 12000` or `f > R_out / 2` (integer division); otherwise it calls
`Heterodyne_initialise(R_out, f)` and ends with `OKAY_RESPONSE`.  In particular
`f = 3000` at `R_out = 48000` is a startup error. -/
theorem C13_heterodyne_check (a : Arguments) (env : MainEnvironment)
    (hhet : a.heterodyneEnabled = true) (hinit : env.initialised = true)
    (hmic : env.startedMicrophone = true) (hthread : env.threadStarted = true) :
    ((mainAfterParse a env).code = ERROR_RESPONSE
      ↔ (a.heterodyneFrequency < 12000
          ∨ a.heterodyneFrequency > Int.tdiv (startupSampleRate a env) 2))
    ∧ ((a.heterodyneFrequency < 12000
          ∨ a.heterodyneFrequency > Int.tdiv (startupSampleRate a env) 2)
        → (mainAfterParse a env).heterodyne = none)
    ∧ (¬ (a.heterodyneFrequency < 12000
          ∨ a.heterodyneFrequency > Int.tdiv (startupSampleRate a env) 2)
        → (mainAfterParse a env).code = OKAY_RESPONSE
          ∧ (mainAfterParse a env).heterodyne
            = some (startupSampleRate a env, a.heterodyneFrequency))
    ∧ (a.heterodyneFrequency = 3000 → startupSampleRate a env = 48000
        → (mainAfterParse a env).code = ERROR_RESPONSE) := by
  have hmain : mainAfterParse a env
      = if a.heterodyneFrequency < 12000
            ∨ a.heterodyneFrequency > Int.tdiv (startupSampleRate a env) 2 then
          ⟨ERROR_RESPONSE, [], none, false⟩
        else if a.autosaveDuration = 0 then
          ⟨OKAY_RESPONSE, (if a.autosaveDuration > 0 then [AS_event_type.AS_START] else [])
            ++ mainLoopEvents a.autosaveDuration env.iterations,
            some (startupSampleRate a env, a.heterodyneFrequency), true⟩
        else
          ⟨OKAY_RESPONSE, (if a.autosaveDuration > 0 then [AS_event_type.AS_START] else [])
            ++ mainLoopEvents a.autosaveDuration env.iterations ++ [AS_event_type.AS_SHUTDOWN],
            some (startupSampleRate a env, a.heterodyneFrequency), true⟩ := by
    simp [mainAfterParse, hhet, hinit, hmic, hthread, startupSampleRate,
      MINIMUM_HETERODYNE_FREQUENCY]
  have hiff : (mainAfterParse a env).code = ERROR_RESPONSE
      ↔ (a.heterodyneFrequency < 12000
          ∨ a.heterodyneFrequency > Int.tdiv (startupSampleRate a env) 2) := by
    rw [hmain]
    by_cases h1 : a.heterodyneFrequency < 12000
        ∨ a.heterodyneFrequency > Int.tdiv (startupSampleRate a env) 2
    · rw [if_pos h1]
      simp [h1]
    · rw [if_neg h1]
      by_cases h2 : a.autosaveDuration = 0
      · rw [if_pos h2]
        simp only [h1, iff_false]
        decide
      · rw [if_neg h2]
        simp only [h1, iff_false]
        decide
  refine ⟨hiff, ?_, ?_, ?_⟩
  · intro h
    rw [hmain, if_pos h]
  · intro h
    rw [hmain, if_neg h]
    by_cases h2 : a.autosaveDuration = 0
    · rw [if_pos h2]
      exact ⟨rfl, rfl⟩
    · rw [if_neg h2]
      exact ⟨rfl, rfl⟩
  · intro hf hR
    exact hiff.mpr (Or.inl (by omega))

/-- Witness for C13: `AudioMoth-Live HETERODYNE 3000` on the default input at 48 kHz is a
startup error. -/
theorem C13_heterodyne_check_witness :
    (mainAfterParse heterodyne3000 defaultInputWorld).code = ERROR_RESPONSE :=
  (C13_heterodyne_check heterodyne3000 defaultInputWorld rfl rfl rfl rfl).2.2.2
    (by decide) (by decide)

/-! ### Firmware warning -/

theorem firmwareWarnings_spec : ∀ (passes : List DeviceCheck) (latch : Bool),
    ((passes.zip (firmwareWarnings passes latch)).filter (fun x => x.1.inspected)).map Prod.snd
        = risingEdges latch (inspectedOldFound passes)
      ∧ (∀ x ∈ passes.zip (firmwareWarnings passes latch), x.1.inspected = false → x.2 = false)
      ∧ (firmwareWarnings passes latch).count true
        = (risingEdges latch (inspectedOldFound passes)).count true := by
  intro passes
  induction passes with
  | nil => intro latch; simp [firmwareWarnings, risingEdges, inspectedOldFound]
  | cons d ds ih =>
    intro latch
    by_cases hi : d.backgroundDeviceCheckTime - d.timeDeviceStarted > DEVICE_CHANGE_INTERVAL
    · have hin : d.inspected = true := by simp [DeviceCheck.inspected, hi]
      obtain ⟨h1, h2, h3⟩ := ih d.backgroundDeviceCheckFoundOldAudioMoth
      have hstep : checkDeviceChange d latch
          = ((d.backgroundDeviceCheckFoundAudioMoth == true && d.usingAudioMoth == false)
              || (d.backgroundDeviceCheckFoundAudioMoth == false && d.usingAudioMoth == true),
             d.backgroundDeviceCheckFoundOldAudioMoth && latch == false,
             d.backgroundDeviceCheckFoundOldAudioMoth) := by
        simp [checkDeviceChange, hi]
      have hold : inspectedOldFound (d :: ds)
          = d.backgroundDeviceCheckFoundOldAudioMoth :: inspectedOldFound ds := by
        simp [inspectedOldFound, List.filter_cons, hin]
      have hedge : (d.backgroundDeviceCheckFoundOldAudioMoth && latch == false)
          = (d.backgroundDeviceCheckFoundOldAudioMoth && !latch) := by
        cases latch <;> simp
      refine ⟨?_, ?_, ?_⟩
      · simp only [firmwareWarnings, hstep, List.zip_cons_cons, List.filter_cons, hin, if_true,
          List.map_cons, hold, risingEdges, h1, hedge]
      · intro x hx hxi
        simp only [firmwareWarnings, hstep, List.zip_cons_cons, List.mem_cons] at hx
        rcases hx with hx | hx
        · rw [hx] at hxi
          simp [hin] at hxi
        · exact h2 x hx hxi
      · simp only [firmwareWarnings, hstep, hold, risingEdges, List.count_cons, h3, hedge]
    · have hin : d.inspected = false := by simp [DeviceCheck.inspected, hi]
      obtain ⟨h1, h2, h3⟩ := ih latch
      have hstep : checkDeviceChange d latch = (false, false, latch) := by
        simp [checkDeviceChange, hi]
      have hold : inspectedOldFound (d :: ds) = inspectedOldFound ds := by
        simp [inspectedOldFound, List.filter_cons, hin]
      refine ⟨?_, ?_, ?_⟩
      · simp only [firmwareWarnings, hstep, List.zip_cons_cons, List.filter_cons, hin, hold]
        simp only [Bool.false_eq_true, if_false]
        exact h1
      · intro x hx hxi
        simp only [firmwareWarnings, hstep, List.zip_cons_cons, List.mem_cons] at hx
        rcases hx with hx | hx
        · rw [hx]
        · exact h2 x hx hxi
      · simp only [firmwareWarnings, hstep, hold, List.count_cons, h3]
        simp

theorem risingEdges_all_true : ∀ (flags : List Bool) (previous : Bool),
    (∀ f ∈ flags, f = true) →
    (risingEdges previous flags).count true = if previous = false ∧ flags ≠ [] then 1 else 0 := by
  intro flags
  induction flags with
  | nil => intro previous _; simp [risingEdges]
  | cons f fs ih =>
    intro previous hall
    have hf : f = true := hall f (List.mem_cons_self _ _)
    have hrest := ih true (fun g hg => hall g (List.mem_cons_of_mem _ hg))
    subst hf
    simp only [risingEdges, List.count_cons, hrest]
    cases previous <;> simp

/-- C17: over every sequence of passes of the main loop, starting with the latch
`oldAudioMothFound = false`, the warnings printed in the passes that inspect the findings
are exactly the false-to-true transitions of `old_found` over those passes (a warning in
an inspection iff `old_found` is true in it and was false in the previous inspection);
passes that do not inspect print nothing; so the number of warnings is the number of such
transitions, and a non-empty run of inspections that all have `old_found` set prints
exactly one warning. -/
theorem C17_firmware_warning_once_per_transition (passes : List DeviceCheck) :
    ((passes.zip (firmwareWarnings passes false)).filter (fun x => x.1.inspected)).map Prod.snd
        = risingEdges false (inspectedOldFound passes)
    ∧ (∀ x ∈ passes.zip (firmwareWarnings passes false), x.1.inspected = false → x.2 = false)
    ∧ (firmwareWarnings passes false).count true
        = (risingEdges false (inspectedOldFound passes)).count true
    ∧ ((∀ d ∈ passes, d.inspected = true ∧ d.backgroundDeviceCheckFoundOldAudioMoth = true) →
        passes ≠ [] → (firmwareWarnings passes false).count true = 1) := by
  obtain ⟨h1, h2, h3⟩ := firmwareWarnings_spec passes false
  refine ⟨h1, h2, h3, ?_⟩
  intro hall hne
  have hfilter : passes.filter DeviceCheck.inspected = passes :=
    List.filter_eq_self.mpr (fun d hd => (hall d hd).1)
  have hflags : ∀ f ∈ inspectedOldFound passes, f = true := by
    intro f hf
    simp only [inspectedOldFound, hfilter, List.mem_map] at hf
    obtain ⟨d, hd, rfl⟩ := hf
    exact (hall d hd).2
  have hnonempty : inspectedOldFound passes ≠ [] := by
    simp only [inspectedOldFound, hfilter, ne_eq, List.map_eq_nil_iff]
    exact hne
  rw [h3, risingEdges_all_true _ _ hflags]
  simp [hnonempty]

/-- Witness for C17: three inspections with `old_found` false, true, true. -/
theorem C17_firmware_warning_once_per_transition_witness :
    (firmwareWarnings threeInspections false).count true
      = (risingEdges false (inspectedOldFound threeInspections)).count true :=
  (C17_firmware_warning_once_per_transition threeInspections).2.2.1

/-! ### File cursor invariants -/

/-- Every call of `writeAutosaveFile` returns when the autosave duration is positive; it
changes neither the file cursor nor the settings. -/
theorem writeAutosaveFile_total (env : Nat → WriteEnv) (duration : Int) (s : Autosave)
    (ha : 0 < s.autosaveDuration) :
    ∃ ok s', writeAutosaveFile env duration s = some (ok, s')
      ∧ s'.autosaveFileStartTime = s.autosaveFileStartTime
      ∧ s'.autosaveFileStartIndex = s.autosaveFileStartIndex
      ∧ s'.autosaveFileStartCount = s.autosaveFileStartCount
      ∧ s'.autosaveFileSampleRate = s.autosaveFileSampleRate
      ∧ s'.autosaveTargetCount = s.autosaveTargetCount
      ∧ s'.autosaveDuration = s.autosaveDuration
      ∧ s'.autosaveWaitingForStartEvent = s.autosaveWaitingForStartEvent := by
  by_cases hd : duration = 0
  · subst hd
    exact ⟨true, s, writeAutosaveFile_zero env s, rfl, rfl, rfl, rfl, rfl, rfl, rfl⟩
  · obtain ⟨ok, s', h, -, h1, h2, h3, h4, h5, h6, h7⟩ :=
      writeAutosaveFile_calls env duration s hd ha
    exact ⟨ok, s', h, h1, h2, h3, h4, h5, h6, h7⟩

/-- The log line of a call of `writeAutosaveFile` with a non-zero duration. -/
theorem writeAutosaveFile_log (env : Nat → WriteEnv) (duration : Int) (s : Autosave)
    (hd : duration ≠ 0) (ha : 0 < s.autosaveDuration) :
    ∃ ok s', writeAutosaveFile env duration s = some (ok, s')
      ∧ s'.output = s.output ++ [LogLine.fileTime s.autosaveFileStartTime
          (s.autosaveFileStartTime + duration) (localTimeOffsetAt env s)] := by
  have hne : s.autosaveDuration ≠ 0 := ne_of_gt ha
  have hinside : ∃ b, minuteInsidePeriod (Time_gmTime s.autosaveFileStartTime)
      s.autosaveDuration = some b := by
    unfold minuteInsidePeriod
    by_cases hsec : (Time_gmTime s.autosaveFileStartTime).tm_sec = 0
    · simp only [hsec, if_true, cMod, hne, if_false, Option.map_some']
      exact ⟨_, rfl⟩
    · simp only [hsec, if_false]
      exact ⟨_, rfl⟩
  obtain ⟨b, hb⟩ := hinside
  simp only [writeAutosaveFile, hd, if_false, hb]
  exact ⟨_, _, rfl, rfl⟩

theorem updateForMillisecondOffset_fields (milliseconds : Int) (s : Autosave) :
    ∃ s', updateForMillisecondOffset milliseconds s = some s'
      ∧ s'.autosaveFileSampleRate = s.autosaveFileSampleRate
      ∧ s'.autosaveDuration = s.autosaveDuration
      ∧ s'.autosaveWaitingForStartEvent = s.autosaveWaitingForStartEvent
      ∧ s'.autosaveTargetCount = s'.autosaveFileStartCount
        + wrap32 (wrap32 (SECONDS_IN_MINUTE - (Time_gmTime s'.autosaveFileStartTime).tm_sec)
            * s'.autosaveFileSampleRate) := by
  have hN : AUDIO_BUFFER_SIZE ≠ 0 := by decide
  have hM : MILLISECONDS_IN_SECOND ≠ 0 := by decide
  by_cases hms : milliseconds > 0
  · simp [updateForMillisecondOffset, hms, ROUNDED_DIV, cDiv, cMod, hN, hM]
  · simp [updateForMillisecondOffset, hms]

/-- A cursor whose pending file runs to the next minute boundary of its start time
satisfies both cursor properties. -/
theorem aligned_of_target {s : Autosave} (hrate : 0 < s.autosaveFileSampleRate)
    (hrate60 : s.autosaveFileSampleRate * 60 < 2 ^ 31)
    (ht : s.autosaveTargetCount = s.autosaveFileStartCount
        + wrap32 (wrap32 (SECONDS_IN_MINUTE - (Time_gmTime s.autosaveFileStartTime).tm_sec)
            * s.autosaveFileSampleRate)) :
    targetAligned s ∧ endsOnMinute s := by
  obtain ⟨hs0, hs1⟩ := tm_sec_range s.autosaveFileStartTime
  have hsec : (Time_gmTime s.autosaveFileStartTime).tm_sec = s.autosaveFileStartTime % 60 := rfl
  unfold SECONDS_IN_MINUTE at ht
  generalize (Time_gmTime s.autosaveFileStartTime).tm_sec = sec at *
  rw [wrap32_of_range (x := 60 - sec) (by omega) (by omega)] at ht
  have hpos : 0 < (60 - sec) * s.autosaveFileSampleRate := Int.mul_pos (by omega) hrate
  have hle : (60 - sec) * s.autosaveFileSampleRate ≤ 60 * s.autosaveFileSampleRate :=
    Int.mul_le_mul_of_nonneg_right (by omega) (le_of_lt hrate)
  rw [wrap32_of_range (by omega) (by omega)] at ht
  have hdiff : s.autosaveTargetCount - s.autosaveFileStartCount
      = (60 - sec) * s.autosaveFileSampleRate := by omega
  refine ⟨⟨?_, ?_, ?_⟩, ?_⟩
  · rw [hdiff]
    exact hpos
  · rw [hdiff]
    exact Dvd.intro_left _ rfl
  · rw [hdiff]
    exact hle
  · unfold endsOnMinute pendingSeconds
    rw [hdiff, Int.mul_tdiv_cancel _ (ne_of_gt hrate)]
    omega

theorem makeMinuteTransitionRecording_total (env : Nat → WriteEnv) (s : Autosave)
    (hrate : s.autosaveFileSampleRate ≠ 0) (ha : 0 < s.autosaveDuration) :
    ∃ ok s', makeMinuteTransitionRecording env s = some (ok, s')
      ∧ s'.autosaveFileSampleRate = s.autosaveFileSampleRate
      ∧ s'.autosaveDuration = s.autosaveDuration
      ∧ s'.autosaveWaitingForStartEvent = s.autosaveWaitingForStartEvent
      ∧ s'.autosaveFileStartTime = s.autosaveFileStartTime + wrap32 (pendingSeconds s)
      ∧ s'.autosaveFileStartCount = s.autosaveTargetCount
      ∧ s'.autosaveTargetCount = s.autosaveTargetCount
          + wrap32 (SECONDS_IN_MINUTE * s.autosaveFileSampleRate) := by
  obtain ⟨ok, s', hwrite, h1, h2, h3, h4, h5, h6, h7⟩ := writeAutosaveFile_total env
    (wrap32 (Int.tdiv (s.autosaveTargetCount - s.autosaveFileStartCount)
      s.autosaveFileSampleRate)) s ha
  refine ⟨ok, _, makeMinuteTransitionRecording_eq hrate hwrite, h4, h6, h7, ?_, h5, ?_⟩
  · show s'.autosaveFileStartTime + wrap32 _ = _
    rw [h1]
    rfl
  · show s'.autosaveTargetCount + wrap32 (SECONDS_IN_MINUTE * s'.autosaveFileSampleRate) = _
    rw [h5, h4]

/-- After a minute transition the pending file is one minute long. -/
theorem makeMinuteTransitionRecording_aligned (env : Nat → WriteEnv) (s : Autosave)
    (hrate : 0 < s.autosaveFileSampleRate) (hrate60 : s.autosaveFileSampleRate * 60 < 2 ^ 31)
    (ha : 0 < s.autosaveDuration) :
    ∃ ok s', makeMinuteTransitionRecording env s = some (ok, s')
      ∧ s'.autosaveFileSampleRate = s.autosaveFileSampleRate
      ∧ s'.autosaveDuration = s.autosaveDuration
      ∧ s'.autosaveWaitingForStartEvent = s.autosaveWaitingForStartEvent
      ∧ s'.autosaveFileStartTime = s.autosaveFileStartTime + wrap32 (pendingSeconds s)
      ∧ targetAligned s' ∧ pendingSeconds s' = 60 := by
  obtain ⟨ok, s', h, h1, h2, h3, h4, h5, h6⟩ :=
    makeMinuteTransitionRecording_total env s (ne_of_gt hrate) ha
  have hdiff : s'.autosaveTargetCount - s'.autosaveFileStartCount
      = 60 * s'.autosaveFileSampleRate := by
    rw [h6, h5, h1]
    unfold SECONDS_IN_MINUTE
    rw [wrap32_of_range (by omega) (by omega)]
    omega
  refine ⟨ok, s', h, h1, h2, h3, h4, ⟨?_, ?_, ?_⟩, ?_⟩
  · rw [hdiff, h1]
    omega
  · rw [hdiff]
    exact Dvd.intro_left _ rfl
  · rw [hdiff]
  · unfold pendingSeconds
    rw [hdiff, h1, Int.mul_tdiv_cancel _ (ne_of_gt hrate)]

theorem startEvent_aligned (event : AS_event) (s : Autosave) (hrate : 0 < event.sampleRate)
    (hrate60 : event.sampleRate * 60 < 2 ^ 31) :
    ∃ s', startEvent event s = some s'
      ∧ s'.autosaveFileSampleRate = event.sampleRate
      ∧ s'.autosaveDuration = s.autosaveDuration
      ∧ s'.autosaveWaitingForStartEvent = false
      ∧ targetAligned s' ∧ endsOnMinute s' := by
  have hne : event.sampleRate ≠ 0 := ne_of_gt hrate
  obtain ⟨s1, h, h1, h2, h3, h4⟩ := updateForMillisecondOffset_fields
    (wrap32 (Int.tmod (event.startTime + Int.tdiv ((event.currentCount - event.startCount)
      * MILLISECONDS_IN_SECOND + Int.tdiv event.sampleRate 2) event.sampleRate)
      MILLISECONDS_IN_SECOND))
    { s with
      autosaveFileSampleRate := event.sampleRate
      autosaveInputDeviceCommentName := event.inputDeviceCommentName
      autosaveFileStartTime := Int.tdiv (event.startTime
        + Int.tdiv ((event.currentCount - event.startCount) * MILLISECONDS_IN_SECOND
          + Int.tdiv event.sampleRate 2) event.sampleRate) MILLISECONDS_IN_SECOND
      autosaveFileStartCount := event.currentCount
      autosaveFileStartIndex := event.currentIndex }
  have hal := aligned_of_target (s := s1) (by rw [h1]; exact hrate) (by rw [h1]; exact hrate60) h4
  refine ⟨{ s1 with autosaveWaitingForStartEvent := false }, ?_, h1, h2, rfl, hal.1, hal.2⟩
  simp [startEvent, ROUNDED_DIV, cDiv, hne, h]

theorem restartEvent_aligned (env : Nat → WriteEnv) (event : AS_event) (success : Bool)
    (s : Autosave) (hs : s.autosaveFileSampleRate ≠ 0) (ha : 0 < s.autosaveDuration)
    (hrate : 0 < event.sampleRate) (hrate60 : event.sampleRate * 60 < 2 ^ 31) :
    ∃ ok s', restartEvent env event success s = some (ok, s')
      ∧ s'.autosaveFileSampleRate = event.sampleRate
      ∧ s'.autosaveDuration = s.autosaveDuration
      ∧ targetAligned s' ∧ endsOnMinute s' := by
  obtain ⟨ok, s1, hwrite, -, -, -, -, -, h6, -⟩ := writeAutosaveFile_total env
    (Int.tdiv (wrap32 (event.startCount - s.autosaveFileStartCount)) s.autosaveFileSampleRate)
    s ha
  obtain ⟨s2, h, h1, h2, -, h4⟩ := updateForMillisecondOffset_fields
    (wrap32 (Int.tmod event.startTime MILLISECONDS_IN_SECOND))
    { s1 with
      autosaveFileSampleRate := event.sampleRate
      autosaveInputDeviceCommentName := event.inputDeviceCommentName
      autosaveFileStartTime := Int.tdiv event.startTime MILLISECONDS_IN_SECOND
      autosaveFileStartCount := event.startCount
      autosaveFileStartIndex := wrap32 (Int.tmod (AUDIO_BUFFER_SIZE + event.currentIndex
        - (event.currentCount - event.startCount)) AUDIO_BUFFER_SIZE) }
  have hal := aligned_of_target (s := s2) (by rw [h1]; exact hrate) (by rw [h1]; exact hrate60) h4
  refine ⟨success && ok, s2, ?_, h1, h2.trans h6, hal.1, hal.2⟩
  simp [restartEvent, cDiv, hs, hwrite, h]

/-- C19: when the worker processes a START event while waiting, or a RESTART event of an
open recording, with a positive new sample rate (`60 * rate < 2^31`) and autosave
enabled, it returns and in the state it leaves `target_count - file_start_count` is a
positive multiple of `file_sample_rate` and at most `60 * file_sample_rate`; and every
minute transition made from a state with such a rate leaves a state with that property
again. -/
theorem C19_target_count_aligned (env : Nat → WriteEnv) (currentSampleCount : Int)
    (event : AS_event) (success : Bool) (s : Autosave)
    (hevent : (event.type = .AS_START ∧ s.autosaveWaitingForStartEvent = true)
      ∨ (event.type = .AS_RESTART ∧ s.autosaveFileSampleRate ≠ 0))
    (hrate : 0 < event.sampleRate) (hrate60 : event.sampleRate * 60 < 2 ^ 31)
    (ha : 0 < s.autosaveDuration) :
    (∃ ok s', processEvent env currentSampleCount event success s = some (ok, s')
      ∧ s'.autosaveFileSampleRate = event.sampleRate
      ∧ s'.autosaveDuration = s.autosaveDuration
      ∧ targetAligned s')
    ∧ ∀ (world : Nat → WriteEnv) (t : Autosave), 0 < t.autosaveFileSampleRate →
        t.autosaveFileSampleRate * 60 < 2 ^ 31 → 0 < t.autosaveDuration →
        ∃ ok t', makeMinuteTransitionRecording world t = some (ok, t')
          ∧ t'.autosaveFileSampleRate = t.autosaveFileSampleRate
          ∧ t'.autosaveDuration = t.autosaveDuration
          ∧ targetAligned t' := by
  constructor
  · rcases hevent with ⟨htype, hwait⟩ | ⟨htype, hs⟩
    · obtain ⟨s1, h, h1, h2, h3, h4, -⟩ := startEvent_aligned event s hrate hrate60
      by_cases htrans : currentSampleCount ≥ s1.autosaveTargetCount
          ∧ s1.autosaveTargetCount < event.currentCount
      · obtain ⟨ok, s2, ht, t1, t2, t3, -, t5, -⟩ := makeMinuteTransitionRecording_aligned env s1
          (by rw [h1]; exact hrate) (by rw [h1]; exact hrate60) (by rw [h2]; exact ha)
        refine ⟨success && ok, s2, ?_, t1.trans h1, t2.trans h2, t5⟩
        simp [processEvent, htype, hwait, h, htrans, ht]
      · refine ⟨success, s1, ?_, h1, h2, h4⟩
        simp [processEvent, htype, hwait, h, htrans]
    · have hnotstart : ¬ (s.autosaveWaitingForStartEvent = true
          ∧ event.type = AS_event_type.AS_START) := by
        rw [htype]
        simp
      by_cases htrans : currentSampleCount ≥ s.autosaveTargetCount
          ∧ s.autosaveTargetCount < event.currentCount
      · obtain ⟨ok, s1, ht, t1, t2, -⟩ := makeMinuteTransitionRecording_total env s hs ha
        obtain ⟨ok2, s2, hr, r1, r2, r3, -⟩ := restartEvent_aligned env event (success && ok) s1
          (by rw [t1]; exact hs) (by rw [t2]; exact ha) hrate hrate60
        refine ⟨ok2, s2, ?_, r1, r2.trans t2, r3⟩
        simp [processEvent, htype, htrans, ht, hr]
      · obtain ⟨ok2, s2, hr, r1, r2, r3, -⟩ := restartEvent_aligned env event success s
          hs ha hrate hrate60
        refine ⟨ok2, s2, ?_, r1, r2, r3⟩
        simp [processEvent, htype, htrans, hr]
  · intro world t h1 h2 h3
    obtain ⟨ok, t', ht, t1, t2, -, -, t5, -⟩ :=
      makeMinuteTransitionRecording_aligned world t h1 h2 h3
    exact ⟨ok, t', ht, t1, t2, t5⟩

/-- Witness for C19: the START event at 22:13:20 UTC processed by a waiting worker. -/
theorem C19_target_count_aligned_witness :
    ∃ ok s', processEvent quietWorld 0 startAt221320 true (initialAutosave 1 true ".")
        = some (ok, s')
      ∧ s'.autosaveFileSampleRate = startAt221320.sampleRate
      ∧ s'.autosaveDuration = (initialAutosave 1 true ".").autosaveDuration
      ∧ targetAligned s' :=
  (C19_target_count_aligned quietWorld 0 startAt221320 true (initialAutosave 1 true ".")
    (Or.inl ⟨rfl, rfl⟩) (by decide) (by decide) (by decide)).1

theorem pendingSeconds_range {s : Autosave} (hrate : 0 < s.autosaveFileSampleRate)
    (hal : targetAligned s) : 0 < pendingSeconds s ∧ pendingSeconds s ≤ 60 := by
  obtain ⟨hpos, ⟨c, hc⟩, hle⟩ := hal
  unfold pendingSeconds
  rw [hc, Int.mul_tdiv_cancel_left _ (ne_of_gt hrate)]
  rw [hc] at hpos hle
  constructor
  · by_contra hneg
    have : s.autosaveFileSampleRate * c ≤ 0 :=
      Int.mul_nonpos_of_nonneg_of_nonpos (le_of_lt hrate) (by omega)
    omega
  · by_contra hbig
    have : s.autosaveFileSampleRate * 61 ≤ s.autosaveFileSampleRate * c :=
      Int.mul_le_mul_of_nonneg_left (by omega) (le_of_lt hrate)
    omega

/-- C20: `updateForMillisecondOffset` returns and leaves a cursor whose pending file ends
on a whole UTC minute: `(file_start_time_s + (target_count - file_start_count) /
file_sample_rate) mod 60 = 0`.  A minute transition made from such a cursor writes the
file `[file_start_time_s, file_start_time_s + duration_s)`, which ends on a minute
boundary; the next file starts at that boundary and its pending end is a whole minute
again. -/
theorem C20_pending_file_ends_on_minute (milliseconds : Int) (s : Autosave)
    (hrate : 0 < s.autosaveFileSampleRate) (hrate60 : s.autosaveFileSampleRate * 60 < 2 ^ 31) :
    (∃ s1, updateForMillisecondOffset milliseconds s = some s1
      ∧ s1.autosaveFileSampleRate = s.autosaveFileSampleRate
      ∧ targetAligned s1 ∧ endsOnMinute s1)
    ∧ ∀ (env : Nat → WriteEnv) (t : Autosave), 0 < t.autosaveFileSampleRate →
        t.autosaveFileSampleRate * 60 < 2 ^ 31 → 0 < t.autosaveDuration →
        targetAligned t → endsOnMinute t →
        ∃ ok t', makeMinuteTransitionRecording env t = some (ok, t')
          ∧ t'.output = t.output ++ [LogLine.fileTime t.autosaveFileStartTime
              (t.autosaveFileStartTime + pendingSeconds t) (localTimeOffsetAt env t)]
          ∧ (t.autosaveFileStartTime + pendingSeconds t) % 60 = 0
          ∧ t'.autosaveFileStartTime = t.autosaveFileStartTime + pendingSeconds t
          ∧ targetAligned t' ∧ endsOnMinute t' := by
  constructor
  · obtain ⟨s1, h, h1, -, -, h4⟩ := updateForMillisecondOffset_fields milliseconds s
    have hal := aligned_of_target (s := s1) (by rw [h1]; exact hrate)
      (by rw [h1]; exact hrate60) h4
    exact ⟨s1, h, h1, hal.1, hal.2⟩
  · intro env t h1 h2 h3 hal hend
    obtain ⟨hp0, hp1⟩ := pendingSeconds_range h1 hal
    have hw : wrap32 (pendingSeconds t) = pendingSeconds t :=
      wrap32_of_range (by omega) (by omega)
    obtain ⟨ok, t', ht, e1, e2, e3, e4, e5, e6⟩ :=
      makeMinuteTransitionRecording_aligned env t h1 h2 h3
    obtain ⟨ok2, w, hwrite, hout⟩ := writeAutosaveFile_log env (wrap32 (pendingSeconds t)) t
      (by rw [hw]; omega) h3
    have heq := makeMinuteTransitionRecording_eq (ne_of_gt h1) hwrite
    rw [heq] at ht
    injection ht with ht
    injection ht with hok ht'
    refine ⟨ok, t', by rw [heq, hok, ht'], ?_, hend, ?_, e5, ?_⟩
    · rw [← ht']
      show w.output = _
      rw [hout, hw]
    · rw [e4, hw]
    · unfold endsOnMinute at hend ⊢
      rw [e6, e4, hw]
      omega

/-- Witness for C20: the recording open since 22:13:20 UTC. -/
theorem C20_pending_file_ends_on_minute_witness :
    ∃ s1, updateForMillisecondOffset 0 (recordingAt221320 1) = some s1
      ∧ s1.autosaveFileSampleRate = (recordingAt221320 1).autosaveFileSampleRate
      ∧ targetAligned s1 ∧ endsOnMinute s1 :=
  (C20_pending_file_ends_on_minute 0 (recordingAt221320 1) (by decide) (by decide)).1

/-! ### Number parsing -/

theorem toUpper_of_isDigit {c : Char} (h : c.isDigit = true) : c.toUpper = c := by
  simp only [Char.isDigit, Bool.and_eq_true, decide_eq_true_eq] at h
  have h2 : c.val.toNat ≤ 57 := h.2
  simp only [Char.toUpper, Char.toNat]
  rw [if_neg]
  omega

/-- A string of digits is none of the keywords. -/
theorem parseArgument_digits {pattern text : String} (q : Char) (qs : List Char)
    (hp : pattern.toList = q :: qs) (hq : q.isDigit = false)
    (hdigits : text.toList.all Char.isDigit = true) : parseArgument pattern text = false := by
  unfold parseArgument
  rw [hp]
  cases htext : text.toList with
  | nil => simp
  | cons c cs =>
    rw [htext] at hdigits
    simp only [List.all_cons, Bool.and_eq_true] at hdigits
    have hc := toUpper_of_isDigit hdigits.1
    have hne : c ≠ q := by
      rintro rfl
      rw [hq] at hdigits
      exact absurd hdigits.1 (by simp)
    simp [ARGUMENT_BUFFER_SIZE, hc, hne]

theorem digitsValue_eq_foldl : ∀ (cs : List Char) (acc : Nat), cs.all Char.isDigit = true →
    digitsValue acc cs = cs.foldl (fun value c => value * 10 + (c.toNat - '0'.toNat)) acc := by
  intro cs
  induction cs with
  | nil => intro acc _; rfl
  | cons c cs ih =>
    intro acc h
    simp only [List.all_cons, Bool.and_eq_true] at h
    simp only [digitsValue, h.1, if_true, List.foldl_cons]
    rw [ih _ h.2, Nat.mul_comm]

theorem parseNumber_digits {text : String} (hdigits : text.toList.all Char.isDigit = true)
    (hrange : decimalValue text < 2 ^ 31) : parseNumber text = some (decimalValue text : Int) := by
  have htake : (text.toList.take ARGUMENT_BUFFER_SIZE).all Char.isDigit = true := by
    rw [List.all_eq_true] at hdigits ⊢
    intro c hc
    exact hdigits c (List.mem_of_mem_take hc)
  have hval : digitsValue 0 text.toList = decimalValue text :=
    digitsValue_eq_foldl _ _ hdigits
  unfold parseNumber atoi
  rw [if_pos htake, hval]
  congr 1
  have h1 : ((decimalValue text : Nat) : Int) < 2 ^ 31 := by exact_mod_cast hrange
  have h2 : min ((decimalValue text : Nat) : Int) (2 ^ 63 - 1) = (decimalValue text : Int) := by
    omega
  rw [h2]
  exact wrap32_of_range (by omega) h1

theorem parseNumberAgainstList_digits {text : String} (validNumbers : List Int) (number : Int)
    (hdigits : text.toList.all Char.isDigit = true) (hrange : decimalValue text < 2 ^ 31) :
    parseNumberAgainstList text validNumbers number
      = if (decimalValue text : Int) ∈ validNumbers then (true, (decimalValue text : Int))
        else (false, number) := by
  unfold parseNumberAgainstList
  rw [parseNumber_digits hdigits hrange]
  by_cases h : (decimalValue text : Int) ∈ validNumbers <;> simp [h]

/-- C14 (as stated, refuted): the digit string `4294975296` (`2^32 + 8000`) has a decimal
value that is not a valid sample rate, but `atoi` delivers 8000 and
`parseNumberAgainstList` returns true and stores 8000; `AudioMoth-Live 4294975296` is
parsed as a request for 8000 Hz instead of ending with exit code 1. -/
theorem C14_overflowing_number_accepted :
    "4294975296".toList.all Char.isDigit = true
    ∧ decimalValue "4294975296" = 4294975296
    ∧ (4294975296 : Int) ∉ validSampleRates
    ∧ parseNumberAgainstList "4294975296" validSampleRates 48000 = (true, 8000)
    ∧ parseArguments (fun _ => false) ["AudioMoth-Live", "4294975296"]
      = some (.parsed (sampleRateAccepted 8000)) := by
  decide

/-- C14 (amended): for every argument string that consists only of decimal digits and
whose decimal value is below `2^31` (the empty string has the value 0),
`parseNumberAgainstList` returns true and stores the value if and only if the value is a
member of the list, and otherwise returns false and leaves `*number` unchanged.  Hence
such a string as the only argument sets `requestedSampleRate` iff its value is a valid
sample rate, after `AUTOSAVE` it is accepted iff its value is a valid duration, and in
both cases any other value makes `main` return with `ERROR_RESPONSE`. -/
theorem C14_number_against_list (text : String) (validNumbers : List Int) (number : Int)
    (hdigits : text.toList.all Char.isDigit = true) (hrange : decimalValue text < 2 ^ 31) :
    parseNumberAgainstList text validNumbers number
      = (if (decimalValue text : Int) ∈ validNumbers then (true, (decimalValue text : Int))
         else (false, number))
    ∧ (∀ (Directory_exists : String → Bool) (prog : String),
        parseArguments Directory_exists [prog, text]
          = if (decimalValue text : Int) ∈ validSampleRates then
              some (.parsed (sampleRateAccepted (decimalValue text)))
            else some (.returned ERROR_RESPONSE sampleRateRejected))
    ∧ (∀ (Directory_exists : String → Bool) (prog keyword : String),
        parseArgument "AUTOSAVE" keyword = true →
        parseArguments Directory_exists [prog, keyword, text]
          = if (decimalValue text : Int) ∈ validAutosaveDurations then
              some (.parsed (autosaveAccepted (decimalValue text)))
            else some (.returned ERROR_RESPONSE autosaveRejected)) := by
  have hlist := fun (l : List Int) (n : Int) => parseNumberAgainstList_digits l n
    hdigits hrange
  have hnum := parseNumber_digits hdigits hrange
  have k1 : parseArgument "HIGHSAMPLERATE" text = false :=
    parseArgument_digits 'H' "IGHSAMPLERATE".toList rfl (by decide) hdigits
  have k2 : parseArgument "HSR" text = false :=
    parseArgument_digits 'H' "SR".toList rfl (by decide) hdigits
  have k3 : parseArgument "UTC" text = false :=
    parseArgument_digits 'U' "TC".toList rfl (by decide) hdigits
  have k4 : parseArgument "AUTOSAVE" text = false :=
    parseArgument_digits 'A' "UTOSAVE".toList rfl (by decide) hdigits
  have k5 : parseArgument "MONITOR" text = false :=
    parseArgument_digits 'M' "ONITOR".toList rfl (by decide) hdigits
  have k6 : parseArgument "HETERODYNE" text = false :=
    parseArgument_digits 'H' "ETERODYNE".toList rfl (by decide) hdigits
  refine ⟨hlist validNumbers number, ?_, ?_⟩
  · intro D prog
    unfold parseArguments
    rw [argumentLoop]
    by_cases hv : (decimalValue text : Int) ∈ validSampleRates
    · simp [initialArguments, argumentStep, k1, k2, k3, k4, k5, k6, hnum, hlist, hv]
      rw [argumentLoop]
      simp [sampleRateAccepted, initialArguments]
    · simp [initialArguments, argumentStep, k1, k2, k3, k4, k5, k6, hnum, hlist, hv,
        sampleRateRejected]
  · intro D prog keyword hk
    have h1 : parseArgument "HIGHSAMPLERATE" keyword = false :=
      parseArgument_unique hk (by decide)
    have h2 : parseArgument "HSR" keyword = false := parseArgument_unique hk (by decide)
    have h3 : parseArgument "UTC" keyword = false := parseArgument_unique hk (by decide)
    unfold parseArguments
    rw [argumentLoop]
    by_cases hv : (decimalValue text : Int) ∈ validAutosaveDurations
    · simp [initialArguments, argumentStep, h1, h2, h3, hk, hlist, hv]
      rw [argumentLoop]
      simp [autosaveAccepted, initialArguments]
    · simp [initialArguments, argumentStep, h1, h2, h3, hk, hlist, hv, autosaveRejected]

/-- Witness for C14: the argument `32000`. -/
theorem C14_number_against_list_witness :
    parseNumberAgainstList "32000" validSampleRates 48000
      = (if (decimalValue "32000" : Int) ∈ validSampleRates then
          (true, (decimalValue "32000" : Int))
         else (false, 48000)) :=
  (C14_number_against_list "32000" validSampleRates 48000 (by decide) (by decide)).1

/-! ### Time range line -/

theorem format02d_eq_twoDigits {n : Int} (h0 : 0 ≤ n) (h1 : n < 100) :
    format02d n = twoDigits n := by
  interval_cases n <;> decide

theorem tm_min_lt (t : Int) : (Time_gmTime t).tm_min < 60 := by
  unfold Time_gmTime
  simp only
  omega

theorem tm_hour_range (t : Int) : 0 ≤ (Time_gmTime t).tm_hour ∧ (Time_gmTime t).tm_hour < 24 := by
  unfold Time_gmTime
  simp only
  omega

theorem clockText_eq (t : Int) :
    format02d (Time_gmTime t).tm_hour ++ ":" ++ format02d (Time_gmTime t).tm_min ++ ":"
      ++ format02d (Time_gmTime t).tm_sec = clockText t := by
  have hh := tm_hour_range t
  have hm := tm_min_nonneg t
  have hm2 := tm_min_lt t
  have hs := tm_sec_range t
  rw [format02d_eq_twoDigits hh.1 (by omega), format02d_eq_twoDigits hm (by omega),
    format02d_eq_twoDigits hs.1 (by omega)]
  rfl

theorem tdiv_tmod_sixty (m : Int) :
    60 * Int.tdiv m 60 + Int.tmod m 60 = m
      ∧ (0 ≤ m → 0 ≤ Int.tdiv m 60 ∧ 0 ≤ Int.tmod m 60 ∧ Int.tmod m 60 < 60)
      ∧ (m ≤ 0 → Int.tdiv m 60 ≤ 0 ∧ Int.tmod m 60 ≤ 0 ∧ -60 < Int.tmod m 60) := by
  refine ⟨Int.tdiv_add_tmod m 60, ?_, ?_⟩
  · intro h
    rw [Int.tdiv_eq_ediv h (by norm_num), tmod_eq_emod_of_nonneg h (by norm_num)]
    omega
  · intro h
    have hk : 0 ≤ -m := by omega
    have e := Int.tdiv_add_tmod m 60
    have e2 : Int.tdiv m 60 = -((-m) / 60) := by
      rw [← Int.tdiv_eq_ediv hk (by norm_num), Int.neg_tdiv, neg_neg]
    omega

theorem toString_of_nonneg {x : Int} (h : 0 ≤ x) : toString x = toString x.natAbs := by
  cases x with
  | ofNat n => rfl
  | negSucc n => exact absurd h (by simp)

theorem toString_of_neg {x : Int} (h : x < 0) : toString x = "-" ++ toString x.natAbs := by
  cases x with
  | ofNat n => exact absurd h (by simp)
  | negSucc n => rfl

theorem zonePart_eq (m h r : Int) (e : 60 * h + r = m)
    (hpos : 0 ≤ m → 0 ≤ h ∧ 0 ≤ r ∧ r < 60) (hneg : m ≤ 0 → h ≤ 0 ∧ r ≤ 0 ∧ -60 < r) :
    (if h < 0 then toString h
      else if h > 0 then "+" ++ toString h
      else (if r < 0 then "-0" else "") ++ (if r > 0 then "+0" else ""))
        ++ (if r < 0 then ":" ++ format02d (-r) else "")
        ++ (if r > 0 then ":" ++ format02d r else "")
      = if m = 0 then "" else (if m < 0 then "-" else "+") ++ toString h.natAbs
          ++ (if r.natAbs ≠ 0 then ":" ++ twoDigits r.natAbs else "") := by
  have habs : ∀ x : Int, 0 ≤ x → ((x.natAbs : Nat) : Int) = x := fun x hx => by omega
  have habs2 : ∀ x : Int, x ≤ 0 → ((x.natAbs : Nat) : Int) = -x := fun x hx => by omega
  have z1 : toString (Int.natAbs 0) = "0" := rfl
  have z2 : "-0" = "-" ++ "0" := rfl
  have z3 : "+0" = "+" ++ "0" := rfl
  rcases lt_trichotomy m 0 with hm | hm | hm
  · obtain ⟨h1, h2, h3⟩ := hneg (by omega)
    have c1 : ¬ m = 0 := by omega
    have c2 : ¬ r > 0 := by omega
    have c3 : ¬ h > 0 := by omega
    simp only [if_neg c1, if_pos hm, if_neg c2, if_neg c3, habs2 r h2]
    by_cases hh : h < 0
    · simp only [if_pos hh, toString_of_neg hh]
      by_cases hr : r < 0
      · have c4 : r.natAbs ≠ 0 := by omega
        simp only [if_pos hr, if_pos c4, format02d_eq_twoDigits (by omega : 0 ≤ -r) (by omega),
          String.append_empty]
      · have c4 : ¬ r.natAbs ≠ 0 := by omega
        simp only [if_neg hr, if_neg c4, String.append_empty]
    · have h0 : h = 0 := by omega
      have hr : r < 0 := by omega
      have c4 : r.natAbs ≠ 0 := by omega
      subst h0
      simp only [if_neg hh, if_pos hr, if_pos c4, z1, z2,
        format02d_eq_twoDigits (by omega : 0 ≤ -r) (by omega), String.append_empty]
  · subst hm
    obtain ⟨h1, h2, h3⟩ := hneg (by omega)
    obtain ⟨h4, h5, h6⟩ := hpos (by omega)
    have h0 : h = 0 := by omega
    have r0 : r = 0 := by omega
    subst h0 r0
    rfl
  · obtain ⟨h1, h2, h3⟩ := hpos (by omega)
    have c1 : ¬ m = 0 := by omega
    have c2 : ¬ r < 0 := by omega
    have c3 : ¬ h < 0 := by omega
    have c5 : ¬ m < 0 := by omega
    simp only [if_neg c1, if_neg c5, if_neg c2, if_neg c3, habs r h2]
    by_cases hh : h > 0
    · simp only [if_pos hh, toString_of_nonneg h1]
      by_cases hr : r > 0
      · have c4 : r.natAbs ≠ 0 := by omega
        simp only [if_pos hr, if_pos c4, format02d_eq_twoDigits h2 (by omega : r < 100),
          String.append_empty]
      · have c4 : ¬ r.natAbs ≠ 0 := by omega
        simp only [if_neg hr, if_neg c4, String.append_empty]
    · have h0 : h = 0 := by omega
      have hr : r > 0 := by omega
      have c4 : r.natAbs ≠ 0 := by omega
      subst h0
      simp only [if_neg hh, if_pos hr, if_pos c4, z1, z3,
        format02d_eq_twoDigits h2 (by omega : r < 100), String.append_empty, String.empty_append]

/-- C18 (counterexample): with a local time offset of zero, and likewise with an offset
of less than one minute, `formatFileTime` writes `(UTC)` with neither a sign character nor
an hour after `UTC`. -/
theorem C18_zero_offset_has_no_sign :
    formatFileTime 1700000000 1700000040 0 = "22:13:20 to 22:14:00 (UTC)"
      ∧ formatFileTime 1700000000 1700000040 (-59) = "22:12:21 to 22:13:01 (UTC)" := by
  decide

/-- C18 (amended): for every start time, stop time and local time offset, `formatFileTime`
produces the two zero-padded clock times of start + offset and stop + offset joined by
` to `, then ` (UTC`, then the zone text, then `)`; the zone text is empty when the offset
has no whole minute, and otherwise is the sign of the offset, the absolute hours, and `:MM`
exactly when the minute part is not zero. -/
theorem C18_file_time_format (start stop timeOffset : Int) :
    formatFileTime start stop timeOffset
      = clockText (start + timeOffset) ++ " to " ++ clockText (stop + timeOffset) ++ " (UTC"
          ++ zoneText timeOffset ++ ")" := by
  obtain ⟨e, hpos, hneg⟩ := tdiv_tmod_sixty (Int.tdiv timeOffset 60)
  have hz := zonePart_eq (Int.tdiv timeOffset 60) (Int.tdiv (Int.tdiv timeOffset 60) 60)
    (Int.tmod (Int.tdiv timeOffset 60) 60) e hpos hneg
  unfold formatFileTime zoneText
  simp only [SECONDS_IN_MINUTE, MINUTES_IN_HOUR]
  rw [← hz, ← clockText_eq, ← clockText_eq]
  simp only [String.append_assoc]

/-! ### Device enumeration -/

theorem strstr_isSome : ∀ (haystack needle : List Char),
    (strstr haystack needle).isSome = decide (needle <:+: haystack) := by
  intro haystack needle
  induction haystack with
  | nil =>
    unfold strstr
    by_cases h : needle = []
    · subst h; simp
    · rw [if_neg h]; simp [List.infix_nil, h]
  | cons c haystack ih =>
    unfold strstr
    by_cases h : needle.isPrefixOf (c :: haystack) = true
    · rw [if_pos h]
      have h2 : needle <:+: c :: haystack := (List.isPrefixOf_iff_prefix.mp h).isInfix
      simp [h2]
    · rw [if_neg h, Option.isSome_map', ih]
      have h3 : ¬ needle <+: c :: haystack := fun hp => h (List.isPrefixOf_iff_prefix.mpr hp)
      simp only [List.infix_cons_iff, h3, false_or]

theorem strstr_eq_none (haystack needle : List Char) :
    strstr haystack needle = none ↔ nameContains (String.mk needle) (String.mk haystack) = false := by
  have h := strstr_isSome haystack needle
  unfold nameContains
  cases hs : strstr haystack needle with
  | none => rw [hs] at h; simp at h; simp [h]
  | some k => rw [hs] at h; simp at h; simp [h]

theorem strstr_isSome_name (name text : String) :
    (strstr name.toList text.toList).isSome = nameContains text name :=
  strstr_isSome name.toList text.toList

theorem strstr_none_name (name text : String) :
    (strstr name.toList text.toList = none) ↔ nameContains text name = false := by
  rw [← strstr_isSome_name]
  cases strstr name.toList text.toList <;> simp

/-- The flags after the callback has seen one device. -/
theorem enumerate_devices_callback_without_update (deviceInfo : ma_device_info)
    (found old : Bool) (globals : AudioMothSettings) :
    enumerate_devices_callback deviceInfo ⟨false, found, old⟩ globals
      = some (!nameContains "AudioMoth" deviceInfo.name,
          ⟨false, found || nameContains "AudioMoth" deviceInfo.name,
            old || nameContains "F32x USBXpress Device" deviceInfo.name
              || (nameContains "AudioMoth" deviceInfo.name
                && !nameContains "kHz AudioMoth" deviceInfo.name)⟩, globals) := by
  unfold enumerate_devices_callback
  simp only [strstr_isSome_name, strstr_none_name, MA_TRUE, MA_FALSE]
  cases nameContains "F32x USBXpress Device" deviceInfo.name <;>
    cases nameContains "AudioMoth" deviceInfo.name <;>
    cases nameContains "kHz AudioMoth" deviceInfo.name <;> simp

theorem enumerate_devices_callback_with_update (deviceInfo : ma_device_info)
    (found old : Bool) (globals : AudioMothSettings) :
    enumerate_devices_callback deviceInfo ⟨true, found, old⟩ globals = none
      ∨ ∃ globals', enumerate_devices_callback deviceInfo ⟨true, found, old⟩ globals
        = some (!nameContains "AudioMoth" deviceInfo.name,
          ⟨true, found || nameContains "AudioMoth" deviceInfo.name,
            old || nameContains "F32x USBXpress Device" deviceInfo.name
              || (nameContains "AudioMoth" deviceInfo.name
                && !nameContains "kHz AudioMoth" deviceInfo.name)⟩, globals') := by
  unfold enumerate_devices_callback
  simp only [strstr_isSome_name, strstr_none_name, MA_TRUE, MA_FALSE]
  cases strstr deviceInfo.name.toList "kHz".toList with
  | none =>
    cases nameContains "F32x USBXpress Device" deviceInfo.name <;>
      cases nameContains "AudioMoth" deviceInfo.name <;>
      cases nameContains "kHz AudioMoth" deviceInfo.name <;> simp
  | some offset =>
    simp only []
    generalize enumerate_devices_callback.digits _ 1000 0 = parsed
    cases parsed <;>
      cases nameContains "F32x USBXpress Device" deviceInfo.name <;>
      cases nameContains "AudioMoth" deviceInfo.name <;>
      cases nameContains "kHz AudioMoth" deviceInfo.name <;> simp

theorem expectedDeviceCheck_cons (name : String) (names : List String) :
    expectedDeviceCheck (name :: names)
      = if nameContains "AudioMoth" name then
          ⟨true, nameContains "F32x USBXpress Device" name || !nameContains "kHz AudioMoth" name⟩
        else ⟨(expectedDeviceCheck names).audioMothFound,
          nameContains "F32x USBXpress Device" name || (expectedDeviceCheck names).oldAudioMothFound⟩ := by
  unfold expectedDeviceCheck
  by_cases h : nameContains "AudioMoth" name = true
  · simp [namesUpToFirstAudioMoth, h]
  · simp only [Bool.not_eq_true] at h
    simp [namesUpToFirstAudioMoth, h, Bool.or_assoc]

theorem ma_context_enumerate_devices_without_update (result : Int) :
    ∀ (devices : List ma_device_info) (found old : Bool) (globals : AudioMothSettings),
      ma_context_enumerate_devices result enumerate_devices_callback devices ⟨false, found, old⟩ globals
        = some (result,
            ⟨false, found || (expectedDeviceCheck (devices.map (·.name))).audioMothFound,
              old || (expectedDeviceCheck (devices.map (·.name))).oldAudioMothFound⟩, globals) := by
  intro devices
  induction devices with
  | nil => intro found old globals; simp [ma_context_enumerate_devices, expectedDeviceCheck, namesUpToFirstAudioMoth]
  | cons d devices ih =>
    intro found old globals
    unfold ma_context_enumerate_devices
    rw [enumerate_devices_callback_without_update, List.map_cons, expectedDeviceCheck_cons]
    simp only [MA_FALSE]
    by_cases h : nameContains "AudioMoth" d.name = true
    · simp [h, Bool.or_assoc]
    · simp only [Bool.not_eq_true] at h
      simp [h, ih, Bool.or_assoc]

theorem ma_context_enumerate_devices_with_update (result : Int) :
    ∀ (devices : List ma_device_info) (found old : Bool) (globals : AudioMothSettings),
      ma_context_enumerate_devices result enumerate_devices_callback devices ⟨true, found, old⟩ globals
          = none
        ∨ ∃ globals',
          ma_context_enumerate_devices result enumerate_devices_callback devices ⟨true, found, old⟩
              globals
            = some (result,
              ⟨true, found || (expectedDeviceCheck (devices.map (·.name))).audioMothFound,
                old || (expectedDeviceCheck (devices.map (·.name))).oldAudioMothFound⟩, globals') := by
  intro devices
  induction devices with
  | nil =>
    intro found old globals
    exact Or.inr ⟨globals, by simp [ma_context_enumerate_devices, expectedDeviceCheck, namesUpToFirstAudioMoth]⟩
  | cons d devices ih =>
    intro found old globals
    unfold ma_context_enumerate_devices
    rcases enumerate_devices_callback_with_update d found old globals with hc | ⟨globals', hc⟩
    · left; rw [hc]
    · rw [hc, List.map_cons, expectedDeviceCheck_cons]
      simp only [MA_FALSE]
      by_cases h : nameContains "AudioMoth" d.name = true
      · right; exact ⟨globals', by simp [h, Bool.or_assoc]⟩
      · simp only [Bool.not_eq_true] at h
        rcases ih found (old || nameContains "F32x USBXpress Device" d.name)
          globals' with hi | ⟨globals'', hi⟩
        · left; simp [h, hi]
        · right; exact ⟨globals'', by simp [h, hi, Bool.or_assoc]⟩

theorem enumerate_devices_callback_halts (deviceInfo : ma_device_info)
    (info : enumerate_devices_t) (globals : AudioMothSettings) :
    enumerate_devices_callback deviceInfo info globals = none
      ∨ ∃ info' globals', enumerate_devices_callback deviceInfo info globals
        = some (!nameContains "AudioMoth" deviceInfo.name, info', globals') := by
  obtain ⟨update, found, old⟩ := info
  cases update with
  | false => exact Or.inr ⟨_, _, enumerate_devices_callback_without_update deviceInfo found old globals⟩
  | true =>
    rcases enumerate_devices_callback_with_update deviceInfo found old globals with h | ⟨g, h⟩
    · exact Or.inl h
    · exact Or.inr ⟨_, g, h⟩

theorem ma_context_enumerate_devices_halts (result : Int) :
    ∀ (devices : List ma_device_info) (info : enumerate_devices_t) (globals : AudioMothSettings),
      ma_context_enumerate_devices result enumerate_devices_callback devices info globals
        = ma_context_enumerate_devices result enumerate_devices_callback
            (devicesUpToFirstAudioMoth devices) info globals := by
  intro devices
  induction devices with
  | nil => intro info globals; rfl
  | cons d devices ih =>
    intro info globals
    unfold devicesUpToFirstAudioMoth
    by_cases h : nameContains "AudioMoth" d.name = true
    · rw [if_pos h]
      simp only [ma_context_enumerate_devices]
      rcases enumerate_devices_callback_halts d info globals with hc | ⟨info', globals', hc⟩
      · rw [hc]
      · rw [hc]; simp [h, MA_FALSE]
    · rw [if_neg h]
      simp only [ma_context_enumerate_devices]
      rcases enumerate_devices_callback_halts d info globals with hc | ⟨info', globals', hc⟩
      · rw [hc]
      · rw [hc]; simp [h, MA_FALSE, ih]

theorem checkForAudioMoth_without_update (devices : List ma_device_info) (enumerationResult : Int)
    (globals : AudioMothSettings) :
    checkForAudioMoth devices enumerationResult false globals
      = some (expectedCheckResult (devices.map (·.name)) enumerationResult, globals) := by
  unfold checkForAudioMoth expectedCheckResult
  simp only [ma_context_enumerate_devices_without_update, Bool.false_or]
  by_cases h : enumerationResult = MA_SUCCESS
  · simp [h]
  · simp [h]

theorem checkForAudioMoth_with_update (devices : List ma_device_info) (enumerationResult : Int)
    (globals : AudioMothSettings) :
    checkForAudioMoth devices enumerationResult true globals = none
      ∨ (checkForAudioMoth devices enumerationResult true globals).map Prod.fst
        = some (expectedCheckResult (devices.map (·.name)) enumerationResult) := by
  unfold checkForAudioMoth expectedCheckResult
  simp only []
  rcases ma_context_enumerate_devices_with_update enumerationResult devices false false globals
    with h | ⟨g, h⟩
  · left; rw [h]
  · right
    rw [h]
    by_cases h2 : enumerationResult = MA_SUCCESS
    · simp [h2]
    · simp [h2]

/-- C15: without `updateAudioMothSettings` the check returns, for every list of devices,
`audioMothFound` iff some name contains `AudioMoth` and `oldAudioMothFound` iff a name up
to the first AudioMoth name contains `F32x USBXpress Device` or that AudioMoth name lacks
`kHz AudioMoth`, both false when the enumeration fails; the devices after the first
AudioMoth name never matter; with `updateAudioMothSettings` the check either has the same
flags or has no defined result, and it has none for the single device
`AudioMoth USB Microphone`, whose expected flags are both true. -/
theorem C15_device_check :
    (∀ (devices : List ma_device_info) (enumerationResult : Int) (globals : AudioMothSettings),
        checkForAudioMoth devices enumerationResult false globals
          = some (expectedCheckResult (devices.map (·.name)) enumerationResult, globals))
      ∧ (∀ (devices : List ma_device_info) (enumerationResult : Int) (update : Bool)
          (globals : AudioMothSettings),
        checkForAudioMoth devices enumerationResult update globals
          = checkForAudioMoth (devicesUpToFirstAudioMoth devices) enumerationResult update globals)
      ∧ (∀ (devices : List ma_device_info) (enumerationResult : Int) (globals : AudioMothSettings),
        checkForAudioMoth devices enumerationResult true globals = none
          ∨ (checkForAudioMoth devices enumerationResult true globals).map Prod.fst
            = some (expectedCheckResult (devices.map (·.name)) enumerationResult))
      ∧ checkForAudioMoth [deviceNamed "AudioMoth USB Microphone"] MA_SUCCESS true ⟨[], 0⟩ = none
      ∧ expectedCheckResult ["AudioMoth USB Microphone"] MA_SUCCESS = ⟨true, true⟩ := by
  refine ⟨checkForAudioMoth_without_update, ?_, checkForAudioMoth_with_update, by decide, by decide⟩
  intro devices enumerationResult update globals
  unfold checkForAudioMoth
  simp only []
  rw [ma_context_enumerate_devices_halts]

/-! ### Sample rate parsed from the device name -/

theorem wrap32_modEq (x : Int) : wrap32 x ≡ x [ZMOD 2 ^ 32] := by
  unfold wrap32 Int.ModEq
  omega

theorem wrap32_congr {a b : Int} (h : a ≡ b [ZMOD 2 ^ 32]) : wrap32 a = wrap32 b := by
  unfold wrap32
  have h2 : (a + 2 ^ 31) % 2 ^ 32 = (b + 2 ^ 31) % 2 ^ 32 := Int.ModEq.add_right _ h
  rw [h2]

theorem isDigit_iff (c : Char) : ('0' ≤ c ∧ c ≤ '9') ↔ c.isDigit = true := by
  simp only [Char.isDigit, Bool.and_eq_true, decide_eq_true_eq]
  exact Iff.rfl

theorem digit_cast {c : Char} (h : c.isDigit = true) :
    ((c.toNat - '0'.toNat : Nat) : Int) = (c.toNat : Int) - ('0'.toNat : Int) := by
  simp only [Char.isDigit, Bool.and_eq_true, decide_eq_true_eq] at h
  have h1 : 48 ≤ c.val.toNat := h.1
  have h2 : '0'.toNat = 48 := rfl
  have h3 : c.toNat = c.val.toNat := rfl
  rw [h2, h3]
  omega

/-- The loop over a run of digits, least significant first, that ends at a byte which is
not a digit: the rate grows by the multiplier times the value of the run, in 32 bits. -/
theorem digits_run : ∀ (run : List Char) (stop : Char) (below : List Char) (multiplier rate : Int),
    run ≠ [] → (∀ c ∈ run, c.isDigit = true) → stop.isDigit = false →
    enumerate_devices_callback.digits (run ++ stop :: below) multiplier rate
      = some (wrap32 (rate + multiplier
          * ((run.foldr (fun c value => value * 10 + (c.toNat - '0'.toNat)) 0 : Nat) : Int))) := by
  intro run
  induction run with
  | nil => intro _ _ _ _ h; exact absurd rfl h
  | cons c run ih =>
    intro stop below multiplier rate _ hdigits hstop
    have hc : c.isDigit = true := hdigits c (List.mem_cons_self _ _)
    cases hrun : run with
    | nil =>
      have hs : ¬ ('0' ≤ stop ∧ stop ≤ '9') := by rw [isDigit_iff, hstop]; simp
      simp only [List.nil_append, List.cons_append]
      rw [enumerate_devices_callback.digits]
      simp only [if_neg hs, List.foldr_cons, List.foldr_nil, Nat.zero_mul, Nat.zero_add,
        digit_cast hc]
      congr 1
      exact wrap32_congr (Int.ModEq.add_left _ (wrap32_modEq _))
    | cons c' run' =>
      have hc' : c'.isDigit = true := hdigits c' (by rw [hrun]; simp)
      have hs : '0' ≤ c' ∧ c' ≤ '9' := (isDigit_iff c').mpr hc'
      have hi := ih stop below (wrap32 (multiplier * 10))
        (wrap32 (rate + wrap32 (multiplier * ((c.toNat : Int) - ('0'.toNat : Int)))))
        (by rw [hrun]; simp) (fun x hx => hdigits x (List.mem_cons_of_mem _ hx)) hstop
      rw [hrun] at hi
      simp only [List.cons_append] at hi ⊢
      rw [enumerate_devices_callback.digits]
      simp only [if_pos hs]
      rw [hi]
      congr 1
      apply wrap32_congr
      have hf : List.foldr (fun c value => value * 10 + (c.toNat - '0'.toNat)) 0 (c :: c' :: run')
          = List.foldr (fun c value => value * 10 + (c.toNat - '0'.toNat)) 0 (c' :: run') * 10
            + (c.toNat - '0'.toNat) := rfl
      rw [hf, Nat.cast_add, Nat.cast_mul, digit_cast hc, Nat.cast_ofNat]
      generalize ((List.foldr (fun c value => value * 10 + (c.toNat - '0'.toNat)) 0 (c' :: run') : Nat) : Int) = v
      have e1 := wrap32_modEq (rate + wrap32 (multiplier * ((c.toNat : Int) - ('0'.toNat : Int))))
      have e2 : rate + wrap32 (multiplier * ((c.toNat : Int) - ('0'.toNat : Int)))
          ≡ rate + multiplier * ((c.toNat : Int) - ('0'.toNat : Int)) [ZMOD 2 ^ 32] :=
        Int.ModEq.add_left _ (wrap32_modEq _)
      have e3 : wrap32 (multiplier * 10) * v ≡ multiplier * 10 * v [ZMOD 2 ^ 32] :=
        Int.ModEq.mul_right _ (wrap32_modEq _)
      have e4 := (e1.trans e2).add e3
      have e5 : rate + multiplier * ((c.toNat : Int) - ('0'.toNat : Int)) + multiplier * 10 * v
          = rate + multiplier * (v * 10 + ((c.toNat : Int) - ('0'.toNat : Int))) := by ring
      rw [e5] at e4
      exact e4

/-- The first occurrence: `strstr` finds the needle right after `front` when the needle
does not occur earlier, that is, not within `front` followed by all but the last character
of the needle. -/
theorem strstr_append (needle : List Char) (hn : needle ≠ []) :
    ∀ (front back : List Char), ¬ needle <:+: front ++ needle.dropLast →
      strstr (front ++ (needle ++ back)) needle = some front.length := by
  intro front
  induction front with
  | nil =>
    intro back _
    obtain ⟨c, rest, rfl⟩ := List.exists_cons_of_ne_nil hn
    rw [List.nil_append, List.cons_append, strstr, if_pos]
    · rfl
    · rw [List.isPrefixOf_iff_prefix]
      exact ⟨back, rfl⟩
  | cons a front ih =>
    intro back h
    rw [List.cons_append, strstr, List.length_cons]
    have h1 : ¬ needle <+: a :: (front ++ (needle ++ back)) := by
      intro hp
      apply h
      have hl : needle.dropLast ++ (needle.getLast hn :: back) = needle ++ back := by
        conv_rhs => rw [← List.dropLast_append_getLast hn]
        simp
      have hq : (a :: front) ++ needle.dropLast <+: a :: (front ++ (needle ++ back)) := by
        refine ⟨needle.getLast hn :: back, ?_⟩
        simp only [List.cons_append, List.append_assoc, hl]
      have hlen : needle.length ≤ ((a :: front) ++ needle.dropLast).length := by
        simp only [List.length_append, List.length_cons, List.length_dropLast]
        have : 0 < needle.length := List.length_pos.mpr hn
        omega
      exact (List.prefix_of_prefix_length_le hp hq hlen).isInfix
    rw [if_neg (fun hp => h1 (List.isPrefixOf_iff_prefix.mp hp)), ih back, Option.map_some']
    intro hin
    exact h (List.infix_cons hin)

theorem enumerate_devices_callback_rate (deviceInfo : ma_device_info) (info : enumerate_devices_t)
    (globals : AudioMothSettings) (offset : Nat) (rate : Int)
    (hupdate : info.updateAudioMothSettings = true)
    (hfound : nameContains "AudioMoth" deviceInfo.name = true)
    (hoffset : strstr deviceInfo.name.toList "kHz".toList = some offset)
    (hrate : enumerate_devices_callback.digits
      (deviceInfo.id ++ deviceInfo.name.toList.take offset).reverse 1000 0 = some rate) :
    (enumerate_devices_callback deviceInfo info globals).map (fun r => (r.1, r.2.2))
      = some (MA_FALSE, ⟨deviceInfo.id, rate⟩) := by
  obtain ⟨update, found, old⟩ := info
  simp only at hupdate
  subst hupdate
  unfold enumerate_devices_callback
  simp only [strstr_isSome_name, strstr_none_name, hfound, hoffset, hrate]
  cases nameContains "F32x USBXpress Device" deviceInfo.name <;>
    cases nameContains "kHz AudioMoth" deviceInfo.name <;> simp [MA_FALSE]

/-- C16 (counterexample): for the name `4294968kHz AudioMoth`, of the recognised form,
the callback stores the rate 704, not 1000 times 4294968: the sum is kept in 32 bits. -/
theorem C16_long_digit_run_wraps :
    (enumerate_devices_callback (deviceNamed "4294968kHz AudioMoth") ⟨true, false, false⟩
        ⟨[], 0⟩).map (fun r => r.2.2.audioMothSampleRate) = some 704
      ∧ 1000 * (decimalValue "4294968" : Int) = 4294968000 := by
  decide

/-- C16 (amended): for a name `before ++ run ++ "kHz AudioMoth" ++ rest` in which `run` is
a non-empty run of decimal digits with 1000 times its value below 2^31, the `kHz` after
the run is the first `kHz` of the name, and the byte before the run (the last character of
`before`, or the last byte of the device handle when the run starts the name) is not a
digit, the callback with `updateAudioMothSettings` halts the enumeration and sets
`audioMothSampleRate` to 1000 times the decimal value of the run. -/
theorem C16_sample_rate_from_name (id before run rest front : List Char) (stop : Char)
    (info : enumerate_devices_t) (globals : AudioMothSettings)
    (hupdate : info.updateAudioMothSettings = true)
    (hrun : run ≠ []) (hdigits : ∀ c ∈ run, c.isDigit = true)
    (hfirst : ¬ "kHz".toList <:+: before ++ run ++ "kH".toList)
    (hstop : id ++ before = front ++ [stop]) (hnot : stop.isDigit = false)
    (hbound : 1000 * (decimalValue (String.mk run) : Int) < 2 ^ 31) :
    (enumerate_devices_callback
        ⟨id, String.mk (before ++ run ++ "kHz AudioMoth".toList ++ rest)⟩ info globals).map
          (fun r => (r.1, r.2.2))
      = some (MA_FALSE, ⟨id, 1000 * (decimalValue (String.mk run) : Int)⟩) := by
  have hN : before ++ run ++ "kHz AudioMoth".toList ++ rest
      = (before ++ run) ++ ("kHz".toList ++ (" AudioMoth".toList ++ rest)) := by
    have e : "kHz AudioMoth".toList = "kHz".toList ++ " AudioMoth".toList := by decide
    rw [e]
    simp only [List.append_assoc]
  have hk : strstr (before ++ run ++ "kHz AudioMoth".toList ++ rest) "kHz".toList
      = some (before ++ run).length := by
    rw [hN]
    exact strstr_append "kHz".toList (by decide) (before ++ run) _ hfirst
  have hfound : nameContains "AudioMoth"
      (String.mk (before ++ run ++ "kHz AudioMoth".toList ++ rest)) = true := by
    unfold nameContains
    rw [decide_eq_true_eq]
    refine ⟨before ++ run ++ "kHz ".toList, rest, ?_⟩
    have e : "kHz AudioMoth".toList = "kHz ".toList ++ "AudioMoth".toList := by decide
    show before ++ run ++ "kHz ".toList ++ "AudioMoth".toList ++ rest
      = before ++ run ++ "kHz AudioMoth".toList ++ rest
    rw [e]
    simp only [List.append_assoc]
  have hmem : (id ++ List.take (before ++ run).length
      (before ++ run ++ "kHz AudioMoth".toList ++ rest)).reverse
      = run.reverse ++ stop :: front.reverse := by
    rw [hN, List.take_left, ← List.append_assoc, hstop]
    simp
  have hvalue : ((run.reverse.foldr (fun c value => value * 10 + (c.toNat - '0'.toNat)) 0 : Nat) : Int)
      = (decimalValue (String.mk run) : Int) := by
    rw [List.foldr_reverse]
    rfl
  have hloop := digits_run run.reverse stop front.reverse 1000 0 (by simpa using hrun)
    (fun c hc => hdigits c (List.mem_reverse.mp hc)) hnot
  rw [hvalue, Int.zero_add,
    wrap32_of_range (by have := Int.natCast_nonneg (decimalValue (String.mk run)); omega) hbound]
    at hloop
  exact enumerate_devices_callback_rate _ info globals (before ++ run).length _ hupdate hfound hk
    (by rw [← hloop]; exact congrArg (fun m => enumerate_devices_callback.digits m 1000 0) hmem)

theorem C16_sample_rate_from_name_witness :
    (enumerate_devices_callback (deviceNamed "384kHz AudioMoth USB Microphone")
        ⟨true, false, false⟩ ⟨[], 0⟩).map (fun r => (r.1, r.2.2))
      = some (MA_FALSE, ⟨[Char.ofNat 0], 384000⟩) :=
  C16_sample_rate_from_name [Char.ofNat 0] [] "384".toList " USB Microphone".toList []
    (Char.ofNat 0) ⟨true, false, false⟩ ⟨[], 0⟩ rfl (by decide) (by decide) (by decide) rfl
    (by decide) (by decide)

/-- The two side conditions of the rate parser are needed: a digit in the last byte of the
device handle is read as one more digit of a run that starts the name, and a `kHz` earlier
in the name is the one whose digits are read. -/
theorem sample_rate_side_conditions :
    (enumerate_devices_callback ⟨[Char.ofNat 0, '7'], "384kHz AudioMoth USB Microphone"⟩ ⟨true, false, false⟩
        ⟨[], 0⟩).map (fun r => r.2.2.audioMothSampleRate) = some 7384000
      ∧ (enumerate_devices_callback (deviceNamed "x1kHz 384kHz AudioMoth") ⟨true, false, false⟩
        ⟨[], 0⟩).map (fun r => r.2.2.audioMothSampleRate) = some 1000 := by
  decide

/-! ### First playback callbacks -/

/-- One output frame of the playback resampler at 48 kHz without heterodyne, from position
0: eight steps of 1/8, after which the interpolator has moved on by one ring sample. -/
theorem playback_inner_frame (audioBuffer : Int → Int) (readIndex : Int) (next current : ℚ)
    (waiting : Bool) :
    playback_data_callback.inner noHeterodyne false audioBuffer (1 / 8) 8
        (⟨0, readIndex, next, current, waiting⟩, (), 0)
      = (⟨0, Int.tmod (wrap32 (readIndex + 1)) AUDIO_BUFFER_SIZE, (audioBuffer readIndex : ℚ),
          next, waiting⟩, (), 8 * current + 7 / 2 * (next - current)) := by
  simp only [playback_data_callback.inner]
  norm_num
  ring

theorem playback_outer_prefix {H : Type} (heterodyne : Heterodyne H) (heterodyneEnabled : Bool)
    (audioBuffer : Int → Int) (sampleRateDivider : Int) (step : ℚ) :
    ∀ (frameCount : Nat) (x : Playback × H × List Int),
      x.2.2 <+: (playback_data_callback.outer heterodyne heterodyneEnabled audioBuffer
        sampleRateDivider step frameCount x).2.2 := by
  intro frameCount
  induction frameCount with
  | zero => intro x; exact List.prefix_refl _
  | succ n ih =>
    intro x
    obtain ⟨p, h, outputBuffer⟩ := x
    rw [playback_data_callback.outer]
    exact List.IsPrefix.trans (List.prefix_append outputBuffer _) (ih (_, _, outputBuffer ++ [_]))

theorem clipSample_half : clipSample (3500 / 8) = 438 := by
  unfold clipSample roundHalfAway
  rw [if_pos (by norm_num)]
  have h : ⌊(3500 / 8 : ℚ) + 1 / 2⌋ = 438 := by
    rw [Int.floor_eq_iff]
    constructor <;> norm_num
  rw [h]
  decide

/-- The first two output samples of the playback resampler started from the initial
playback variables on a ring of constant 1000: 0, then the mean of the eight interpolated
values 0, 125, …, 875, rounded. -/
theorem playback_outer_first_frames (count : Nat) (hcount : 2 ≤ count) :
    [0, 438] <+: (playback_data_callback.outer noHeterodyne false constantBuffer 8 (1 / 8)
      count (initialPlayback, (), [])).2.2 := by
  obtain ⟨frameCount, rfl⟩ : ∃ frameCount, count = frameCount + 2 := ⟨count - 2, by omega⟩
  have h1 : playback_data_callback.outer noHeterodyne false constantBuffer 8 (1 / 8)
      (frameCount + 2) (initialPlayback, (), [])
      = playback_data_callback.outer noHeterodyne false constantBuffer 8 (1 / 8) frameCount
        (⟨0, 2, 1000, 1000, false⟩, (), [0, 438]) := by
    rw [playback_data_callback.outer]
    have e1 : (8 : Int).toNat = 8 := rfl
    simp only [e1]
    rw [show initialPlayback = (⟨0, 0, 0, 0, false⟩ : Playback) from rfl, playback_inner_frame]
    rw [playback_data_callback.outer]
    simp only [e1]
    rw [playback_inner_frame]
    have e2 : Int.tmod (wrap32 (0 + 1)) AUDIO_BUFFER_SIZE = 1 := by decide
    have e3 : Int.tmod (wrap32 (1 + 1)) AUDIO_BUFFER_SIZE = 2 := by decide
    have e4 : clipSample ((8 * 0 + 7 / 2 * (0 - 0)) / 8) = 0 := by
      have : (8 * 0 + 7 / 2 * (0 - 0) : ℚ) / 8 = ((0 : Int) : ℚ) := by norm_num
      rw [this, clipSample_intCast (by decide) (by decide)]
    have e5 : clipSample ((8 * 0 + 7 / 2 * (1000 - 0)) / 8) = 438 := by
      have : (8 * 0 + 7 / 2 * (1000 - 0) : ℚ) / 8 = 3500 / 8 := by norm_num
      rw [this, clipSample_half]
    simp only [e2, e3, constantBuffer, List.nil_append, List.cons_append, Int.cast_ofNat]
    rw [e4, e5]
  rw [h1]
  exact playback_outer_prefix noHeterodyne false constantBuffer 8 (1 / 8) frameCount
    (⟨0, 2, 1000, 1000, false⟩, (), [0, 438])

theorem playback_first_callback_plays (frameCount : Nat) (hcount : 2 ≤ frameCount)
    (hlag : (frameCount : Int) ≤ 9600) :
    (playback_data_callback false noHeterodyne false constantBuffer 9600 48000 frameCount
        initialPlayback ()).map (fun r => r.1.take 2) = some [0, 438] := by
  have h1 : playback_data_callback.sampleLag 9600 initialPlayback.playbackReadIndex = 9600 := by
    decide
  have h2 : playback_data_callback.bufferLag 9600 48000 = some 2 := by decide
  have h3 : playback_data_callback.resynchronises false 9600 initialPlayback.playbackReadIndex
      48000 = some false := by decide
  have h4 : decide ((9600 : Int) < wrap32 (frameCount : Int)) = false := by
    rw [wrap32_of_range (by omega) (by omega)]
    simpa using hlag
  have h5 : Int.tdiv MAXIMUM_SAMPLE_RATE PLAYBACK_SAMPLE_RATE = 8 := by decide
  have h6 : (((48000 : Int) : ℚ) / ((MAXIMUM_SAMPLE_RATE : Int) : ℚ)) = 1 / 8 := by
    unfold MAXIMUM_SAMPLE_RATE
    norm_num
  have h7 : initialPlayback.playbackBufferWaiting = false := rfl
  have h8 := playback_outer_first_frames frameCount hcount
  rw [List.prefix_iff_eq_take] at h8
  unfold playback_data_callback
  simp only [h1, h2, h3, h4, h5, h6, h7, Bool.false_eq_true, if_false, Bool.or_false,
    Option.map_some', Option.some.injEq]
  exact h8.symm

/-- C11 (counterexample): from the initial playback variables, with the write index at
9600 (two callback periods of samples in the ring) and a ring of constant 1000, the first
playback callback already runs the resampler: its second output sample is 438. -/
theorem C11_first_callback_plays_ring :
    (playback_data_callback false noHeterodyne false constantBuffer 9600 48000 4800
        initialPlayback ()).map (fun r => r.1.take 2) = some [0, 438] :=
  playback_first_callback_plays 4800 (by norm_num) (by norm_num)

/-- A callback that does not resynchronise, finds fewer samples than it needs and a lag
of no whole callback period outputs zeros and leaves the playback variables as they are. -/
theorem playback_starved {H : Type} (isWindows : Bool) (heterodyne : Heterodyne H)
    (heterodyneEnabled : Bool) (audioBuffer : Int → Int) (w rate : Int) (frameCount : Nat)
    (p : Playback) (h : H) (hw0 : 0 ≤ w) (hw1 : w < AUDIO_BUFFER_SIZE)
    (hr0 : 0 ≤ p.playbackReadIndex) (hr1 : p.playbackReadIndex < AUDIO_BUFFER_SIZE)
    (hrate : 0 < rate) (hcount : (frameCount : Int) < 2 ^ 31)
    (hstarved : (AUDIO_BUFFER_SIZE + w - p.playbackReadIndex) % AUDIO_BUFFER_SIZE < frameCount)
    (hlag : (AUDIO_BUFFER_SIZE + w - p.playbackReadIndex) % AUDIO_BUFFER_SIZE
      * CALLBACKS_PER_SECOND / rate = 0) :
    playback_data_callback isWindows heterodyne heterodyneEnabled audioBuffer w rate frameCount p h
      = some (List.replicate frameCount 0, p, h) := by
  have h1 := sampleLag_eq hw0 hw1 hr0 hr1
  have h2 := bufferLag_eq hw0 hw1 hr0 hr1 hrate
  have h3 := resynchronises_eq isWindows hw0 hw1 hr0 hr1 hrate
  rw [hlag] at h2 h3
  have h4 : decide ((0 : Int) > if isWindows then 5 else 2) = false := by
    cases isWindows <;> decide
  have h5 : ¬ (0 : Int) > TARGET_PLAYBACK_LAG isWindows := by
    cases isWindows <;> decide
  rw [h4] at h3
  have h6 : decide ((AUDIO_BUFFER_SIZE + w - p.playbackReadIndex) % AUDIO_BUFFER_SIZE
      < wrap32 (frameCount : Int)) = true := by
    rw [wrap32_of_range (by omega) hcount]
    simpa using hstarved
  unfold playback_data_callback
  simp only [h2, h3]
  simp only [h1, h6, h5, Bool.false_eq_true, if_false, Bool.or_true, if_true]

/-- A callback that resynchronises outputs zeros and is left waiting at the write index. -/
theorem playback_resynchronised {H : Type} (isWindows : Bool) (heterodyne : Heterodyne H)
    (heterodyneEnabled : Bool) (audioBuffer : Int → Int) (w rate : Int) (frameCount : Nat)
    (p : Playback) (h : H) (bufferLag : Int)
    (hlag : playback_data_callback.bufferLag
      (playback_data_callback.sampleLag w p.playbackReadIndex) rate = some bufferLag)
    (hmax : bufferLag > MAXIMUM_PLAYBACK_LAG isWindows) :
    playback_data_callback isWindows heterodyne heterodyneEnabled audioBuffer w rate frameCount p h
      = some (List.replicate frameCount 0,
          { p with playbackReadIndex := w, playbackBufferWaiting := true }, h) := by
  have h5 : ¬ (0 : Int) > TARGET_PLAYBACK_LAG isWindows := by
    cases isWindows <;> decide
  have hres : playback_data_callback.resynchronises isWindows w p.playbackReadIndex rate
      = some true := by
    unfold playback_data_callback.resynchronises
    rw [hlag, Option.map_some', decide_eq_true hmax]
  unfold playback_data_callback
  simp only [hlag, hres]
  simp only [h5, if_true, if_false, Bool.true_or]

/-- A waiting callback outputs zeros, whether it resynchronises or not. -/
theorem playback_waiting {H : Type} (isWindows : Bool) (heterodyne : Heterodyne H)
    (heterodyneEnabled : Bool) (audioBuffer : Int → Int) (w rate : Int) (frameCount : Nat)
    (p : Playback) (h : H) (hw0 : 0 ≤ w) (hw1 : w < AUDIO_BUFFER_SIZE)
    (hr0 : 0 ≤ p.playbackReadIndex) (hr1 : p.playbackReadIndex < AUDIO_BUFFER_SIZE)
    (hrate : 0 < rate) (hwaiting : p.playbackBufferWaiting = true) :
    (playback_data_callback isWindows heterodyne heterodyneEnabled audioBuffer w rate frameCount
        p h).map (fun r => (r.1, r.2.2)) = some (List.replicate frameCount 0, h) := by
  have h2 := bufferLag_eq hw0 hw1 hr0 hr1 hrate
  have h3 := resynchronises_eq isWindows hw0 hw1 hr0 hr1 hrate
  generalize decide ((AUDIO_BUFFER_SIZE + w - p.playbackReadIndex) % AUDIO_BUFFER_SIZE
      * CALLBACKS_PER_SECOND / rate > (if isWindows then 5 else 2)) = resync at h3
  unfold playback_data_callback
  simp only [h2, h3]
  cases resync <;> simp [hwaiting]

/-- C11 (amended): at 48000 Hz with 4800 frames per callback and the playback variables in
their initial values, a callback that finds the write index below 4800 outputs only zeros
and leaves the variables initial; a first callback that finds the write index at or above
14400 (28800 on Windows), that is an integer lag above `MAXIMUM_PLAYBACK_LAG`, outputs
only zeros and is left waiting at the write index, and then the second callback outputs
only zeros for every write index, so that ring samples appear from the third callback on
at the earliest. -/
theorem C11_silent_first_callbacks {H : Type} (isWindows : Bool) (heterodyne : Heterodyne H)
    (heterodyneEnabled : Bool) (audioBuffer : Int → Int) (h : H) (w1 w2 : Int)
    (h10 : 0 ≤ w1) (h11 : w1 < AUDIO_BUFFER_SIZE) (h20 : 0 ≤ w2) (h21 : w2 < AUDIO_BUFFER_SIZE) :
    (w1 < 4800 →
        playback_data_callback isWindows heterodyne heterodyneEnabled audioBuffer w1 48000 4800
          initialPlayback h = some (List.replicate 4800 0, initialPlayback, h))
      ∧ ((if isWindows then 28800 else 14400) ≤ w1 →
        playback_data_callback isWindows heterodyne heterodyneEnabled audioBuffer w1 48000 4800
            initialPlayback h = some (List.replicate 4800 0, resynchronisedAt w1, h)
          ∧ (playback_data_callback isWindows heterodyne heterodyneEnabled audioBuffer w2 48000
              4800 (resynchronisedAt w1) h).map (fun r => (r.1, r.2.2))
            = some (List.replicate 4800 0, h)) := by
  have hl : (AUDIO_BUFFER_SIZE + w1 - initialPlayback.playbackReadIndex) % AUDIO_BUFFER_SIZE
      = w1 := by
    have : initialPlayback.playbackReadIndex = 0 := rfl
    rw [this]
    unfold AUDIO_BUFFER_SIZE at *
    omega
  constructor
  · intro hw
    apply playback_starved isWindows heterodyne heterodyneEnabled audioBuffer w1 48000 4800
      initialPlayback h h10 h11 (by decide) (by decide) (by norm_num) (by norm_num)
    · rw [hl]
      exact_mod_cast hw
    · rw [hl]
      unfold CALLBACKS_PER_SECOND
      omega
  · intro hw
    constructor
    · have hlag := @bufferLag_eq w1 initialPlayback.playbackReadIndex 48000 h10 h11 (by decide)
        (by decide) (by norm_num)
      rw [hl] at hlag
      apply playback_resynchronised isWindows heterodyne heterodyneEnabled audioBuffer w1 48000
        4800 initialPlayback h _ hlag
      unfold CALLBACKS_PER_SECOND
      cases isWindows
      · simp only [Bool.false_eq_true, if_false] at hw
        rw [MAXIMUM_PLAYBACK_LAG_values.2]
        omega
      · simp only [if_true] at hw
        rw [MAXIMUM_PLAYBACK_LAG_values.1]
        omega
    · exact playback_waiting isWindows heterodyne heterodyneEnabled audioBuffer w2 48000 4800
        (resynchronisedAt w1) h h20 h21 h10 h11 (by norm_num) rfl

/-- Witness for C11: a non-Windows build, the first callback at write index 14400 and the
second at 20000, on the ring of constant 1000. -/
theorem C11_silent_first_callbacks_witness :
    playback_data_callback false noHeterodyne false constantBuffer 14400 48000 4800
        initialPlayback () = some (List.replicate 4800 0, resynchronisedAt 14400, ())
      ∧ (playback_data_callback false noHeterodyne false constantBuffer 20000 48000 4800
          (resynchronisedAt 14400) ()).map (fun r => (r.1, r.2.2))
        = some (List.replicate 4800 0, ()) :=
  (C11_silent_first_callbacks false noHeterodyne false constantBuffer () 14400 20000
    (by decide) (by decide) (by decide) (by decide)).2 (by decide)

/-! ### State of the capture resampler after a callback -/

theorem playback_inner_consumed {H : Type} (heterodyne : Heterodyne H) (heterodyneEnabled : Bool)
    (audioBuffer : Int → Int) (step : ℚ) :
    ∀ (passes : Nat) (p : Playback) (h : H) (accumulator : ℚ),
      (playback_data_callback.inner heterodyne heterodyneEnabled audioBuffer step passes
          (p, h, accumulator)).1.playbackReadIndex
        = advanceReadIndex (playbackConsumed step passes p.playbackPosition) p.playbackReadIndex
      ∧ (playback_data_callback.inner heterodyne heterodyneEnabled audioBuffer step passes
          (p, h, accumulator)).1.playbackPosition
        = playbackPositionAfter step passes p.playbackPosition := by
  intro passes
  induction passes with
  | zero => intro p h accumulator; exact ⟨rfl, rfl⟩
  | succ n ih =>
    intro p h accumulator
    rw [playback_data_callback.inner]
    by_cases hge : p.playbackPosition + step ≥ 1
    · simp only [hge, if_true, playbackConsumed, playbackPositionAfter, advanceReadIndex]
      exact ih _ _ _
    · simp only [hge, if_false, playbackConsumed, playbackPositionAfter]
      exact ih _ _ _

theorem playbackConsumed_add (step : ℚ) : ∀ (a b : Nat) (position : ℚ),
    playbackConsumed step (a + b) position
      = playbackConsumed step a position
        + playbackConsumed step b (playbackPositionAfter step a position) := by
  intro a
  induction a with
  | zero => intro b position; simp [playbackConsumed, playbackPositionAfter]
  | succ n ih =>
    intro b position
    rw [show n + 1 + b = (n + b) + 1 by omega]
    simp only [playbackConsumed, playbackPositionAfter]
    split_ifs with h
    · rw [ih]; omega
    · rw [ih]

theorem playbackPositionAfter_add (step : ℚ) : ∀ (a b : Nat) (position : ℚ),
    playbackPositionAfter step (a + b) position
      = playbackPositionAfter step b (playbackPositionAfter step a position) := by
  intro a
  induction a with
  | zero => intro b position; simp [playbackPositionAfter]
  | succ n ih =>
    intro b position
    rw [show n + 1 + b = (n + b) + 1 by omega]
    simp only [playbackPositionAfter]
    rw [ih]

theorem advanceReadIndex_add : ∀ (a b : Nat) (index : Int),
    advanceReadIndex (a + b) index = advanceReadIndex b (advanceReadIndex a index) := by
  intro a
  induction a with
  | zero => intro b index; simp [advanceReadIndex]
  | succ n ih =>
    intro b index
    rw [show n + 1 + b = (n + b) + 1 by omega]
    simp only [advanceReadIndex]
    rw [ih]

/-- The frame loop of the playback resampler runs `sampleRateDivider` passes of the inner
loop for each frame, one after the other on the same position and read index. -/
theorem playback_outer_consumed {H : Type} (heterodyne : Heterodyne H) (heterodyneEnabled : Bool)
    (audioBuffer : Int → Int) (sampleRateDivider : Int) (step : ℚ) :
    ∀ (frameCount : Nat) (p : Playback) (h : H) (outputBuffer : List Int),
      (playback_data_callback.outer heterodyne heterodyneEnabled audioBuffer sampleRateDivider step
          frameCount (p, h, outputBuffer)).1.playbackReadIndex
        = advanceReadIndex
            (playbackConsumed step (frameCount * sampleRateDivider.toNat) p.playbackPosition)
            p.playbackReadIndex
      ∧ (playback_data_callback.outer heterodyne heterodyneEnabled audioBuffer sampleRateDivider
          step frameCount (p, h, outputBuffer)).1.playbackPosition
        = playbackPositionAfter step (frameCount * sampleRateDivider.toNat) p.playbackPosition := by
  intro frameCount
  induction frameCount with
  | zero =>
    intro p h outputBuffer
    simp [playback_data_callback.outer, playbackConsumed, playbackPositionAfter, advanceReadIndex]
  | succ n ih =>
    intro p h outputBuffer
    rw [playback_data_callback.outer]
    obtain ⟨i1, i2⟩ := playback_inner_consumed heterodyne heterodyneEnabled audioBuffer step
      sampleRateDivider.toNat p h 0
    obtain ⟨o1, o2⟩ := ih
      (playback_data_callback.inner heterodyne heterodyneEnabled audioBuffer step
        sampleRateDivider.toNat (p, h, 0)).1
      (playback_data_callback.inner heterodyne heterodyneEnabled audioBuffer step
        sampleRateDivider.toNat (p, h, 0)).2.1
      (outputBuffer ++ [clipSample ((playback_data_callback.inner heterodyne heterodyneEnabled
        audioBuffer step sampleRateDivider.toNat (p, h, 0)).2.2 / (sampleRateDivider : ℚ))])
    have hn : (n + 1) * sampleRateDivider.toNat
        = sampleRateDivider.toNat + n * sampleRateDivider.toNat := by ring
    rw [hn, playbackConsumed_add, playbackPositionAfter_add, advanceReadIndex_add]
    rw [i1, i2] at o1
    rw [i2] at o2
    exact ⟨o1, o2⟩

/-- Conservation: every pass adds `step` to the position and every consumed sample takes 1
from it; the position stays non-negative, and below 1 when the step is at most 1. -/
theorem playbackConsumed_conservation (step : ℚ) (hstep : 0 ≤ step) :
    ∀ (passes : Nat) (position : ℚ), 0 ≤ position →
      (playbackConsumed step passes position : ℚ) + playbackPositionAfter step passes position
          = position + passes * step
        ∧ 0 ≤ playbackPositionAfter step passes position
        ∧ (step ≤ 1 → position < 1 → playbackPositionAfter step passes position < 1) := by
  intro passes
  induction passes with
  | zero =>
    intro position h0
    simp [playbackConsumed, playbackPositionAfter, h0]
  | succ n ih =>
    intro position h0
    simp only [playbackConsumed, playbackPositionAfter]
    by_cases hge : position + step ≥ 1
    · simp only [hge, if_true]
      obtain ⟨e, p0, p1⟩ := ih (position + step - 1) (by linarith)
      refine ⟨?_, p0, fun hs hp => p1 hs (by linarith)⟩
      push_cast
      linarith
    · simp only [hge, if_false]
      obtain ⟨e, p0, p1⟩ := ih (position + step) (by linarith)
      refine ⟨?_, p0, fun hs hp => p1 hs (by linarith)⟩
      push_cast
      linarith

theorem advanceReadIndex_eq : ∀ (times : Nat) (index : Int), 0 ≤ index →
    index < AUDIO_BUFFER_SIZE →
    advanceReadIndex times index = (index + times) % AUDIO_BUFFER_SIZE := by
  intro times
  induction times with
  | zero =>
    intro index h0 h1
    simp only [advanceReadIndex, Nat.cast_zero, add_zero]
    rw [Int.emod_eq_of_lt h0 h1]
  | succ n ih =>
    intro index h0 h1
    have hN : AUDIO_BUFFER_SIZE = 2 ^ 25 := rfl
    have hw : wrap32 (index + 1) = index + 1 := wrap32_of_range (by omega) (by omega)
    have ht : Int.tmod (index + 1) AUDIO_BUFFER_SIZE = (index + 1) % AUDIO_BUFFER_SIZE :=
      tmod_eq_emod_of_nonneg (by omega) (by omega)
    rw [advanceReadIndex, hw, ht, ih _ (Int.emod_nonneg _ (by omega))
      (Int.emod_lt_of_pos _ (by omega))]
    rw [hN]
    push_cast
    omega

/-- A callback that neither resynchronises, nor waits, nor starves runs the resampler for
`frameCount` frames of 8 passes each, and nothing else moves the read index or the
position. -/
theorem playback_plays {H : Type} (isWindows : Bool) (heterodyne : Heterodyne H)
    (heterodyneEnabled : Bool) (audioBuffer : Int → Int) (w rate : Int) (frameCount : Nat)
    (p : Playback) (h : H) (hw0 : 0 ≤ w) (hw1 : w < AUDIO_BUFFER_SIZE)
    (hr0 : 0 ≤ p.playbackReadIndex) (hr1 : p.playbackReadIndex < AUDIO_BUFFER_SIZE)
    (hrate : 0 < rate) (hcount : (frameCount : Int) < 2 ^ 31)
    (hres : playback_data_callback.resynchronises isWindows w p.playbackReadIndex rate = some false)
    (hwait : p.playbackBufferWaiting = false)
    (hlag : (frameCount : Int) ≤ playback_data_callback.sampleLag w p.playbackReadIndex) :
    ∃ out p' h', playback_data_callback isWindows heterodyne heterodyneEnabled audioBuffer w rate
          frameCount p h = some (out, p', h')
      ∧ p'.playbackReadIndex
        = advanceReadIndex
            (playbackConsumed ((rate : ℚ) / (MAXIMUM_SAMPLE_RATE : ℚ)) (frameCount * 8)
              p.playbackPosition) p.playbackReadIndex
      ∧ p'.playbackPosition
        = playbackPositionAfter ((rate : ℚ) / (MAXIMUM_SAMPLE_RATE : ℚ)) (frameCount * 8)
            p.playbackPosition := by
  have h2 := bufferLag_eq hw0 hw1 hr0 hr1 hrate
  have h6 : decide (playback_data_callback.sampleLag w p.playbackReadIndex
      < wrap32 (frameCount : Int)) = false := by
    rw [wrap32_of_range (by omega) hcount]
    simpa using hlag
  have h5 : (Int.tdiv MAXIMUM_SAMPLE_RATE PLAYBACK_SAMPLE_RATE).toNat = 8 := by decide
  obtain ⟨o1, o2⟩ := playback_outer_consumed heterodyne heterodyneEnabled audioBuffer
    (Int.tdiv MAXIMUM_SAMPLE_RATE PLAYBACK_SAMPLE_RATE) ((rate : ℚ) / (MAXIMUM_SAMPLE_RATE : ℚ))
    frameCount p (if heterodyneEnabled then heterodyne.normalise h else h) []
  rw [h5] at o1 o2
  unfold playback_data_callback
  simp only [h2, hres]
  simp only [h6, hwait, Bool.false_eq_true, if_false, Bool.or_false]
  generalize (if heterodyneEnabled = true then heterodyne.normalise h else h) = h0 at o1 o2 ⊢
  refine ⟨_, _, _, rfl, ?_, ?_⟩
  · split_ifs
    · exact o1
    · exact o1
  · split_ifs
    · exact o2
    · exact o2

/-- At every rate the samples consumed in `frameCount` frames are at most the entry
position plus `frameCount * rate / 48000`. -/
theorem playbackConsumed_le (rate : Int) (hrate : 0 < rate) (frameCount : Nat) (position : ℚ)
    (h0 : 0 ≤ position) :
    (playbackConsumed ((rate : ℚ) / (MAXIMUM_SAMPLE_RATE : ℚ)) (frameCount * 8) position : ℚ)
      ≤ position + frameCount * rate / 48000 := by
  have hrq0 : (0 : ℚ) < (rate : ℚ) := by exact_mod_cast hrate
  have hmax : ((MAXIMUM_SAMPLE_RATE : Int) : ℚ) = 384000 := by
    unfold MAXIMUM_SAMPLE_RATE
    norm_num
  have hstep0 : (0 : ℚ) ≤ (rate : ℚ) / (MAXIMUM_SAMPLE_RATE : ℚ) := by
    rw [hmax]; positivity
  obtain ⟨hcons, hp0, _⟩ := playbackConsumed_conservation _ hstep0 (frameCount * 8) position h0
  rw [hmax] at hcons hp0 ⊢
  have e : ((frameCount * 8 : Nat) : ℚ) * ((rate : ℚ) / 384000) = frameCount * rate / 48000 := by
    push_cast
    ring
  linarith

theorem playbackConsumed_full_rate : ∀ (passes : Nat),
    playbackConsumed (((384000 : Int) : ℚ) / ((MAXIMUM_SAMPLE_RATE : Int) : ℚ)) passes 0 = passes := by
  have hstep : ((384000 : Int) : ℚ) / ((MAXIMUM_SAMPLE_RATE : Int) : ℚ) = 1 := by
    unfold MAXIMUM_SAMPLE_RATE
    norm_num
  rw [hstep]
  intro passes
  induction passes with
  | zero => rfl
  | succ n ih =>
    rw [playbackConsumed, if_pos (by norm_num)]
    have e : (0 : ℚ) + 1 - 1 = 0 := by norm_num
    rw [e, ih]

/-- C22 (failing input): at 384000 Hz, from the initial playback variables and with the
write index at 4800, the sample lag is 4800, equal to the frame count 4800, so the
callback plays; it consumes 8 * 4800 = 38400 ring samples and leaves the read index at
38400, past the write index. -/
theorem C22_read_index_passes_write_index :
    playback_data_callback.sampleLag 4800 initialPlayback.playbackReadIndex = 4800
      ∧ playback_data_callback.resynchronises false 4800 initialPlayback.playbackReadIndex 384000
        = some false
      ∧ playbackConsumed (((384000 : Int) : ℚ) / ((MAXIMUM_SAMPLE_RATE : Int) : ℚ)) (4800 * 8)
          initialPlayback.playbackPosition = 4800 * 8
      ∧ (playback_data_callback false noHeterodyne false constantBuffer 4800 384000 4800
          initialPlayback ()).map (fun r => r.2.1.playbackReadIndex) = some 38400 := by
  have hlag : playback_data_callback.sampleLag 4800 initialPlayback.playbackReadIndex = 4800 := by
    decide
  have hres : playback_data_callback.resynchronises false 4800 initialPlayback.playbackReadIndex
      384000 = some false := by decide
  have hpos : initialPlayback.playbackPosition = 0 := rfl
  have hidx : initialPlayback.playbackReadIndex = 0 := rfl
  have hcons := playbackConsumed_full_rate (4800 * 8)
  refine ⟨hlag, hres, by rw [hpos]; exact hcons, ?_⟩
  obtain ⟨out, p', h', hc, hr, _⟩ := playback_plays false noHeterodyne false constantBuffer 4800
    384000 4800 initialPlayback () (by decide) (by decide) (by decide) (by decide) (by decide)
    (by norm_num) hres rfl (by rw [hlag]; norm_num)
  rw [hpos, hcons, advanceReadIndex_eq _ _ (by decide) (by decide), hidx] at hr
  rw [hc, Option.map_some', hr]
  norm_num [AUDIO_BUFFER_SIZE]

/-- C22 (what the code keeps): in every playback callback that outputs resampled audio
(no resynchronisation, waiting flag false, sample lag at least `frameCount`), entered with
the position in `[0, 1)`, at an output rate of at most 48000 Hz, the number of ring samples
consumed is at most `frameCount`, hence at most the sample lag: the read index advances by
that number, the lag afterwards is the lag before minus that number, and the position is
again in `[0, 1)`. -/
theorem C22_consumption_within_lag {H : Type} (isWindows : Bool) (heterodyne : Heterodyne H)
    (heterodyneEnabled : Bool) (audioBuffer : Int → Int) (w rate : Int) (frameCount : Nat)
    (p : Playback) (h : H) (hw0 : 0 ≤ w) (hw1 : w < AUDIO_BUFFER_SIZE)
    (hr0 : 0 ≤ p.playbackReadIndex) (hr1 : p.playbackReadIndex < AUDIO_BUFFER_SIZE)
    (hrate0 : 0 < rate) (hrate1 : rate ≤ PLAYBACK_SAMPLE_RATE)
    (hcount : (frameCount : Int) < 2 ^ 31)
    (hpos0 : 0 ≤ p.playbackPosition) (hpos1 : p.playbackPosition < 1)
    (hres : playback_data_callback.resynchronises isWindows w p.playbackReadIndex rate = some false)
    (hwait : p.playbackBufferWaiting = false)
    (hlag : (frameCount : Int) ≤ playback_data_callback.sampleLag w p.playbackReadIndex) :
    ∃ out p' h', playback_data_callback isWindows heterodyne heterodyneEnabled audioBuffer w rate
          frameCount p h = some (out, p', h')
      ∧ p'.playbackReadIndex
        = advanceReadIndex
            (playbackConsumed ((rate : ℚ) / (MAXIMUM_SAMPLE_RATE : ℚ)) (frameCount * 8)
              p.playbackPosition) p.playbackReadIndex
      ∧ playbackConsumed ((rate : ℚ) / (MAXIMUM_SAMPLE_RATE : ℚ)) (frameCount * 8)
          p.playbackPosition ≤ frameCount
      ∧ (playbackConsumed ((rate : ℚ) / (MAXIMUM_SAMPLE_RATE : ℚ)) (frameCount * 8)
          p.playbackPosition : Int) ≤ playback_data_callback.sampleLag w p.playbackReadIndex
      ∧ playback_data_callback.sampleLag w p'.playbackReadIndex
        = playback_data_callback.sampleLag w p.playbackReadIndex
          - (playbackConsumed ((rate : ℚ) / (MAXIMUM_SAMPLE_RATE : ℚ)) (frameCount * 8)
              p.playbackPosition : Int)
      ∧ 0 ≤ p'.playbackPosition ∧ p'.playbackPosition < 1 := by
  obtain ⟨out, p', h', hc, hidx, hpos⟩ := playback_plays isWindows heterodyne heterodyneEnabled
    audioBuffer w rate frameCount p h hw0 hw1 hr0 hr1 hrate0 hcount hres hwait hlag
  have hrq0 : (0 : ℚ) < (rate : ℚ) := by exact_mod_cast hrate0
  have hrq1 : (rate : ℚ) ≤ 48000 := by
    have : rate ≤ 48000 := hrate1
    exact_mod_cast this
  have hmax : ((MAXIMUM_SAMPLE_RATE : Int) : ℚ) = 384000 := by
    unfold MAXIMUM_SAMPLE_RATE
    norm_num
  have hstep0 : (0 : ℚ) ≤ (rate : ℚ) / (MAXIMUM_SAMPLE_RATE : ℚ) := by
    rw [hmax]; positivity
  have hstep1 : (rate : ℚ) / (MAXIMUM_SAMPLE_RATE : ℚ) ≤ 1 / 8 := by
    rw [hmax, div_le_iff₀ (by norm_num)]
    linarith
  obtain ⟨hcons, hp0, hp1⟩ := playbackConsumed_conservation _ hstep0 (frameCount * 8)
    p.playbackPosition hpos0
  generalize hk : playbackConsumed ((rate : ℚ) / (MAXIMUM_SAMPLE_RATE : ℚ)) (frameCount * 8)
    p.playbackPosition = k at *
  have hkq : (k : ℚ) < frameCount + 1 := by
    have h8 : (((frameCount * 8 : Nat) : ℚ)) * ((rate : ℚ) / (MAXIMUM_SAMPLE_RATE : ℚ))
        ≤ frameCount := by
      push_cast
      have hf : (0 : ℚ) ≤ (frameCount : ℚ) := Nat.cast_nonneg _
      nlinarith
    linarith
  have hkn : k ≤ frameCount := by
    have : k < frameCount + 1 := by exact_mod_cast hkq
    omega
  have hkl : (k : Int) ≤ playback_data_callback.sampleLag w p.playbackReadIndex := by
    have : (k : Int) ≤ frameCount := by exact_mod_cast hkn
    omega
  refine ⟨out, p', h', hc, hidx, hkn, hkl, ?_, ?_, ?_⟩
  · have hi : 0 ≤ p'.playbackReadIndex ∧ p'.playbackReadIndex < AUDIO_BUFFER_SIZE := by
      rw [hidx, advanceReadIndex_eq _ _ hr0 hr1]
      exact ⟨Int.emod_nonneg _ (by decide), Int.emod_lt_of_pos _ (by decide)⟩
    rw [sampleLag_eq hw0 hw1 hr0 hr1] at hkl
    rw [sampleLag_eq hw0 hw1 hi.1 hi.2, sampleLag_eq hw0 hw1 hr0 hr1, hidx,
      advanceReadIndex_eq _ _ hr0 hr1]
    unfold AUDIO_BUFFER_SIZE at *
    omega
  · rw [hpos]; exact hp0
  · rw [hpos]; exact hp1 (by linarith) hpos1

/-- Witness for C22: a non-Windows build at 48000 Hz, write index 9600, 4800 frames, from
the initial playback variables. -/
theorem C22_consumption_within_lag_witness :
    ∃ out p' h', playback_data_callback false noHeterodyne false constantBuffer 9600 48000 4800
          initialPlayback () = some (out, p', h')
      ∧ p'.playbackReadIndex
        = advanceReadIndex
            (playbackConsumed (((48000 : Int) : ℚ) / (MAXIMUM_SAMPLE_RATE : ℚ)) (4800 * 8)
              initialPlayback.playbackPosition) initialPlayback.playbackReadIndex
      ∧ playbackConsumed (((48000 : Int) : ℚ) / (MAXIMUM_SAMPLE_RATE : ℚ)) (4800 * 8)
          initialPlayback.playbackPosition ≤ 4800
      ∧ (playbackConsumed (((48000 : Int) : ℚ) / (MAXIMUM_SAMPLE_RATE : ℚ)) (4800 * 8)
          initialPlayback.playbackPosition : Int)
        ≤ playback_data_callback.sampleLag 9600 initialPlayback.playbackReadIndex
      ∧ playback_data_callback.sampleLag 9600 p'.playbackReadIndex
        = playback_data_callback.sampleLag 9600 initialPlayback.playbackReadIndex
          - (playbackConsumed (((48000 : Int) : ℚ) / (MAXIMUM_SAMPLE_RATE : ℚ)) (4800 * 8)
              initialPlayback.playbackPosition : Int)
      ∧ 0 ≤ p'.playbackPosition ∧ p'.playbackPosition < 1 :=
  C22_consumption_within_lag false noHeterodyne false constantBuffer 9600 48000 4800
    initialPlayback () (by decide) (by decide) (by decide) (by decide) (by decide) (by decide)
    (by decide) (le_refl 0) zero_lt_one (by decide) rfl (by decide)

/-! ### The resynchronising branch of the playback callback -/

theorem playback_inner_waiting {H : Type} (heterodyne : Heterodyne H) (heterodyneEnabled : Bool)
    (audioBuffer : Int → Int) (step : ℚ) :
    ∀ (passes : Nat) (p : Playback) (h : H) (accumulator : ℚ),
      (playback_data_callback.inner heterodyne heterodyneEnabled audioBuffer step passes
          (p, h, accumulator)).1.playbackBufferWaiting = p.playbackBufferWaiting := by
  intro passes
  induction passes with
  | zero => intro p h accumulator; rfl
  | succ n ih =>
    intro p h accumulator
    rw [playback_data_callback.inner]
    by_cases hge : p.playbackPosition + step ≥ 1
    · simp only [hge, if_true]
      exact ih _ _ _
    · simp only [hge, if_false]
      exact ih _ _ _

theorem playback_outer_waiting {H : Type} (heterodyne : Heterodyne H) (heterodyneEnabled : Bool)
    (audioBuffer : Int → Int) (sampleRateDivider : Int) (step : ℚ) :
    ∀ (frameCount : Nat) (p : Playback) (h : H) (outputBuffer : List Int),
      (playback_data_callback.outer heterodyne heterodyneEnabled audioBuffer sampleRateDivider step
          frameCount (p, h, outputBuffer)).1.playbackBufferWaiting = p.playbackBufferWaiting := by
  intro frameCount
  induction frameCount with
  | zero => intro p h outputBuffer; rfl
  | succ n ih =>
    intro p h outputBuffer
    rw [playback_data_callback.outer, ih]
    exact playback_inner_waiting heterodyne heterodyneEnabled audioBuffer step _ p h 0

/-- A callback that does not resynchronise: the waiting flag is never set (it is kept, or
cleared when the lag exceeds the target), a waiting or starved callback outputs zeros and
leaves the read index, and any other callback advances the read index by the samples its
resampler consumes. -/
theorem playback_without_resynchronisation {H : Type} (isWindows : Bool)
    (heterodyne : Heterodyne H) (heterodyneEnabled : Bool) (audioBuffer : Int → Int)
    (w rate : Int) (frameCount : Nat) (p : Playback) (h : H) (bufferLag : Int)
    (hlag : playback_data_callback.bufferLag
      (playback_data_callback.sampleLag w p.playbackReadIndex) rate = some bufferLag)
    (hres : playback_data_callback.resynchronises isWindows w p.playbackReadIndex rate
      = some false) :
    ∃ out p' h', playback_data_callback isWindows heterodyne heterodyneEnabled audioBuffer w rate
          frameCount p h = some (out, p', h')
      ∧ p'.playbackBufferWaiting
        = (p.playbackBufferWaiting && !decide (bufferLag > TARGET_PLAYBACK_LAG isWindows))
      ∧ (p.playbackBufferWaiting = true
          ∨ playback_data_callback.sampleLag w p.playbackReadIndex < wrap32 (frameCount : Int) →
          p'.playbackReadIndex = p.playbackReadIndex ∧ out = List.replicate frameCount 0)
      ∧ (p.playbackBufferWaiting = false →
          ¬ playback_data_callback.sampleLag w p.playbackReadIndex < wrap32 (frameCount : Int) →
          p'.playbackReadIndex
            = advanceReadIndex
                (playbackConsumed ((rate : ℚ) / (MAXIMUM_SAMPLE_RATE : ℚ)) (frameCount * 8)
                  p.playbackPosition) p.playbackReadIndex) := by
  have h5 : (Int.tdiv MAXIMUM_SAMPLE_RATE PLAYBACK_SAMPLE_RATE).toNat = 8 := by decide
  obtain ⟨o1, o2⟩ := playback_outer_consumed heterodyne heterodyneEnabled audioBuffer
    (Int.tdiv MAXIMUM_SAMPLE_RATE PLAYBACK_SAMPLE_RATE) ((rate : ℚ) / (MAXIMUM_SAMPLE_RATE : ℚ))
    frameCount p (if heterodyneEnabled then heterodyne.normalise h else h) []
  rw [h5] at o1 o2
  unfold playback_data_callback
  simp only [hlag, hres, Bool.false_eq_true, if_false]
  generalize (if heterodyneEnabled = true then heterodyne.normalise h else h) = h0 at o1 o2 ⊢
  by_cases hsilent : (p.playbackBufferWaiting
      || decide (playback_data_callback.sampleLag w p.playbackReadIndex
          < wrap32 (frameCount : Int))) = true
  · simp only [hsilent, if_true]
    refine ⟨_, _, _, rfl, ?_, ?_, ?_⟩
    · by_cases ht : bufferLag > TARGET_PLAYBACK_LAG isWindows
      · simp [ht]
      · simp [ht]
    · intro _
      constructor
      · split_ifs <;> rfl
      · trivial
    · intro hw hs
      simp [hw, hs] at hsilent
  · simp only [hsilent, Bool.false_eq_true, if_false]
    simp only [Bool.or_eq_true, decide_eq_true_eq, not_or, Bool.not_eq_true] at hsilent
    refine ⟨_, _, _, rfl, ?_, ?_, ?_⟩
    · have hw : (playback_data_callback.outer heterodyne heterodyneEnabled audioBuffer
          (Int.tdiv MAXIMUM_SAMPLE_RATE PLAYBACK_SAMPLE_RATE)
          ((rate : ℚ) / (MAXIMUM_SAMPLE_RATE : ℚ)) frameCount (p, h0, [])).1.playbackBufferWaiting
          = p.playbackBufferWaiting :=
        playback_outer_waiting heterodyne heterodyneEnabled audioBuffer _ _ frameCount p h0 []
      by_cases ht : bufferLag > TARGET_PLAYBACK_LAG isWindows
      · simp [ht, hsilent.1]
      · simp [ht, hw]
    · rintro (hw | hs)
      · rw [hsilent.1] at hw; exact absurd hw (by simp)
      · exact absurd hs hsilent.2
    · intro _ _
      split_ifs
      · exact o1
      · exact o1

/-- C10 (amended): for write and read indices in `[0, N)` and a positive output rate, the
playback callback returns, and it resynchronises if and only if the integer lag
`⌊sample_lag * CALLBACKS_PER_SECOND / R_out⌋` exceeds `MAXIMUM_PLAYBACK_LAG`, which is 5
on the Windows build and 2 (`10 / 4` in integer arithmetic) on every other build; that
is, if and only if `sample_lag * 10 ≥ 6 * R_out`, respectively `≥ 3 * R_out`.  When the
lag exceeds the threshold the read index becomes the write index, the waiting flag is
set and only zeros are output.  When it does not, the callback never sets the waiting
flag (it keeps it, or clears it when the lag exceeds the target lag), and it never jumps:
a waiting or starved callback outputs zeros and leaves the read index where it was, and
any other callback advances the read index by the samples its resampler consumes; so the
flag is set afterwards only if it was set before, and then the read index has not moved. -/
theorem C10_resynchronise_threshold {H : Type} (isWindows : Bool) (heterodyne : Heterodyne H)
    (heterodyneEnabled : Bool) (audioBuffer : Int → Int) (w rate : Int) (frameCount : Nat)
    (p : Playback) (h : H) (hw0 : 0 ≤ w) (hw1 : w < AUDIO_BUFFER_SIZE)
    (hr0 : 0 ≤ p.playbackReadIndex) (hr1 : p.playbackReadIndex < AUDIO_BUFFER_SIZE)
    (hrate : 0 < rate) :
    MAXIMUM_PLAYBACK_LAG true = 5 ∧ MAXIMUM_PLAYBACK_LAG false = 2
    ∧ playback_data_callback.resynchronises isWindows w p.playbackReadIndex rate
      = some (decide ((AUDIO_BUFFER_SIZE + w - p.playbackReadIndex) % AUDIO_BUFFER_SIZE
          * CALLBACKS_PER_SECOND / rate > MAXIMUM_PLAYBACK_LAG isWindows))
    ∧ ((AUDIO_BUFFER_SIZE + w - p.playbackReadIndex) % AUDIO_BUFFER_SIZE
          * CALLBACKS_PER_SECOND / rate > MAXIMUM_PLAYBACK_LAG isWindows
        ↔ (if isWindows then 6 else 3) * rate
          ≤ (AUDIO_BUFFER_SIZE + w - p.playbackReadIndex) % AUDIO_BUFFER_SIZE * 10)
    ∧ ∃ out p' h', playback_data_callback isWindows heterodyne heterodyneEnabled audioBuffer
          w rate frameCount p h = some (out, p', h')
        ∧ (playback_data_callback.resynchronises isWindows w p.playbackReadIndex rate = some true →
            p'.playbackReadIndex = w ∧ p'.playbackBufferWaiting = true
              ∧ out = List.replicate frameCount 0)
        ∧ (playback_data_callback.resynchronises isWindows w p.playbackReadIndex rate = some false →
            p'.playbackBufferWaiting
              = (p.playbackBufferWaiting
                && !decide ((AUDIO_BUFFER_SIZE + w - p.playbackReadIndex) % AUDIO_BUFFER_SIZE
                    * CALLBACKS_PER_SECOND / rate > TARGET_PLAYBACK_LAG isWindows))
            ∧ (p.playbackBufferWaiting = true
                ∨ (AUDIO_BUFFER_SIZE + w - p.playbackReadIndex) % AUDIO_BUFFER_SIZE
                  < wrap32 (frameCount : Int) →
                p'.playbackReadIndex = p.playbackReadIndex ∧ out = List.replicate frameCount 0)
            ∧ (p.playbackBufferWaiting = false →
                ¬ (AUDIO_BUFFER_SIZE + w - p.playbackReadIndex) % AUDIO_BUFFER_SIZE
                  < wrap32 (frameCount : Int) →
                p'.playbackReadIndex
                  = advanceReadIndex
                      (playbackConsumed ((rate : ℚ) / (MAXIMUM_SAMPLE_RATE : ℚ)) (frameCount * 8)
                        p.playbackPosition) p.playbackReadIndex)
            ∧ (p'.playbackBufferWaiting = true →
                p.playbackBufferWaiting = true
                  ∧ p'.playbackReadIndex = p.playbackReadIndex)) := by
  have hmax : MAXIMUM_PLAYBACK_LAG isWindows = if isWindows then 5 else 2 := by
    cases isWindows <;> decide
  have hres := resynchronises_eq isWindows hw0 hw1 hr0 hr1 hrate
  have hlag := bufferLag_eq hw0 hw1 hr0 hr1 hrate
  have hsl := sampleLag_eq hw0 hw1 hr0 hr1
  refine ⟨MAXIMUM_PLAYBACK_LAG_values.1, MAXIMUM_PLAYBACK_LAG_values.2, ?_, ?_, ?_⟩
  · rw [hmax]
    exact hres
  · rw [hmax]
    unfold CALLBACKS_PER_SECOND
    generalize (AUDIO_BUFFER_SIZE + w - p.playbackReadIndex) % AUDIO_BUFFER_SIZE = lag
    cases isWindows
    · simp only [Bool.false_eq_true, if_false]
      rw [gt_iff_lt, Int.lt_iff_add_one_le, Int.le_ediv_iff_mul_le hrate]
      norm_num
    · simp only [if_true]
      rw [gt_iff_lt, Int.lt_iff_add_one_le, Int.le_ediv_iff_mul_le hrate]
      norm_num
  · by_cases hover : (AUDIO_BUFFER_SIZE + w - p.playbackReadIndex) % AUDIO_BUFFER_SIZE
        * CALLBACKS_PER_SECOND / rate > MAXIMUM_PLAYBACK_LAG isWindows
    · have hc := playback_resynchronised isWindows heterodyne heterodyneEnabled audioBuffer w
        rate frameCount p h _ hlag hover
      refine ⟨_, _, _, hc, fun _ => ⟨rfl, rfl, rfl⟩, fun hf => ?_⟩
      rw [hres, ← hmax, decide_eq_true hover] at hf
      exact absurd hf (by simp)
    · have hfalse : playback_data_callback.resynchronises isWindows w p.playbackReadIndex rate
          = some false := by
        rw [hres, ← hmax, decide_eq_false hover]
      obtain ⟨out, p', h', hc, r1, r2, r3⟩ := playback_without_resynchronisation isWindows
        heterodyne heterodyneEnabled audioBuffer w rate frameCount p h _ hlag hfalse
      rw [hsl] at r2 r3
      refine ⟨out, p', h', hc, fun ht => ?_, fun _ => ⟨r1, r2, r3, fun hset => ?_⟩⟩
      · rw [hfalse] at ht
        exact absurd ht (by simp)
      · rw [r1, Bool.and_eq_true] at hset
        exact ⟨hset.1, (r2 (Or.inl hset.1)).1⟩

/-- Witness for C10: a non-Windows build at 48 kHz from the playback variables at program
start.  With write index 14400 (a lag of 3 periods) the callback resynchronises; with
write index 13000 (a lag of 2.7 periods, integer lag 2) it does not: the flag stays clear
and the read index advances by what the resampler consumes. -/
theorem C10_resynchronise_threshold_witness :
    (playback_data_callback.resynchronises false 14400 initialPlayback.playbackReadIndex 48000
        = some true
      ∧ ∃ out p' h', playback_data_callback false noHeterodyne false rampBuffer
          14400 48000 4800 initialPlayback () = some (out, p', h')
        ∧ p'.playbackReadIndex = 14400 ∧ p'.playbackBufferWaiting = true
        ∧ out = List.replicate 4800 0)
    ∧ (playback_data_callback.resynchronises false 13000 initialPlayback.playbackReadIndex 48000
        = some false
      ∧ ∃ out p' h', playback_data_callback false noHeterodyne false rampBuffer
          13000 48000 4800 initialPlayback () = some (out, p', h')
        ∧ p'.playbackBufferWaiting = false
        ∧ p'.playbackReadIndex
          = advanceReadIndex
              (playbackConsumed (((48000 : Int) : ℚ) / (MAXIMUM_SAMPLE_RATE : ℚ)) (4800 * 8)
                initialPlayback.playbackPosition) initialPlayback.playbackReadIndex) := by
  obtain ⟨out, p', h', hc, hr, _⟩ := (C10_resynchronise_threshold false noHeterodyne false
    rampBuffer 14400 48000 4800 initialPlayback () (by decide) (by decide) (by decide)
    (by decide) (by decide)).2.2.2.2
  obtain ⟨out2, p2, h2, hc2, _, hn⟩ := (C10_resynchronise_threshold false noHeterodyne false
    rampBuffer 13000 48000 4800 initialPlayback () (by decide) (by decide) (by decide)
    (by decide) (by decide)).2.2.2.2
  obtain ⟨n1, _, n3, _⟩ := hn (by decide)
  exact ⟨⟨by decide, out, p', h', hc, hr (by decide)⟩,
    by decide, out2, p2, h2, hc2, by rw [n1]; rfl, n3 rfl (by decide)⟩

/-! ### What a write remembers for the next one -/

/-- A call of `writeAutosaveFile` with a non-zero duration stores the local offset it
worked with, the stop time of the file and the name of the file it wrote or appended to
in the `static` variables the next call tests. -/
theorem writeAutosaveFile_remembers (env : Nat → WriteEnv) (duration : Int) (s : Autosave)
    (hd : duration ≠ 0) (ha : 0 < s.autosaveDuration) :
    ∃ ok s', writeAutosaveFile env duration s = some (ok, s')
      ∧ s'.calls = s.calls ++ expectedCalls env duration s
      ∧ s'.previousLocalTimeOffset = localTimeOffsetAt env s
      ∧ s'.autosaveFilePreviousStopTime = s.autosaveFileStartTime + duration
      ∧ s'.autosaveFilename
        = (if ¬ appendEligible env s ∨ (env s.writeCount).appendResult = false then
            some (freshFilename env s) else s.autosaveFilename)
      ∧ s'.writeCount = s.writeCount + 1
      ∧ s'.autosaveDuration = s.autosaveDuration := by
  have hne : s.autosaveDuration ≠ 0 := ne_of_gt ha
  have hmod : Int.tmod (Time_gmTime s.autosaveFileStartTime).tm_min s.autosaveDuration
      = (Time_gmTime s.autosaveFileStartTime).tm_min % s.autosaveDuration :=
    tmod_eq_emod_of_nonneg (tm_min_nonneg _) ha
  have hinside : minuteInsidePeriod (Time_gmTime s.autosaveFileStartTime) s.autosaveDuration
      = some (decide ((Time_gmTime s.autosaveFileStartTime).tm_sec = 0
          ∧ (Time_gmTime s.autosaveFileStartTime).tm_min % s.autosaveDuration > 0)) := by
    unfold minuteInsidePeriod
    by_cases hsec : (Time_gmTime s.autosaveFileStartTime).tm_sec = 0
    · simp only [hsec, if_true, cMod, hne, if_false, Option.map_some', hmod, true_and]
    · simp only [hsec, if_false, false_and, decide_False]
  have hb : (decide ((if s.useLocalTime = true then (env s.writeCount).localTimeOffset else 0)
        = s.previousLocalTimeOffset)
      && decide (s.autosaveFileStartTime = s.autosaveFilePreviousStopTime)
      && decide ((Time_gmTime s.autosaveFileStartTime).tm_sec = 0
          ∧ (Time_gmTime s.autosaveFileStartTime).tm_min % s.autosaveDuration > 0))
      = decide (appendEligible env s) := by
    simp only [appendEligible, localTimeOffsetAt, Bool.decide_and, Bool.and_assoc]
  simp only [writeAutosaveFile, hd, if_false, hinside, hb]
  refine ⟨_, _, rfl, ?_, rfl, rfl, ?_, rfl, rfl⟩
  · by_cases he : appendEligible env s
    · cases h4 : (env s.writeCount).appendResult <;>
        simp [expectedCalls, he, h4, freshHeader, freshFilename, localTimeOffsetAt]
    · simp [expectedCalls, he, freshHeader, freshFilename, localTimeOffsetAt]
  · by_cases he : appendEligible env s
    · cases h4 : (env s.writeCount).appendResult <;>
        simp [he, h4, freshFilename, localTimeOffsetAt]
    · simp [he, freshFilename, localTimeOffsetAt]

/-- Between writes: a minute transition that writes a file leaves the remembered values as
its write stored them, and the next file starts exactly when that file stopped. -/
theorem makeMinuteTransitionRecording_remembers (env : Nat → WriteEnv) (s : Autosave)
    (hrate : s.autosaveFileSampleRate ≠ 0) (ha : 0 < s.autosaveDuration)
    (hd : wrap32 (Int.tdiv (s.autosaveTargetCount - s.autosaveFileStartCount)
      s.autosaveFileSampleRate) ≠ 0) :
    ∃ ok s', makeMinuteTransitionRecording env s = some (ok, s')
      ∧ s'.previousLocalTimeOffset = localTimeOffsetAt env s
      ∧ s'.autosaveFilePreviousStopTime = s'.autosaveFileStartTime
      ∧ s'.autosaveFilename
        = (if ¬ appendEligible env s ∨ (env s.writeCount).appendResult = false then
            some (freshFilename env s) else s.autosaveFilename) := by
  obtain ⟨ok, s1, hw, -, h1, h2, h3, -, -⟩ := writeAutosaveFile_remembers env _ s hd ha
  obtain ⟨ok2, s2, hw2, e1, -⟩ := writeAutosaveFile_cursor env
    (wrap32 (Int.tdiv (s.autosaveTargetCount - s.autosaveFileStartCount)
      s.autosaveFileSampleRate)) s ha
  rw [hw] at hw2
  injection hw2 with hw2
  injection hw2 with _ hs
  subst hs
  refine ⟨ok, _, makeMinuteTransitionRecording_eq hrate hw, h1, ?_, h3⟩
  show s1.autosaveFilePreviousStopTime = s1.autosaveFileStartTime + _
  rw [h2, e1]

/-- The state `recordingAt221400` is the one the worker reaches from `recordingAt221320 5`
by its first minute transition. -/
theorem recordingAt221400_reached :
    makeMinuteTransitionRecording quietWorld (recordingAt221320 5)
      = some (true, recordingAt221400) := by
  decide

/-- C5: a call of `writeAutosaveFile` with a positive duration (and an autosave duration
from the valid set, hence positive) returns, and among the encoder calls it makes there
is a `WavFile_appendFile`, on the file name of the previous write, exactly when the
appending rule holds, and a `WavFile_writeFile` exactly when the rule fails or the append
reports failure; the fresh file is named from `autosaveFileStartTime` plus the local
offset and the file destination.  The values of the previous write are those the call
itself stores: the local offset it worked with, its stop time `autosaveFileStartTime +
duration`, and the name of the file it wrote or appended to; hence in every later state
that still holds them the appending rule compares with this write.  A call with duration
0 is no write: it changes nothing. -/
theorem C5_append_policy (env : Nat → WriteEnv) (duration : Int) (s : Autosave)
    (hd : 0 < duration) (ha : 0 < s.autosaveDuration) :
    ∃ ok s' new, writeAutosaveFile env duration s = some (ok, s')
      ∧ s'.calls = s.calls ++ new
      ∧ ((∃ f r1 r2, WavCall.appendFile f r1 r2 ∈ new) ↔ appendEligible env s)
      ∧ (∀ f r1 r2, WavCall.appendFile f r1 r2 ∈ new → f = s.autosaveFilename)
      ∧ ((∃ h f r1 r2, WavCall.writeFile h f r1 r2 ∈ new)
          ↔ (¬ appendEligible env s ∨ (env s.writeCount).appendResult = false))
      ∧ (∀ h f r1 r2, WavCall.writeFile h f r1 r2 ∈ new →
          f = ⟨wrap32 (wrap32 s.autosaveFileStartTime + localTimeOffsetAt env s),
               s.fileDestination⟩)
      ∧ s'.previousLocalTimeOffset = localTimeOffsetAt env s
      ∧ s'.autosaveFilePreviousStopTime = s.autosaveFileStartTime + duration
      ∧ s'.autosaveFilename
        = (if ¬ appendEligible env s ∨ (env s.writeCount).appendResult = false then
            some (freshFilename env s) else s.autosaveFilename)
      ∧ s'.writeCount = s.writeCount + 1
      ∧ (∀ t : Autosave, t.previousLocalTimeOffset = s'.previousLocalTimeOffset →
          t.autosaveFilePreviousStopTime = s'.autosaveFilePreviousStopTime →
          (appendEligible env t ↔
            localTimeOffsetAt env t = localTimeOffsetAt env s
            ∧ t.autosaveFileStartTime = s.autosaveFileStartTime + duration
            ∧ (Time_gmTime t.autosaveFileStartTime).tm_sec = 0
            ∧ (Time_gmTime t.autosaveFileStartTime).tm_min % t.autosaveDuration > 0))
      ∧ writeAutosaveFile env 0 s = some (true, s) := by
  obtain ⟨ok, s', hwrite, hcalls, hoff, hstop, hname, hcount, -⟩ :=
    writeAutosaveFile_remembers env duration s (ne_of_gt hd) ha
  refine ⟨ok, s', expectedCalls env duration s, hwrite, hcalls, ?_, ?_, ?_, ?_, hoff, hstop,
    hname, hcount, ?_, writeAutosaveFile_zero env s⟩
  · constructor
    · rintro ⟨f, r1, r2, h⟩
      exact (mem_expectedCalls_append h).1
    · intro he
      refine ⟨s.autosaveFilename,
        (encoderRanges s.autosaveFileStartIndex (wrap32 (duration * s.autosaveFileSampleRate))).1,
        (encoderRanges s.autosaveFileStartIndex (wrap32 (duration * s.autosaveFileSampleRate))).2,
        ?_⟩
      unfold expectedCalls
      simp only [he, if_true, List.mem_append, List.mem_singleton, true_or]
  · intro f r1 r2 h
    exact (mem_expectedCalls_append h).2
  · constructor
    · rintro ⟨h, f, r1, r2, hm⟩
      exact (mem_expectedCalls_write hm).1
    · intro hc
      refine ⟨freshHeader env duration s, freshFilename env s,
        (encoderRanges s.autosaveFileStartIndex (wrap32 (duration * s.autosaveFileSampleRate))).1,
        (encoderRanges s.autosaveFileStartIndex (wrap32 (duration * s.autosaveFileSampleRate))).2,
        ?_⟩
      unfold expectedCalls
      simp only [hc, if_true, List.mem_append, List.mem_singleton, or_true]
  · intro h f r1 r2 hm
    exact (mem_expectedCalls_write hm).2.1
  · intro t h1 h2
    unfold appendEligible
    rw [h1, h2, hoff, hstop]

/-- Witness for C5: the second minute file of the recording open since 22:13:20 UTC with
an autosave duration of 5 minutes; it starts at 22:14:00, when the first file stopped, so
the appending rule holds and the file is appended to the first one. -/
theorem C5_append_policy_witness :
    appendEligible quietWorld recordingAt221400
      ∧ ∃ ok s' new, writeAutosaveFile quietWorld 60 recordingAt221400 = some (ok, s')
        ∧ s'.calls = recordingAt221400.calls ++ new
        ∧ ((∃ f r1 r2, WavCall.appendFile f r1 r2 ∈ new)
            ↔ appendEligible quietWorld recordingAt221400)
        ∧ (∀ f r1 r2, WavCall.appendFile f r1 r2 ∈ new
            → f = recordingAt221400.autosaveFilename)
        ∧ s'.autosaveFilePreviousStopTime = recordingAt221400.autosaveFileStartTime + 60 := by
  obtain ⟨ok, s', new, h1, h2, h3, h4, _, _, _, h8, _⟩ :=
    C5_append_policy quietWorld 60 recordingAt221400 (by decide) (by decide)
  exact ⟨by decide, ok, s', new, h1, h2, h3, h4, h8⟩

/-! ### The worker as a sequence of steps -/

end AudioMothLive
